import Mathlib

/-! # BayesBot: a shallow embedding of `src/BayesBot.cpp`

The controller of one Kilobot doing Bayesian collective decision-making is a C++
class whose methods mutate the object's fields.  Here every method is a pure
function on a record `BayesBot R` of those fields.

Conventions of the embedding:

* `uint8_t`, `uint16_t`, `uint32_t` values are natural numbers; every place where the
  source can wrap around is written with an explicit `%`.  `int8_t decision` is an
  integer.
* `double` values live in a type parameter `R` of which only `<`, `1` and `-` are
  used (the three operations `update_decision` performs), so nothing is assumed
  about floating point arithmetic.
* What the class inherits from the Kilobot platform and reads from the simulator
  (the tick counter, the light sensor, the random draws) is an explicit input
  `Tick`; the platform's constants and helper functions the class calls but does not
  define (`SECOND`, `NORMAL`, `message_crc`, `incbeta`) are the record `Kilolib`.
* `update_neighbor_info_array` reads a local variable that the source leaves
  uninitialised on one path.  That path has no defined behaviour and is the
  result `none`.
-/

namespace Kilosim

/-! ## Constants of the class -/

abbrev FALSE : Nat := 0
abbrev TRUE : Nat := 1

abbrev DARK : Nat := 0
abbrev GRAY : Nat := 1
abbrev LIGHT : Nat := 2

abbrev OBSERVE : Nat := 0
abbrev DISSEMINATE : Nat := 1
abbrev OBSERVE_DISSEMINATE : Nat := 2

abbrev RW_INIT : Nat := 0
abbrev RW_STRAIGHT : Nat := 1
abbrev RW_TURN : Nat := 2
abbrev TURN_LEFT : Nat := 0
abbrev TURN_RIGHT : Nat := 1
abbrev BOUNCE : Nat := 100

abbrev NEIGHBOR_INFO_ARRAY_SIZE : Nat := 100

/-- Wrap-around modulus of `uint32_t`. -/
abbrev U32 : Nat := 4294967296

/-- Wrap-around modulus of `uint16_t`. -/
abbrev U16 : Nat := 65536

/-! ## Data -/

/-- One row of the table of observations from neighbours.  The source's
`measured_distance` (a float that no method of the class writes or reads, apart from
the debugging print) is left out. -/
structure neighbor_info_array_t where
  id : Nat
  obs_ind : Nat
  time_first_heard_from : Nat
deriving DecidableEq, Repr

/-- The platform's message: a byte buffer (nine bytes on a Kilobot, of which the class
uses the first five), a type tag and a checksum. -/
structure message_t where
  data : List Nat
  type : Nat
  crc : Nat
deriving DecidableEq, Repr

/-- Byte `i` of a message, `m->data[i]`, as a `uint8_t`. -/
def message_t.byte (m : message_t) (i : Nat) : Nat :=
  m.data.getD i 0 % 256

/-- The platform's distance estimate that comes with a message.  The class stores it
and never inspects it. -/
structure distance_measurement_t where
  low_gain : Nat
  high_gain : Nat
deriving DecidableEq, Repr

/-- Arguments of the platform's `set_motors`: zero or one of the calibration values. -/
inductive MotorVal where
  | zero
  | kilo_straight_left
  | kilo_straight_right
  | kilo_turn_left
  | kilo_turn_right
deriving DecidableEq, Repr

/-- The colours `loop` and `setup` hand to `set_color`: `RGB(0.5, 0.5, 0.5)`,
`RGB(1, 0, 0)`, `RGB(0, 1, 0)` and the blend
`RGB(p * .8, (1 - p) * .8, 0.5 * .8)` computed from `beta_thresh_val = p`. -/
inductive Indicator (R : Type) where
  | gray
  | decided_dark
  | decided_light
  | blend (p : R)
deriving DecidableEq, Repr

/-- What the class uses of the Kilobot platform without defining it.  `incbeta a b` is
the call `incbeta(a, b, 0.5)` of `incbeta.h`. -/
structure Kilolib (R : Type) where
  SECOND : Nat
  NORMAL : Nat
  message_crc : message_t → Nat
  incbeta : Nat → Nat → R

/-- What one call of `loop` or `setup` reads from the simulator: the tick counter
`kilo_ticks`, the reading of `get_ambientlight()` (the same for every call in the
tick), the values returned by `exp_rand` and `uniform_rand` if they are called
(floating point draws), and the draws of `rand_hard()` and `rand()` that choose a
turning direction. -/
structure Tick where
  kilo_ticks : Nat
  ambientlight : Nat
  exp_rand : Nat
  uniform_rand : Nat
  rand_hard : Nat
  rand : Nat
deriving DecidableEq, Repr

/-- The fields of `class BayesBot`, with the inherited `id`, `battery`, the colour
last given to `set_color` and the values last given to `set_motors`. -/
structure BayesBot (R : Type) where
  id : Nat
  battery : Nat
  color : Indicator R
  motors : MotorVal × MotorVal
  dark_count : Nat
  light_count : Nat
  decision : Int
  observation_ind : Nat
  light_prior : Nat
  dark_prior : Nat
  use_positive_feedback : Nat
  credible_thresh : R
  allow_simultaneity : Nat
  observe_step_time : Nat
  disseminate_dur : Nat
  curr_light_level : Nat
  state : Nat
  state_change_timer : Nat
  rw_state : Nat
  rw_last_changed : Nat
  rw_mean_straight_dur : Nat
  rw_max_turn_dur : Nat
  rw_state_dur : Nat
  is_feature_detect_safe : Nat
  bounce_turn_state : Nat
  last_observation_tick : Nat
  observation : Nat
  new_observation : Nat
  neighbor_info_array : List neighbor_info_array_t
  rx_message_buffer : message_t
  rx_distance_buffer : distance_measurement_t
  new_message : Nat
  neighbor_info_array_locked : Nat
  neighbor_info_array_timeout : Nat
  tx_message_data : message_t
  beta_thresh_val : R
deriving DecidableEq

section Methods

variable {R : Type} [LT R] [∀ a b : R, Decidable (a < b)] [One R] [Sub R]

/-! ## Neighbour table -/

/-- The loop of `count_neighbors`: `num_neighbors` after the slots of `tbl`, started
from `n`. -/
def count_loop : List neighbor_info_array_t → Nat → Nat
  | [], n => n
  | e :: es, n => count_loop es (if e.id ≠ 0 then (n + 1) % U16 else n)

/-- Count how many neighbours are in the table (how many slots with non-zero id). -/
def count_neighbors (s : BayesBot R) : Nat :=
  count_loop s.neighbor_info_array 0

/-- Every slot's id is set to 0; the other fields of a slot are not touched. -/
def initialize_neighbor_info_array (s : BayesBot R) : BayesBot R :=
  { s with neighbor_info_array := s.neighbor_info_array.map fun e => { e with id := 0 } }

/-- A slot is emptied when `kilo_ticks > time_first_heard_from + timeout`
(a `uint32_t` sum). -/
def prune_neighbor_info_array (kilo_ticks : Nat) (s : BayesBot R) : BayesBot R :=
  { s with neighbor_info_array := s.neighbor_info_array.map fun e =>
      if kilo_ticks > (e.time_first_heard_from + s.neighbor_info_array_timeout) % U32
      then { e with id := 0 } else e }

/-- Add a 0/1 to the Beta distribution counts: `dark_count += 1 - obs` (the `int`
value `1 - obs` converted to `uint32_t`) and `light_count += obs`. -/
def update_beta (obs : Nat) (s : BayesBot R) : BayesBot R :=
  { s with
    dark_count := (((s.dark_count : Int) + (1 - (obs : Int))) % (U32 : Int)).toNat,
    light_count := (s.light_count + obs) % U32 }

/-- First loop of `update_neighbor_info_array` from slot `i` on: the loop has no
`break`, so `index_to_insert` ends as the last slot whose id is `rx_id`; `none` is
`can_insert` still false. -/
def known_loop (rx_id : Nat) : List neighbor_info_array_t → Nat → Option Nat → Option Nat
  | [], _, acc => acc
  | e :: es, i, acc => known_loop rx_id es (i + 1) (if e.id = rx_id then some i else acc)

/-- Second loop: the first slot with id 0, where the loop breaks. -/
def empty_loop : List neighbor_info_array_t → Nat → Option Nat
  | [], _ => none
  | e :: es, i => if e.id = 0 then some i else empty_loop es (i + 1)

/-- Third loop: `earliest_heard_time` is a `uint8_t` that starts at 0 and
`earliest_heard_time_index` starts uninitialised (`none`); a slot whose
`time_first_heard_from` is greater than `earliest_heard_time` replaces both. -/
def earliest_loop : List neighbor_info_array_t → Nat → Nat → Option Nat → Option Nat
  | [], _, _, idx => idx
  | e :: es, i, earliest_heard_time, idx =>
    if e.time_first_heard_from > earliest_heard_time
    then earliest_loop es (i + 1) (e.time_first_heard_from % 256) (some i)
    else earliest_loop es (i + 1) earliest_heard_time idx

/-- The peer id in the first two bytes of a message. -/
def rx_id (m : message_t) : Nat :=
  ((m.byte 0 <<< 8) ||| m.byte 1) % U16

/-- The observation value in the third byte of a message. -/
def obs_val (m : message_t) : Nat :=
  m.byte 2

/-- The sender's observation index in bytes 3 and 4 of a message. -/
def rx_obs_ind (m : message_t) : Nat :=
  ((m.byte 3 <<< 8) ||| m.byte 4) % U16

/-- The slot chosen for a peer that is not in the table: the first empty one, else
the result of the third loop. -/
def index_to_insert (tbl : List neighbor_info_array_t) : Option Nat :=
  match empty_loop tbl 0 with
  | some i => some i
  | none => earliest_loop tbl 0 0 none

/-- Add an incoming message to the table.  When the first loop finds the sender,
`new_entry` is false and the final block (guarded by `can_insert && new_entry`) is
skipped.  Otherwise the chosen slot gets the tick and the id, `update_beta` runs if
the slot's previous `obs_ind` differs from the received one, and `obs_ind` is
stored.  The result is `none` when the third loop leaves the index
uninitialised. -/
def update_neighbor_info_array (m : message_t) (_d : distance_measurement_t)
    (kilo_ticks : Nat) (s : BayesBot R) : Option (BayesBot R) :=
  match known_loop (rx_id m) s.neighbor_info_array 0 none with
  | some _ => some s
  | none =>
    match index_to_insert s.neighbor_info_array with
    | none => none
    | some i =>
      match s.neighbor_info_array[i]? with
      | none => none
      | some e =>
        let s1 : BayesBot R :=
          if e.obs_ind ≠ rx_obs_ind m then update_beta (obs_val m) s else s
        let e1 : neighbor_info_array_t :=
          { e with time_first_heard_from := kilo_ticks, id := rx_id m, obs_ind := rx_obs_ind m }
        some { s1 with neighbor_info_array := s.neighbor_info_array.set i e1 }

/-! ## Movement and sensing -/

/-- Light level of a sensor reading: DARK = [0,250), GRAY = [250,750),
LIGHT = [750,1024]. -/
def detect_light_level (light : Nat) : Nat :=
  if light < 250 then DARK else if light < 750 then GRAY else LIGHT

/-- The robot is outside the black/white area when the light level is GRAY. -/
def find_wall_collision (light : Nat) : Nat :=
  if detect_light_level light = GRAY then 1 else 0

/-- Start the bounce movement in a random direction. -/
def bounce_init (_wall_hit : Nat) (rand : Nat) (s : BayesBot R) : BayesBot R :=
  let s1 : BayesBot R :=
    { s with bounce_turn_state := if rand % 2 = 0 then TURN_LEFT else TURN_RIGHT }
  if s1.bounce_turn_state = TURN_LEFT
  then { s1 with motors := (MotorVal.kilo_turn_left, MotorVal.zero) }
  else { s1 with motors := (MotorVal.zero, MotorVal.kilo_turn_right) }

/-- Non-blocking random walk, iterating between turning and walking states. -/
def random_walk (t : Tick) (_mean_straight_dur _max_turn_dur : Nat) (s : BayesBot R) :
    BayesBot R :=
  let wall_hit := find_wall_collision t.ambientlight
  if wall_hit ≠ 0 ∧ s.rw_state ≠ BOUNCE then
    bounce_init wall_hit t.rand { s with rw_state := BOUNCE, is_feature_detect_safe := FALSE }
  else if s.rw_state = BOUNCE ∧ s.curr_light_level ≠ GRAY then
    { s with rw_state := RW_INIT }
  else if s.rw_state = RW_INIT then
    { s with rw_state := RW_STRAIGHT, is_feature_detect_safe := TRUE,
             rw_last_changed := t.kilo_ticks, rw_state_dur := t.exp_rand,
             motors := (MotorVal.kilo_straight_left, MotorVal.kilo_straight_right) }
  else if s.rw_state = RW_STRAIGHT ∧
      t.kilo_ticks > (s.rw_last_changed + s.rw_state_dur) % U32 then
    { s with rw_last_changed := t.kilo_ticks, rw_state := RW_TURN,
             is_feature_detect_safe := FALSE, rw_state_dur := t.uniform_rand,
             motors := if t.rand_hard &&& 1 ≠ 0
               then (MotorVal.kilo_turn_left, MotorVal.zero)
               else (MotorVal.zero, MotorVal.kilo_turn_left) }
  else if s.rw_state = RW_TURN ∧
      t.kilo_ticks > (s.rw_last_changed + s.rw_state_dur) % U32 then
    { s with rw_last_changed := t.kilo_ticks, rw_state := RW_STRAIGHT,
             is_feature_detect_safe := TRUE, rw_state_dur := t.exp_rand,
             motors := (MotorVal.kilo_straight_left, MotorVal.kilo_straight_right) }
  else s

/-- Check whether a decision can be made: `beta_thresh` is the probability mass
below 0.5; 0 = decide dark, 1 = decide light, -1 = undecided.  Returns
`beta_thresh` and the new state. -/
def update_decision (K : Kilolib R) (s : BayesBot R) : R × BayesBot R :=
  let beta_thresh := K.incbeta ((s.light_count + s.light_prior) % U32)
    ((s.dark_count + s.dark_prior) % U32)
  if beta_thresh > s.credible_thresh then (beta_thresh, { s with decision := 0 })
  else if beta_thresh < 1 - s.credible_thresh then (beta_thresh, { s with decision := 1 })
  else (beta_thresh, { s with decision := -1 })

/-- Make an observation of the colour after every fixed-length step. -/
def observe_color (K : Kilolib R) (kilo_ticks : Nat) (s : BayesBot R) : BayesBot R :=
  if (s.last_observation_tick + s.observe_step_time * K.SECOND) % U32 ≤ kilo_ticks then
    let s1 : BayesBot R := if s.curr_light_level ≠ GRAY
      then { s with new_observation := TRUE,
                    observation := if s.curr_light_level = DARK then 0 else 1 }
      else s
    { s1 with last_observation_tick := kilo_ticks }
  else s

/-! ## The platform's entry points -/

/-- The method `setup`. -/
def setup (K : Kilolib R) (t : Tick) (s : BayesBot R) : BayesBot R :=
  let s1 : BayesBot R :=
    { s with battery := 100000 * K.SECOND,
             curr_light_level := detect_light_level t.ambientlight,
             rw_last_changed := t.kilo_ticks,
             color := Indicator.gray }
  let s2 := initialize_neighbor_info_array s1
  if s2.allow_simultaneity ≠ 0 then { s2 with state := OBSERVE_DISSEMINATE }
  else { s2 with state := OBSERVE }

/-- The start of `loop`: the light level is read and `random_walk` moves the robot. -/
def loop_move (t : Tick) (s : BayesBot R) : BayesBot R :=
  let s1 : BayesBot R := { s with curr_light_level := detect_light_level t.ambientlight }
  random_walk t s1.rw_mean_straight_dur s1.rw_max_turn_dur s1

/-- The statement `if (decision == -1) beta_thresh_val = update_decision();`, which
`loop` runs after each of its two sources of evidence. -/
def decide_if_undecided (K : Kilolib R) (s : BayesBot R) : BayesBot R :=
  if s.decision = -1
  then { (update_decision K s).2 with beta_thresh_val := (update_decision K s).1 }
  else s

/-- What `loop` does with a new observation: count it, update the decision if there
is none yet, clear the flag, advance the observation index and, without
simultaneity, change to disseminating. -/
def accept_observation (K : Kilolib R) (t : Tick) (s : BayesBot R) : BayesBot R :=
  let d := decide_if_undecided K (update_beta s.observation s)
  let e : BayesBot R :=
    { d with new_observation := FALSE, observation_ind := (d.observation_ind + 1) % U16 }
  if e.allow_simultaneity = 0
  then { e with state := DISSEMINATE, state_change_timer := t.kilo_ticks }
  else e

/-- The observing block of `loop`, entered when the state is OBSERVE or
OBSERVE_DISSEMINATE. -/
def loop_observe (K : Kilolib R) (t : Tick) (s : BayesBot R) : BayesBot R :=
  if s.state = OBSERVE ∨ s.state = OBSERVE_DISSEMINATE then
    let o := observe_color K t.kilo_ticks s
    if o.new_observation ≠ 0 then accept_observation K t o else o
  else s

/-- What `loop` does with a pending message: it goes through
`update_neighbor_info_array`, the flag is cleared and the decision is updated if
there is none yet. -/
def accept_message (K : Kilolib R) (t : Tick) (s : BayesBot R) : Option (BayesBot R) :=
  match update_neighbor_info_array s.rx_message_buffer s.rx_distance_buffer t.kilo_ticks s with
  | none => none
  | some u => some (decide_if_undecided K { u with new_message := FALSE })

/-- The receiving block of `loop`: the table is locked, a pending message is
processed, the table is pruned and unlocked. -/
def loop_receive (K : Kilolib R) (t : Tick) (s : BayesBot R) : Option (BayesBot R) :=
  let s4 : BayesBot R := { s with neighbor_info_array_locked := TRUE }
  match (if s4.new_message ≠ 0 then accept_message K t s4 else some s4) with
  | none => none
  | some s5 =>
    some { prune_neighbor_info_array t.kilo_ticks s5 with neighbor_info_array_locked := FALSE }

/-- The end of `loop`: the colour, then the statement `state == OBSERVE;`, which
compares and assigns nothing. -/
def loop_finish (t : Tick) (s : BayesBot R) : BayesBot R :=
  let c : BayesBot R := if s.decision = 0 then { s with color := Indicator.decided_dark }
    else if s.decision = 1 then { s with color := Indicator.decided_light }
    else { s with color := Indicator.blend s.beta_thresh_val }
  if c.allow_simultaneity = 0 ∧ c.state = DISSEMINATE ∧
      (c.state_change_timer + c.disseminate_dur) % U32 ≤ t.kilo_ticks
  then c
  else c

/-- The method `loop`, one call: move, observe, receive, show the colour. -/
def loop (K : Kilolib R) (t : Tick) (s : BayesBot R) : Option (BayesBot R) :=
  match loop_receive K t (loop_observe K t (loop_move t s)) with
  | none => none
  | some s6 => some (loop_finish t s6)

/-- Fill the outbound message: id, observation or decision, observation index,
checksum. -/
def update_tx_message_data (K : Kilolib R) (s : BayesBot R) : BayesBot R :=
  let m0 : message_t := { s.tx_message_data with type := K.NORMAL }
  let d0 := m0.data.set 0 (((s.id &&& 0xff00) >>> 8) % 256)
  let d1 := d0.set 1 ((s.id &&& 0x00ff) % 256)
  let d2 := if s.decision ≠ -1 ∧ s.use_positive_feedback ≠ 0
    then d1.set 2 (s.decision % 256).toNat
    else d1.set 2 (s.observation % 256)
  let d3 := d2.set 3 (((s.observation_ind &&& 0xff00) >>> 8) % 256)
  let d4 := d3.set 4 ((s.observation_ind &&& 0x00ff) % 256)
  let m1 : message_t := { m0 with data := d4 }
  { s with tx_message_data := { m1 with crc := K.message_crc m1 } }

/-- The receive callback: the message is stored unless the table is locked. -/
def message_rx (msg : message_t) (dist : distance_measurement_t) (s : BayesBot R) :
    BayesBot R :=
  if s.neighbor_info_array_locked = 0
  then { s with rx_message_buffer := msg, rx_distance_buffer := dist, new_message := TRUE }
  else s

/-- The transmit poll: the message to send (`none` is the source's NULL) and the
state. -/
def message_tx (K : Kilolib R) (s : BayesBot R) : Option message_t × BayesBot R :=
  if s.state = DISSEMINATE ∨ s.state = OBSERVE_DISSEMINATE
  then ((update_tx_message_data K s).tx_message_data, update_tx_message_data K s)
  else (none, s)

/-! ## Runs -/

/-- What the simulator can do to a robot between and during ticks: call `loop`,
deliver a message, poll for a message to send. -/
inductive Event where
  | loop (t : Tick)
  | message_rx (msg : message_t) (dist : distance_measurement_t)
  | message_tx
deriving DecidableEq, Repr

/-- One event applied to the robot. -/
def apply_event (K : Kilolib R) : Event → BayesBot R → Option (BayesBot R)
  | Event.loop t, s => loop K t s
  | Event.message_rx msg dist, s => some (message_rx msg dist s)
  | Event.message_tx, s => some (message_tx K s).2

/-- A sequence of events applied in order; `none` as soon as one has no defined
result. -/
def run (K : Kilolib R) : List Event → BayesBot R → Option (BayesBot R)
  | [], s => some s
  | ev :: evs, s =>
    match apply_event K ev s with
    | none => none
    | some s1 => run K evs s1

/-- The two operations that write the neighbour table. -/
inductive TableOp where
  | update (m : message_t) (d : distance_measurement_t) (kilo_ticks : Nat)
  | prune (kilo_ticks : Nat)
deriving DecidableEq, Repr

/-- One table operation applied to the robot. -/
def apply_op : TableOp → BayesBot R → Option (BayesBot R)
  | TableOp.update m d kilo_ticks, s => update_neighbor_info_array m d kilo_ticks s
  | TableOp.prune kilo_ticks, s => some (prune_neighbor_info_array kilo_ticks s)

/-- A sequence of table operations applied in order. -/
def run_ops : List TableOp → BayesBot R → Option (BayesBot R)
  | [], s => some s
  | op :: ops, s =>
    match apply_op op s with
    | none => none
    | some s1 => run_ops ops s1

/-- The tick a table operation happens at is not 0 (asked of `update` only). -/
def TableOp.after_start : TableOp → Prop
  | TableOp.update _ _ kilo_ticks => 0 < kilo_ticks
  | TableOp.prune _ => True

/-- The operation is the arrival of a message whose sender is `p`. -/
def TableOp.from_peer (p : Nat) : TableOp → Prop
  | TableOp.update m _ _ => rx_id m = p
  | TableOp.prune _ => False

/-- Every occupied slot was first heard from at a tick that is not 0. -/
def stamped (tbl : List neighbor_info_array_t) : Prop :=
  ∀ e ∈ tbl, e.id ≠ 0 → 0 < e.time_first_heard_from

/-- The calls `update_beta(b)` for the bits of `bs`, in order. -/
def update_beta_all (bs : List Nat) (s : BayesBot R) : BayesBot R :=
  bs.foldl (fun acc b => update_beta b acc) s

/-- No two slots hold the same non-zero id. -/
def unique_ids (tbl : List neighbor_info_array_t) : Prop :=
  tbl.Pairwise fun e f => e.id ≠ 0 → e.id ≠ f.id

/-- Some slot of the table holds the id `x`. -/
def in_table (x : Nat) (tbl : List neighbor_info_array_t) : Prop :=
  ∃ e ∈ tbl, e.id = x

instance (tbl : List neighbor_info_array_t) : Decidable (unique_ids tbl) := by
  unfold unique_ids; infer_instance

instance (x : Nat) (tbl : List neighbor_info_array_t) : Decidable (in_table x tbl) := by
  unfold in_table; infer_instance

/-- The state after the final block of `update_neighbor_info_array` has written
slot `i`, whose previous content is `e`. -/
def inserted (m : message_t) (kilo_ticks : Nat) (s : BayesBot R) (i : Nat)
    (e : neighbor_info_array_t) : BayesBot R :=
  { (if e.obs_ind ≠ rx_obs_ind m then update_beta (obs_val m) s else s) with
    neighbor_info_array := s.neighbor_info_array.set i
      { id := rx_id m, obs_ind := rx_obs_ind m, time_first_heard_from := kilo_ticks } }

/-- The object as the constructor leaves it: the fields with a default member
initialiser have that value, the table has its 100 slots, and the other fields
(set by `main` or by `setup`, or not at all) hold anything. -/
def constructed (K : Kilolib R) (s : BayesBot R) : Prop :=
  s.dark_count = 0 ∧ s.light_count = 0 ∧ s.decision = -1 ∧ s.observation_ind = 0 ∧
  s.light_prior = 1 ∧ s.dark_prior = 1 ∧ s.use_positive_feedback = TRUE ∧
  s.allow_simultaneity = TRUE ∧ s.rw_state = RW_INIT ∧ s.rw_last_changed = 0 ∧
  s.rw_mean_straight_dur = (240 * K.SECOND) % U32 ∧
  s.rw_max_turn_dur = (12 * K.SECOND) % U32 ∧
  s.is_feature_detect_safe = FALSE ∧ s.new_observation = FALSE ∧ s.new_message = 0 ∧
  s.neighbor_info_array_locked = FALSE ∧
  s.neighbor_info_array_timeout = (900 * K.SECOND) % U32 ∧
  s.neighbor_info_array.length = NEIGHBOR_INFO_ARRAY_SIZE

/-- The configuration `main` writes into a constructed robot before the simulation
starts: threshold, the two mode flags, the observation period and both priors. -/
def configure (credible_thresh : R) (allow_simultaneity use_positive_feedback
    observe_step_time both_prior : Nat) (s : BayesBot R) : BayesBot R :=
  { s with credible_thresh := credible_thresh,
           allow_simultaneity := allow_simultaneity % 256,
           use_positive_feedback := use_positive_feedback % 256,
           observe_step_time := observe_step_time % U32,
           dark_prior := both_prior % U32,
           light_prior := both_prior % U32 }

/-- The states a robot can be in: constructed, configured by `main`, set up, and
then driven by the simulator's events. -/
inductive Reachable (K : Kilolib R) : BayesBot R → Prop where
  | start (s : BayesBot R) (c : R) (a u o p : Nat) (t : Tick) :
      constructed K s → Reachable K (setup K t (configure c a u o p s))
  | event (s s1 : BayesBot R) (ev : Event) :
      Reachable K s → apply_event K ev s = some s1 → Reachable K s1

/-- The receive callback called for each of the messages of `ms`, in order. -/
def deliver (ms : List (message_t × distance_measurement_t)) (s : BayesBot R) :
    BayesBot R :=
  ms.foldl (fun acc p => message_rx p.1 p.2 acc) s

/-- A sequence of `random_walk` calls; each comes with the tick's inputs and with the
value `curr_light_level` has when it is called. -/
def random_walks (steps : List (Tick × Nat)) (s : BayesBot R) : BayesBot R :=
  steps.foldl (fun acc p => random_walk p.1 acc.rw_mean_straight_dur acc.rw_max_turn_dur
    { acc with curr_light_level := p.2 }) s

/-- The tick a `loop` call happens at is not 0 (asked of `loop` only). -/
def Event.after_start : Event → Prop
  | Event.loop t => 0 < t.kilo_ticks
  | _ => True

/-- The call `loop` at tick `t` takes the branch `if (new_observation)` of its observing
block, the one that calls `update_beta(observation)`. -/
def accepts_observation (K : Kilolib R) (t : Tick) (s : BayesBot R) : Prop :=
  ((loop_move t s).state = OBSERVE ∨ (loop_move t s).state = OBSERVE_DISSEMINATE) ∧
  (observe_color K t.kilo_ticks (loop_move t s)).new_observation ≠ 0

instance (K : Kilolib R) (t : Tick) (s : BayesBot R) : Decidable (accepts_observation K t s) := by
  unfold accepts_observation; infer_instance

/-- The number of `loop` calls of a run of events that accept a self-observation. -/
def self_observations (K : Kilolib R) : List Event → BayesBot R → Nat
  | [], _ => 0
  | Event.loop t :: evs, s =>
    (if accepts_observation K t s then 1 else 0) +
      (match loop K t s with
       | none => 0
       | some s1 => self_observations K evs s1)
  | Event.message_rx msg dist :: evs, s => self_observations K evs (message_rx msg dist s)
  | Event.message_tx :: evs, s => self_observations K evs (message_tx K s).2

end Methods

/-! ## Concrete objects -/

/-- Modelled from the spec: `incbeta.h` is not among the sources.  The spec has
`incbeta(a, b, 0.5)` be the regularised incomplete beta function at one half, which
for positive integers is the upper binomial tail
`(C(n, a) + ... + C(n, n)) / 2 ^ n` with `n = a + b - 1`. -/
def incbeta_half (a b : Nat) : ℚ :=
  (((List.range b).map fun k => ((a + b - 1).choose (a + k) : ℚ)).sum) / 2 ^ (a + b - 1)

/-- The sum `C(n, a) + C(n, a + 1) + ... + C(n, a + m - 1)` of binomial
coefficients, the numerator of `incbeta_half`. -/
def upper_tail (n a m : Nat) : Nat :=
  ((List.range m).map fun k => n.choose (a + k)).sum

/-- A platform with 32 ticks to the second. -/
def K0 : Kilolib ℚ :=
  { SECOND := 32, NORMAL := 0, message_crc := fun m => m.data.sum % U16,
    incbeta := incbeta_half }

/-- A message from robot `id` carrying the value `obs` and the index `ind`. -/
def msg (id obs ind : Nat) : message_t :=
  { data := [id / 256, id % 256, obs, ind / 256, ind % 256, 0, 0, 0, 0], type := 0, crc := 0 }

/-- The distance estimate that goes with the example messages. -/
def dist0 : distance_measurement_t := { low_gain := 0, high_gain := 0 }

/-- A robot as constructed (memory zeroed, default member initialisers applied) with
the given table. -/
def bot0 (tbl : List neighbor_info_array_t) : BayesBot ℚ :=
  { id := 1, battery := 0, color := Indicator.gray,
    motors := (MotorVal.zero, MotorVal.zero),
    dark_count := 0, light_count := 0, decision := -1, observation_ind := 0,
    light_prior := 1, dark_prior := 1, use_positive_feedback := TRUE,
    credible_thresh := 19 / 20, allow_simultaneity := TRUE, observe_step_time := 0,
    disseminate_dur := 0, curr_light_level := 0, state := 0, state_change_timer := 0,
    rw_state := RW_INIT, rw_last_changed := 0, rw_mean_straight_dur := 7680,
    rw_max_turn_dur := 384, rw_state_dur := 0, is_feature_detect_safe := FALSE,
    bounce_turn_state := 0, last_observation_tick := 0, observation := 0,
    new_observation := FALSE, neighbor_info_array := tbl,
    rx_message_buffer := msg 0 0 0, rx_distance_buffer := dist0, new_message := 0,
    neighbor_info_array_locked := FALSE, neighbor_info_array_timeout := 28800,
    tx_message_data := msg 0 0 0, beta_thresh_val := 1 / 2 }

/-- A tick at time `k` with sensor reading `light`. -/
def tick (k light : Nat) : Tick :=
  { kilo_ticks := k, ambientlight := light, exp_rand := 100, uniform_rand := 10,
    rand_hard := 0, rand := 0 }

/-- An empty table of 100 zeroed slots. -/
def table0 : List neighbor_info_array_t :=
  List.replicate NEIGHBOR_INFO_ARRAY_SIZE { id := 0, obs_ind := 0, time_first_heard_from := 0 }

/-- A one-slot table that tracks robot 7, whose stored observation index is 1. -/
def table_one : List neighbor_info_array_t := [⟨7, 1, 0⟩]

/-- A full table of capacity three: A = 1 heard at tick 0, B = 2 at tick 1, C = 3 at
tick 2. -/
def table_abc : List neighbor_info_array_t := [⟨1, 0, 0⟩, ⟨2, 0, 1⟩, ⟨3, 0, 2⟩]

/-- A table of one empty slot, zeroed. -/
def table_empty1 : List neighbor_info_array_t := [⟨0, 0, 0⟩]

/-- A table that tracks robot 9 and has one empty slot. -/
def table_nine : List neighbor_info_array_t := [⟨9, 4, 2⟩, ⟨0, 0, 0⟩]

/-- A robot without simultaneity that is disseminating since tick 10, for a
dissemination time of 5 ticks. -/
def bot_disseminating : BayesBot ℚ :=
  { bot0 table_abc with allow_simultaneity := 0, state := DISSEMINATE,
                        state_change_timer := 10, disseminate_dur := 5 }

/-- A robot that has decided for light. -/
def bot_decided : BayesBot ℚ :=
  { bot0 table_empty1 with decision := 1, state := OBSERVE_DISSEMINATE }

/-- A message arrives, a tick passes over a dark floor, the robot is polled, a tick
passes over a light floor. -/
def events_decided : List Event :=
  [Event.message_rx (msg 7 0 1) dist0, Event.loop (tick 40 100), Event.message_tx,
   Event.loop (tick 80 900)]

/-- A robot as `main` and `setup` leave it at tick 0, observing every second, on a
gray floor. -/
def bot_start : BayesBot ℚ :=
  setup K0 (tick 0 400) (configure (19 / 20) 1 1 1 1 (bot0 table0))

/-- A message with value 0 from robot 4, a tick, then a message with value 2 from
robot 5. -/
def events_bad_value : List Event :=
  [Event.message_rx (msg 4 0 1) dist0, Event.loop (tick 1 400),
   Event.message_rx (msg 5 2 1) dist0]

/-- Messages from robots 4 and 5, a repeated one, a pruning after the timeout and a
message from robot 4 again. -/
def ops_example : List TableOp :=
  [TableOp.update (msg 4 1 1) dist0 3, TableOp.update (msg 5 0 1) dist0 4,
   TableOp.update (msg 4 1 2) dist0 5, TableOp.prune 100000,
   TableOp.update (msg 4 0 3) dist0 100001]

/-- Two ticks over a dark floor: the first starts a straight phase of duration 0, the
second ends it and starts a turn of duration 1000. -/
def events_into_turn : List Event :=
  [Event.loop { kilo_ticks := 1, ambientlight := 100, exp_rand := 0, uniform_rand := 1000,
                rand_hard := 1, rand := 0 },
   Event.loop { kilo_ticks := 2, ambientlight := 100, exp_rand := 0, uniform_rand := 1000,
                rand_hard := 1, rand := 0 }]

/-- A robot whose light count is three below the `uint32_t` limit, with a light prior
of 2. -/
def bot_near_wrap : BayesBot ℚ :=
  { bot0 table_empty1 with light_count := 4294967293, light_prior := 2 }

/-- Robot 513, undecided, whose latest observation is light and has index 770. -/
def bot_sender : BayesBot ℚ :=
  { bot0 table_empty1 with id := 513, observation := 1, observation_ind := 770,
                           state := OBSERVE_DISSEMINATE }

/-- A table of capacity three holding B = 2, C = 3 and D = 4. -/
def table_bcd : List neighbor_info_array_t := [⟨2, 0, 1⟩, ⟨3, 0, 2⟩, ⟨4, 1, 3⟩]

/-- A robot as `main` and `setup` leave it at tick 0 when simultaneity is switched
off, observing every second, on a gray floor. -/
def bot_single : BayesBot ℚ :=
  setup K0 (tick 0 400) (configure (19 / 20) 0 1 1 1 (bot0 table0))

/-- A tick over a dark floor, a light report from robot 7, then a tick over a dark and
one over a light floor. -/
def events_single : List Event :=
  [Event.loop (tick 40 100), Event.message_rx (msg 7 1 1) dist0, Event.loop (tick 100 100),
   Event.loop (tick 200 900)]

/-- Four `random_walk` calls: over a dark floor, into the gray border, and over a light
floor twice. -/
def walk_steps : List (Tick × Nat) :=
  [(tick 1 100, DARK), (tick 2 400, GRAY), (tick 3 900, LIGHT), (tick 4 900, LIGHT)]

/-- A robot that moves straight since tick 0, for 1000 ticks. -/
def bot_straight : BayesBot ℚ :=
  { bot0 table0 with rw_state := RW_STRAIGHT, is_feature_detect_safe := TRUE,
                     rw_state_dur := 1000 }

/-- A robot that is bouncing off the border. -/
def bot_bouncing : BayesBot ℚ :=
  { bot0 table0 with rw_state := BOUNCE, curr_light_level := GRAY }

/-- A full table of 100 slots: robot `k` first heard from at tick `k`, for 1 to 100. -/
def table_full : List neighbor_info_array_t :=
  (List.range NEIGHBOR_INFO_ARRAY_SIZE).map fun k => ⟨k + 1, 0, k + 1⟩

end Kilosim

/-! ## Lemmas on the table loops -/

namespace Kilosim

section Table

variable {R : Type}

theorem known_loop_some (x : Nat) (tbl : List neighbor_info_array_t) :
    ∀ (i k : Nat), ∃ j, known_loop x tbl i (some k) = some j := by
  induction tbl with
  | nil => intro i k; exact ⟨k, rfl⟩
  | cons e es ih =>
    intro i k
    simp only [known_loop]
    split_ifs
    · exact ih (i + 1) i
    · exact ih (i + 1) k

theorem known_loop_of_in (x : Nat) (tbl : List neighbor_info_array_t) (h : in_table x tbl) :
    ∀ (i : Nat) (acc : Option Nat), ∃ j, known_loop x tbl i acc = some j := by
  induction tbl with
  | nil => obtain ⟨e, he, _⟩ := h; cases he
  | cons e es ih =>
    intro i acc
    simp only [known_loop]
    by_cases hx : e.id = x
    · rw [if_pos hx]; exact known_loop_some x es (i + 1) i
    · rw [if_neg hx]
      obtain ⟨f, hf, hfx⟩ := h
      rcases List.mem_cons.mp hf with rfl | hmem
      · exact absurd hfx hx
      · exact ih ⟨f, hmem, hfx⟩ (i + 1) acc

theorem known_loop_of_not_in (x : Nat) (tbl : List neighbor_info_array_t)
    (h : ¬ in_table x tbl) :
    ∀ (i : Nat) (acc : Option Nat), known_loop x tbl i acc = acc := by
  induction tbl with
  | nil => intro i acc; rfl
  | cons e es ih =>
    intro i acc
    have hx : e.id ≠ x := fun hx => h ⟨e, List.mem_cons_self _ _, hx⟩
    have hes : ¬ in_table x es := fun ⟨f, hf, hfx⟩ => h ⟨f, List.mem_cons_of_mem _ hf, hfx⟩
    simp only [known_loop, if_neg hx]
    exact ih hes (i + 1) acc

theorem empty_loop_range (tbl : List neighbor_info_array_t) :
    ∀ (i j : Nat), empty_loop tbl i = some j → i ≤ j ∧ j < i + tbl.length := by
  induction tbl with
  | nil => intro i j h; simp [empty_loop] at h
  | cons e es ih =>
    intro i j h
    simp only [empty_loop] at h
    split_ifs at h
    · cases h; simp
    · have := ih (i + 1) j h
      simp only [List.length_cons]; omega

theorem empty_loop_of_mem (tbl : List neighbor_info_array_t) (h : in_table 0 tbl) :
    ∀ (i : Nat), ∃ j, empty_loop tbl i = some j := by
  induction tbl with
  | nil => obtain ⟨e, he, _⟩ := h; cases he
  | cons e es ih =>
    intro i
    simp only [empty_loop]
    by_cases hx : e.id = 0
    · rw [if_pos hx]; exact ⟨i, rfl⟩
    · rw [if_neg hx]
      obtain ⟨f, hf, hfx⟩ := h
      rcases List.mem_cons.mp hf with rfl | hmem
      · exact absurd hfx hx
      · exact ih ⟨f, hmem, hfx⟩ (i + 1)

theorem earliest_loop_range (tbl : List neighbor_info_array_t) :
    ∀ (i eht : Nat) (idx : Option Nat) (j : Nat), earliest_loop tbl i eht idx = some j →
      idx = some j ∨ (i ≤ j ∧ j < i + tbl.length) := by
  induction tbl with
  | nil => intro i eht idx j h; left; simpa [earliest_loop] using h
  | cons e es ih =>
    intro i eht idx j h
    simp only [earliest_loop] at h
    split_ifs at h
    · rcases ih _ _ _ _ h with h1 | h1
      · cases h1; right; simp
      · right; simp only [List.length_cons]; omega
    · rcases ih _ _ _ _ h with h1 | h1
      · left; exact h1
      · right; simp only [List.length_cons]; omega

theorem earliest_loop_some (tbl : List neighbor_info_array_t) :
    ∀ (i eht k : Nat), ∃ j, earliest_loop tbl i eht (some k) = some j := by
  induction tbl with
  | nil => intro i eht k; exact ⟨k, rfl⟩
  | cons e es ih =>
    intro i eht k
    simp only [earliest_loop]
    split_ifs
    · exact ih _ _ _
    · exact ih _ _ _

theorem earliest_loop_of_pos (tbl : List neighbor_info_array_t)
    (h : ∃ e ∈ tbl, 0 < e.time_first_heard_from) :
    ∀ (i : Nat) (idx : Option Nat), ∃ j, earliest_loop tbl i 0 idx = some j := by
  induction tbl with
  | nil => obtain ⟨e, he, _⟩ := h; cases he
  | cons e es ih =>
    intro i idx
    simp only [earliest_loop]
    by_cases hx : e.time_first_heard_from > 0
    · rw [if_pos hx]; exact earliest_loop_some es _ _ _
    · rw [if_neg hx]
      obtain ⟨f, hf, hfx⟩ := h
      rcases List.mem_cons.mp hf with rfl | hmem
      · exact absurd hfx hx
      · exact ih ⟨f, hmem, hfx⟩ (i + 1) idx

theorem index_to_insert_lt (tbl : List neighbor_info_array_t) (j : Nat)
    (h : index_to_insert tbl = some j) : j < tbl.length := by
  unfold index_to_insert at h
  split at h
  · next i hi =>
    cases h
    have := empty_loop_range tbl 0 j hi
    omega
  · rcases earliest_loop_range tbl 0 0 none j h with h1 | h1
    · cases h1
    · omega

theorem index_to_insert_defined (tbl : List neighbor_info_array_t)
    (h : in_table 0 tbl ∨ ∃ e ∈ tbl, 0 < e.time_first_heard_from) :
    ∃ j, index_to_insert tbl = some j := by
  unfold index_to_insert
  split
  · next i _ => exact ⟨i, rfl⟩
  · next hnone =>
    rcases h with h | h
    · obtain ⟨j, hj⟩ := empty_loop_of_mem tbl h 0
      rw [hj] at hnone; cases hnone
    · exact earliest_loop_of_pos tbl h 0 none

theorem update_of_in (m : message_t) (d : distance_measurement_t) (kilo_ticks : Nat)
    (s : BayesBot R) (h : in_table (rx_id m) s.neighbor_info_array) :
    update_neighbor_info_array m d kilo_ticks s = some s := by
  obtain ⟨j, hj⟩ := known_loop_of_in (rx_id m) s.neighbor_info_array h 0 none
  simp only [update_neighbor_info_array, hj]

theorem update_of_not_in (m : message_t) (d : distance_measurement_t) (kilo_ticks : Nat)
    (s s1 : BayesBot R) (h : ¬ in_table (rx_id m) s.neighbor_info_array)
    (hs : update_neighbor_info_array m d kilo_ticks s = some s1) :
    ∃ i e, index_to_insert s.neighbor_info_array = some i ∧
      s.neighbor_info_array[i]? = some e ∧
      s1 = { (if e.obs_ind ≠ rx_obs_ind m then update_beta (obs_val m) s else s) with
        neighbor_info_array := s.neighbor_info_array.set i
          { id := rx_id m, obs_ind := rx_obs_ind m, time_first_heard_from := kilo_ticks } } := by
  have hk := known_loop_of_not_in (rx_id m) s.neighbor_info_array h 0 none
  simp only [update_neighbor_info_array, hk] at hs
  split at hs
  · cases hs
  · next i hi =>
    split at hs
    · cases hs
    · next e he =>
      refine ⟨i, e, hi, he, ?_⟩
      cases hs
      rfl


theorem update_eq_inserted (m : message_t) (d : distance_measurement_t) (kilo_ticks : Nat)
    (s : BayesBot R) (i : Nat) (e : neighbor_info_array_t)
    (hnew : ¬ in_table (rx_id m) s.neighbor_info_array)
    (hi : index_to_insert s.neighbor_info_array = some i)
    (he : s.neighbor_info_array[i]? = some e) :
    update_neighbor_info_array m d kilo_ticks s = some (inserted m kilo_ticks s i e) := by
  have hk := known_loop_of_not_in (rx_id m) s.neighbor_info_array hnew 0 none
  simp only [update_neighbor_info_array, hk, hi, he]
  rfl

theorem in_table_inserted (m : message_t) (kilo_ticks : Nat) (s : BayesBot R) (i : Nat)
    (e : neighbor_info_array_t) (hlt : i < s.neighbor_info_array.length) :
    in_table (rx_id m) (inserted m kilo_ticks s i e).neighbor_info_array := by
  refine ⟨{ id := rx_id m, obs_ind := rx_obs_ind m, time_first_heard_from := kilo_ticks }, ?_, rfl⟩
  simp only [inserted]
  exact List.mem_iff_getElem.mpr ⟨i, by simpa using hlt, by simp⟩

theorem update_cases (m : message_t) (d : distance_measurement_t) (kilo_ticks : Nat)
    (s s1 : BayesBot R) (h : update_neighbor_info_array m d kilo_ticks s = some s1) :
    (in_table (rx_id m) s.neighbor_info_array ∧ s1 = s) ∨
    (¬ in_table (rx_id m) s.neighbor_info_array ∧
      ∃ i e, i < s.neighbor_info_array.length ∧
        index_to_insert s.neighbor_info_array = some i ∧
        s.neighbor_info_array[i]? = some e ∧ s1 = inserted m kilo_ticks s i e) := by
  by_cases hin : in_table (rx_id m) s.neighbor_info_array
  · left
    rw [update_of_in m d kilo_ticks s hin] at h
    exact ⟨hin, (Option.some.inj h).symm⟩
  · right
    obtain ⟨i, e, hi, he, hs⟩ := update_of_not_in m d kilo_ticks s s1 hin h
    exact ⟨hin, i, e, index_to_insert_lt _ i hi, hi, he, hs⟩

end Table

/-! ## Lemmas on the table invariant -/

section Invariant

variable {R : Type}

theorem count_loop_le (tbl : List neighbor_info_array_t) :
    ∀ n : Nat, count_loop tbl n ≤ n + tbl.length := by
  induction tbl with
  | nil => intro n; simp [count_loop]
  | cons e es ih =>
    intro n
    simp only [count_loop, List.length_cons]
    split_ifs
    · have h1 := ih ((n + 1) % U16)
      have h2 : (n + 1) % U16 ≤ n + 1 := Nat.mod_le _ _
      omega
    · have h1 := ih n
      omega

theorem initialized_ids_unique (s : BayesBot R) :
    unique_ids (initialize_neighbor_info_array s).neighbor_info_array := by
  simp only [unique_ids, initialize_neighbor_info_array]
  exact List.pairwise_map.mpr
    (List.pairwise_of_forall_mem_list fun _ _ _ _ h => absurd rfl h)

theorem unique_ids_prune (kilo_ticks : Nat) (s : BayesBot R)
    (h : unique_ids s.neighbor_info_array) :
    unique_ids (prune_neighbor_info_array kilo_ticks s).neighbor_info_array := by
  simp only [unique_ids, prune_neighbor_info_array]
  refine List.pairwise_map.mpr (List.Pairwise.imp ?_ h)
  intro a b hab
  split_ifs
  · intro h0; exact absurd rfl h0
  · intro h0; exact absurd rfl h0
  · intro h0 heq; exact h0 heq
  · exact hab

theorem unique_ids_inserted (m : message_t) (kilo_ticks : Nat) (s : BayesBot R) (i : Nat)
    (e : neighbor_info_array_t) (hnew : ¬ in_table (rx_id m) s.neighbor_info_array)
    (h : unique_ids s.neighbor_info_array) :
    unique_ids (inserted m kilo_ticks s i e).neighbor_info_array := by
  have hno : ∀ (k : Nat) (hk : k < s.neighbor_info_array.length),
      s.neighbor_info_array[k].id ≠ rx_id m :=
    fun k hk heq => hnew ⟨_, List.getElem_mem hk, heq⟩
  simp only [unique_ids, inserted] at h ⊢
  rw [List.pairwise_iff_getElem] at h ⊢
  intro j k hj hk hjk
  rw [List.length_set] at hj hk
  simp only [List.getElem_set]
  by_cases h1 : i = j
  · subst h1
    have h2 : ¬ i = k := by omega
    rw [if_pos rfl, if_neg h2]
    intro _ heq
    exact hno k hk heq.symm
  · by_cases h2 : i = k
    · subst h2
      rw [if_neg h1, if_pos rfl]
      intro _ heq
      exact hno j hj heq
    · rw [if_neg h1, if_neg h2]
      exact h j k hj hk hjk

theorem length_inserted (m : message_t) (kilo_ticks : Nat) (s : BayesBot R) (i : Nat)
    (e : neighbor_info_array_t) :
    (inserted m kilo_ticks s i e).neighbor_info_array.length = s.neighbor_info_array.length := by
  simp [inserted]

theorem apply_op_invariant (op : TableOp) (s s1 : BayesBot R) (h : apply_op op s = some s1)
    (hu : unique_ids s.neighbor_info_array) :
    unique_ids s1.neighbor_info_array ∧
    s1.neighbor_info_array.length = s.neighbor_info_array.length := by
  cases op with
  | update m d kilo_ticks =>
    rcases update_cases m d kilo_ticks s s1 h with ⟨_, rfl⟩ | ⟨hnew, i, e, _, _, _, rfl⟩
    · exact ⟨hu, rfl⟩
    · exact ⟨unique_ids_inserted m kilo_ticks s i e hnew hu, length_inserted m kilo_ticks s i e⟩
  | prune kilo_ticks =>
    cases h
    exact ⟨unique_ids_prune kilo_ticks s hu, by simp [prune_neighbor_info_array]⟩

theorem run_ops_invariant (ops : List TableOp) :
    ∀ (s s1 : BayesBot R), run_ops ops s = some s1 → unique_ids s.neighbor_info_array →
      unique_ids s1.neighbor_info_array ∧
      s1.neighbor_info_array.length = s.neighbor_info_array.length := by
  induction ops with
  | nil => intro s s1 h hu; cases h; exact ⟨hu, rfl⟩
  | cons op ops ih =>
    intro s s1 h hu
    simp only [run_ops] at h
    split at h
    · cases h
    · next s2 h2 =>
      obtain ⟨hu2, hl2⟩ := apply_op_invariant op s s2 h2 hu
      obtain ⟨hu1, hl1⟩ := ih s2 s1 h hu2
      exact ⟨hu1, hl1.trans hl2⟩

theorem stamped_initialized (s : BayesBot R) :
    stamped (initialize_neighbor_info_array s).neighbor_info_array := by
  intro e he h0
  simp only [initialize_neighbor_info_array, List.mem_map] at he
  obtain ⟨f, _, rfl⟩ := he
  exact absurd rfl h0

theorem stamped_prune (kilo_ticks : Nat) (s : BayesBot R)
    (h : stamped s.neighbor_info_array) :
    stamped (prune_neighbor_info_array kilo_ticks s).neighbor_info_array := by
  intro e he h0
  simp only [prune_neighbor_info_array, List.mem_map] at he
  obtain ⟨f, hf, rfl⟩ := he
  split_ifs at h0 ⊢
  · exact absurd rfl h0
  · exact h f hf h0

theorem stamped_inserted (m : message_t) (kilo_ticks : Nat) (s : BayesBot R) (i : Nat)
    (e : neighbor_info_array_t) (ht : 0 < kilo_ticks) (h : stamped s.neighbor_info_array) :
    stamped (inserted m kilo_ticks s i e).neighbor_info_array := by
  intro f hf h0
  simp only [inserted] at hf
  rcases List.mem_or_eq_of_mem_set hf with hmem | rfl
  · exact h f hmem h0
  · exact ht

theorem update_defined (m : message_t) (d : distance_measurement_t) (kilo_ticks : Nat)
    (s : BayesBot R) (h : stamped s.neighbor_info_array)
    (hlen : 0 < s.neighbor_info_array.length) :
    ∃ s1, update_neighbor_info_array m d kilo_ticks s = some s1 := by
  by_cases hin : in_table (rx_id m) s.neighbor_info_array
  · exact ⟨s, update_of_in m d kilo_ticks s hin⟩
  · have hdef : in_table 0 s.neighbor_info_array ∨
        ∃ e ∈ s.neighbor_info_array, 0 < e.time_first_heard_from := by
      by_cases h0 : in_table 0 s.neighbor_info_array
      · exact Or.inl h0
      · right
        have hmem : s.neighbor_info_array[0] ∈ s.neighbor_info_array :=
          List.getElem_mem hlen
        exact ⟨_, hmem, h _ hmem fun hid => h0 ⟨_, hmem, hid⟩⟩
    obtain ⟨i, hi⟩ := index_to_insert_defined s.neighbor_info_array hdef
    have hlt := index_to_insert_lt s.neighbor_info_array i hi
    exact ⟨_, update_eq_inserted m d kilo_ticks s i _ hin hi (List.getElem?_eq_getElem hlt)⟩

theorem run_ops_defined (ops : List TableOp) :
    ∀ (s : BayesBot R), (∀ op ∈ ops, op.after_start) → stamped s.neighbor_info_array →
      0 < s.neighbor_info_array.length → ∃ s1, run_ops ops s = some s1 := by
  induction ops with
  | nil => intro s _ _ _; exact ⟨s, rfl⟩
  | cons op ops ih =>
    intro s hops hst hlen
    have hop : op.after_start := hops op (List.mem_cons_self _ _)
    have hrest : ∀ o ∈ ops, o.after_start := fun o ho => hops o (List.mem_cons_of_mem _ ho)
    cases op with
    | update m d kilo_ticks =>
      obtain ⟨s2, h2⟩ := update_defined m d kilo_ticks s hst hlen
      have h3 : run_ops (TableOp.update m d kilo_ticks :: ops) s = run_ops ops s2 := by
        simp only [run_ops, apply_op, h2]
      rw [h3]
      rcases update_cases m d kilo_ticks s s2 h2 with ⟨_, rfl⟩ | ⟨_, i, e, _, _, _, rfl⟩
      · exact ih s2 hrest hst hlen
      · exact ih _ hrest (stamped_inserted m kilo_ticks s i e hop hst)
          (by rw [length_inserted]; exact hlen)
    | prune kilo_ticks =>
      have h3 : run_ops (TableOp.prune kilo_ticks :: ops) s =
          run_ops ops (prune_neighbor_info_array kilo_ticks s) := by
        simp only [run_ops, apply_op]
      rw [h3]
      exact ih _ hrest (stamped_prune kilo_ticks s hst)
        (by simpa [prune_neighbor_info_array] using hlen)

end Invariant

/-! ## Lemmas on `loop`: the decision -/

section Decision

variable {R : Type} [LT R] [∀ a b : R, Decidable (a < b)] [One R] [Sub R]

omit [LT R] [∀ a b : R, Decidable (a < b)] [One R] [Sub R] in
theorem random_walk_decision (t : Tick) (a b : Nat) (s : BayesBot R) :
    (random_walk t a b s).decision = s.decision := by
  simp only [random_walk, bounce_init]
  split_ifs <;> rfl

omit [LT R] [∀ a b : R, Decidable (a < b)] [One R] [Sub R] in
theorem observe_color_decision (K : Kilolib R) (kilo_ticks : Nat) (s : BayesBot R) :
    (observe_color K kilo_ticks s).decision = s.decision := by
  simp only [observe_color]
  split_ifs <;> rfl

theorem decide_if_undecided_of_decided (K : Kilolib R) (s : BayesBot R)
    (h : s.decision ≠ -1) : decide_if_undecided K s = s := by
  simp only [decide_if_undecided, if_neg h]

theorem accept_observation_decision (K : Kilolib R) (t : Tick) (s : BayesBot R)
    (h : s.decision ≠ -1) : (accept_observation K t s).decision = s.decision := by
  have hb : (update_beta s.observation s).decision ≠ -1 := h
  simp only [accept_observation, decide_if_undecided_of_decided K _ hb]
  split_ifs <;> rfl

theorem loop_observe_decision (K : Kilolib R) (t : Tick) (s : BayesBot R)
    (h : s.decision ≠ -1) : (loop_observe K t s).decision = s.decision := by
  have ho := observe_color_decision K t.kilo_ticks s
  simp only [loop_observe]
  split_ifs
  · rw [accept_observation_decision K t _ (by rw [ho]; exact h), ho]
  · exact ho
  · rfl

omit [LT R] [∀ a b : R, Decidable (a < b)] [One R] [Sub R] in
theorem update_neighbor_info_array_decision (m : message_t) (d : distance_measurement_t)
    (kilo_ticks : Nat) (s s1 : BayesBot R)
    (h : update_neighbor_info_array m d kilo_ticks s = some s1) :
    s1.decision = s.decision := by
  rcases update_cases m d kilo_ticks s s1 h with ⟨_, rfl⟩ | ⟨_, i, e, _, _, _, rfl⟩
  · rfl
  · simp only [inserted]
    split_ifs <;> rfl

theorem accept_message_decision (K : Kilolib R) (t : Tick) (s s1 : BayesBot R)
    (h : s.decision ≠ -1) (hs : accept_message K t s = some s1) :
    s1.decision = s.decision := by
  simp only [accept_message] at hs
  split at hs
  · cases hs
  · next u hu =>
    have hd : u.decision = s.decision := update_neighbor_info_array_decision _ _ _ s u hu
    have hne : ({ u with new_message := FALSE } : BayesBot R).decision ≠ -1 := by
      show u.decision ≠ -1
      rw [hd]; exact h
    rw [decide_if_undecided_of_decided K _ hne] at hs
    cases hs
    exact hd

theorem loop_receive_decision (K : Kilolib R) (t : Tick) (s s1 : BayesBot R)
    (h : s.decision ≠ -1) (hs : loop_receive K t s = some s1) :
    s1.decision = s.decision := by
  simp only [loop_receive] at hs
  split at hs
  · cases hs
  · next s5 h5 =>
    cases hs
    show s5.decision = s.decision
    split_ifs at h5 with hm
    · exact accept_message_decision K t { s with neighbor_info_array_locked := TRUE } s5 h h5
    · cases h5
      rfl

omit [LT R] [∀ a b : R, Decidable (a < b)] [One R] [Sub R] in
theorem loop_finish_decision (t : Tick) (s : BayesBot R) :
    (loop_finish t s).decision = s.decision := by
  simp only [loop_finish]
  split_ifs <;> rfl

omit [LT R] [∀ a b : R, Decidable (a < b)] [One R] [Sub R] in
theorem loop_move_decision (t : Tick) (s : BayesBot R) :
    (loop_move t s).decision = s.decision := by
  simp only [loop_move, random_walk_decision]

theorem loop_decision (K : Kilolib R) (t : Tick) (s s1 : BayesBot R)
    (h : s.decision ≠ -1) (hs : loop K t s = some s1) : s1.decision = s.decision := by
  simp only [loop] at hs
  split at hs
  · cases hs
  · next s6 h6 =>
    cases hs
    have h1 := loop_move_decision t s
    have h2 := loop_observe_decision K t (loop_move t s) (by rw [h1]; exact h)
    have h3 := loop_receive_decision K t _ s6 (by rw [h2, h1]; exact h) h6
    rw [loop_finish_decision, h3, h2, h1]

omit [LT R] [∀ a b : R, Decidable (a < b)] [One R] [Sub R] in
theorem message_tx_decision (K : Kilolib R) (s : BayesBot R) :
    (message_tx K s).2.decision = s.decision := by
  simp only [message_tx]
  split_ifs <;> rfl

omit [LT R] [∀ a b : R, Decidable (a < b)] [One R] [Sub R] in
theorem message_rx_decision (msg : message_t) (dist : distance_measurement_t)
    (s : BayesBot R) : (message_rx msg dist s).decision = s.decision := by
  simp only [message_rx]
  split_ifs <;> rfl

theorem apply_event_decision (K : Kilolib R) (ev : Event) (s s1 : BayesBot R)
    (h : s.decision ≠ -1) (hs : apply_event K ev s = some s1) :
    s1.decision = s.decision := by
  cases ev with
  | loop t => exact loop_decision K t s s1 h hs
  | message_rx msg dist =>
    cases hs
    exact message_rx_decision msg dist s
  | message_tx =>
    cases hs
    exact message_tx_decision K s

end Decision

/-! ## Lemmas on `loop`: the evidence counters -/

section Counters

variable {R : Type} [LT R] [∀ a b : R, Decidable (a < b)] [One R] [Sub R]

omit [LT R] [∀ a b : R, Decidable (a < b)] [One R] [Sub R] in
theorem update_beta_bit (obs : Nat) (s : BayesBot R) (h : obs ≤ 1) :
    (update_beta obs s).light_count = (s.light_count + obs) % U32 ∧
    (update_beta obs s).dark_count = (s.dark_count + (1 - obs)) % U32 := by
  refine ⟨rfl, ?_⟩
  simp only [update_beta]
  have h1 : ((s.dark_count : Int) + (1 - (obs : Int))) =
      ((s.dark_count + (1 - obs) : Nat) : Int) := by omega
  rw [h1]
  omega

omit [LT R] [∀ a b : R, Decidable (a < b)] [One R] [Sub R] in
theorem update_beta_bounds (obs : Nat) (s : BayesBot R) (h : obs ≤ 1)
    (hl : s.light_count + 1 < U32) (hd : s.dark_count + 1 < U32) :
    s.light_count ≤ (update_beta obs s).light_count ∧
    (update_beta obs s).light_count ≤ s.light_count + 1 ∧
    s.dark_count ≤ (update_beta obs s).dark_count ∧
    (update_beta obs s).dark_count ≤ s.dark_count + 1 := by
  obtain ⟨h1, h2⟩ := update_beta_bit obs s h
  rw [h1, h2, Nat.mod_eq_of_lt (by omega), Nat.mod_eq_of_lt (by omega)]
  omega

omit [LT R] [∀ a b : R, Decidable (a < b)] [One R] [Sub R] in
theorem loop_move_frame (t : Tick) (s : BayesBot R) :
    (loop_move t s).light_count = s.light_count ∧
    (loop_move t s).dark_count = s.dark_count ∧
    (loop_move t s).new_observation = s.new_observation ∧
    (loop_move t s).new_message = s.new_message ∧
    (loop_move t s).rx_message_buffer = s.rx_message_buffer := by
  simp only [loop_move, random_walk, bounce_init]
  split_ifs <;> exact ⟨rfl, rfl, rfl, rfl, rfl⟩

omit [LT R] [∀ a b : R, Decidable (a < b)] [One R] [Sub R] in
theorem observe_color_frame (K : Kilolib R) (kilo_ticks : Nat) (s : BayesBot R) :
    (observe_color K kilo_ticks s).light_count = s.light_count ∧
    (observe_color K kilo_ticks s).dark_count = s.dark_count ∧
    (observe_color K kilo_ticks s).new_message = s.new_message ∧
    (observe_color K kilo_ticks s).rx_message_buffer = s.rx_message_buffer ∧
    (s.new_observation = 0 → (observe_color K kilo_ticks s).new_observation ≠ 0 →
      (observe_color K kilo_ticks s).observation ≤ 1) := by
  simp only [observe_color]
  split_ifs
  · exact ⟨rfl, rfl, rfl, rfl, fun _ _ => Nat.zero_le _⟩
  · exact ⟨rfl, rfl, rfl, rfl, fun _ _ => Nat.le_refl _⟩
  · exact ⟨rfl, rfl, rfl, rfl, fun h0 h1 => absurd h0 h1⟩
  · exact ⟨rfl, rfl, rfl, rfl, fun h0 h1 => absurd h0 h1⟩

theorem update_decision_frame (K : Kilolib R) (s : BayesBot R) :
    (update_decision K s).2.light_count = s.light_count ∧
    (update_decision K s).2.dark_count = s.dark_count ∧
    (update_decision K s).2.new_observation = s.new_observation ∧
    (update_decision K s).2.new_message = s.new_message ∧
    (update_decision K s).2.rx_message_buffer = s.rx_message_buffer := by
  simp only [update_decision]
  split_ifs <;> exact ⟨rfl, rfl, rfl, rfl, rfl⟩

theorem decide_if_undecided_frame (K : Kilolib R) (s : BayesBot R) :
    (decide_if_undecided K s).light_count = s.light_count ∧
    (decide_if_undecided K s).dark_count = s.dark_count ∧
    (decide_if_undecided K s).new_observation = s.new_observation ∧
    (decide_if_undecided K s).new_message = s.new_message ∧
    (decide_if_undecided K s).rx_message_buffer = s.rx_message_buffer := by
  simp only [decide_if_undecided, update_decision]
  split_ifs <;> exact ⟨rfl, rfl, rfl, rfl, rfl⟩

theorem accept_observation_frame (K : Kilolib R) (t : Tick) (s : BayesBot R) :
    (accept_observation K t s).light_count = (update_beta s.observation s).light_count ∧
    (accept_observation K t s).dark_count = (update_beta s.observation s).dark_count ∧
    (accept_observation K t s).new_observation = 0 ∧
    (accept_observation K t s).new_message = s.new_message ∧
    (accept_observation K t s).rx_message_buffer = s.rx_message_buffer := by
  obtain ⟨h1, h2, _, h4, h5⟩ := decide_if_undecided_frame K (update_beta s.observation s)
  simp only [accept_observation]
  split_ifs <;> exact ⟨h1, h2, rfl, h4, h5⟩

theorem loop_observe_frame (K : Kilolib R) (t : Tick) (s : BayesBot R) :
    (loop_observe K t s).new_message = s.new_message ∧
    (loop_observe K t s).rx_message_buffer = s.rx_message_buffer ∧
    (s.new_observation = 0 → (loop_observe K t s).new_observation = 0) ∧
    (s.new_observation = 0 →
      ((loop_observe K t s).light_count = s.light_count ∧
       (loop_observe K t s).dark_count = s.dark_count) ∨
      ∃ obs, obs ≤ 1 ∧
        (loop_observe K t s).light_count = (update_beta obs s).light_count ∧
        (loop_observe K t s).dark_count = (update_beta obs s).dark_count) := by
  obtain ⟨o1, o2, o3, o4, o5⟩ := observe_color_frame K t.kilo_ticks s
  obtain ⟨a1, a2, a3, a4, a5⟩ := accept_observation_frame K t (observe_color K t.kilo_ticks s)
  simp only [loop_observe]
  by_cases hst : s.state = OBSERVE ∨ s.state = OBSERVE_DISSEMINATE
  · rw [if_pos hst]
    by_cases hn : (observe_color K t.kilo_ticks s).new_observation ≠ 0
    · rw [if_pos hn]
      refine ⟨a4.trans o3, a5.trans o4, fun _ => a3, fun h0 => Or.inr
        ⟨(observe_color K t.kilo_ticks s).observation, o5 h0 hn, ?_, ?_⟩⟩
      · rw [a1]; simp only [update_beta, o1]
      · rw [a2]; simp only [update_beta, o2]
    · rw [if_neg hn]
      exact ⟨o3, o4, fun _ => not_not.mp hn, fun _ => Or.inl ⟨o1, o2⟩⟩
  · rw [if_neg hst]
    exact ⟨rfl, rfl, fun h => h, fun _ => Or.inl ⟨rfl, rfl⟩⟩

theorem accept_message_frame (K : Kilolib R) (t : Tick) (s s1 : BayesBot R)
    (hs : accept_message K t s = some s1) :
    s1.new_observation = s.new_observation ∧
    ((s1.light_count = s.light_count ∧ s1.dark_count = s.dark_count) ∨
     (s1.light_count = (update_beta (obs_val s.rx_message_buffer) s).light_count ∧
      s1.dark_count = (update_beta (obs_val s.rx_message_buffer) s).dark_count)) := by
  simp only [accept_message] at hs
  split at hs
  · cases hs
  · next u hu =>
    cases hs
    obtain ⟨h1, h2, h3, _, _⟩ := decide_if_undecided_frame K { u with new_message := FALSE }
    rw [h1, h2, h3]
    rcases update_cases _ _ _ s u hu with ⟨_, rfl⟩ | ⟨_, i, e, _, _, _, rfl⟩
    · exact ⟨rfl, Or.inl ⟨rfl, rfl⟩⟩
    · by_cases hq : e.obs_ind = rx_obs_ind s.rx_message_buffer
      · refine ⟨?_, Or.inl ?_⟩ <;> simp [inserted, hq]
      · refine ⟨?_, Or.inr ?_⟩ <;> simp [inserted, hq, update_beta]

theorem loop_receive_frame (K : Kilolib R) (t : Tick) (s s1 : BayesBot R)
    (hs : loop_receive K t s = some s1) :
    s1.new_observation = s.new_observation ∧
    ((s1.light_count = s.light_count ∧ s1.dark_count = s.dark_count) ∨
     (s.new_message ≠ 0 ∧
      s1.light_count = (update_beta (obs_val s.rx_message_buffer) s).light_count ∧
      s1.dark_count = (update_beta (obs_val s.rx_message_buffer) s).dark_count)) := by
  simp only [loop_receive] at hs
  split at hs
  · cases hs
  · next s5 h5 =>
    cases hs
    show s5.new_observation = s.new_observation ∧
      ((s5.light_count = s.light_count ∧ s5.dark_count = s.dark_count) ∨
       (s.new_message ≠ 0 ∧
        s5.light_count = (update_beta (obs_val s.rx_message_buffer) s).light_count ∧
        s5.dark_count = (update_beta (obs_val s.rx_message_buffer) s).dark_count))
    split_ifs at h5 with hm
    · obtain ⟨h1, h2⟩ :=
        accept_message_frame K t { s with neighbor_info_array_locked := TRUE } s5 h5
      refine ⟨h1, ?_⟩
      rcases h2 with h2 | h2
      · exact Or.inl h2
      · exact Or.inr ⟨hm, h2⟩
    · cases h5
      exact ⟨rfl, Or.inl ⟨rfl, rfl⟩⟩

omit [LT R] [∀ a b : R, Decidable (a < b)] [One R] [Sub R] in
theorem loop_finish_frame (t : Tick) (s : BayesBot R) :
    (loop_finish t s).light_count = s.light_count ∧
    (loop_finish t s).dark_count = s.dark_count ∧
    (loop_finish t s).new_observation = s.new_observation := by
  simp only [loop_finish]
  split_ifs <;> exact ⟨rfl, rfl, rfl⟩

theorem loop_counts (K : Kilolib R) (t : Tick) (s s1 : BayesBot R)
    (h0 : s.new_observation = 0)
    (hm : s.new_message ≠ 0 → obs_val s.rx_message_buffer ≤ 1)
    (hl : s.light_count + 2 < U32) (hd : s.dark_count + 2 < U32)
    (hs : loop K t s = some s1) :
    s.light_count ≤ s1.light_count ∧ s.dark_count ≤ s1.dark_count := by
  simp only [loop] at hs
  split at hs
  · cases hs
  · next s6 h6 =>
    cases hs
    obtain ⟨f1, f2, _⟩ := loop_finish_frame t s6
    obtain ⟨m1, m2, m3, m4, m5⟩ := loop_move_frame t s
    obtain ⟨b1, b2, _, b4⟩ := loop_observe_frame K t (loop_move t s)
    obtain ⟨_, r2⟩ := loop_receive_frame K t _ s6 h6
    rw [f1, f2]
    have hb : s.light_count ≤ (loop_observe K t (loop_move t s)).light_count ∧
        (loop_observe K t (loop_move t s)).light_count ≤ s.light_count + 1 ∧
        s.dark_count ≤ (loop_observe K t (loop_move t s)).dark_count ∧
        (loop_observe K t (loop_move t s)).dark_count ≤ s.dark_count + 1 := by
      rcases b4 (m3.trans h0) with ⟨c1, c2⟩ | ⟨obs, ho, c1, c2⟩
      · rw [c1, c2, m1, m2]; omega
      · have := update_beta_bounds obs (loop_move t s) ho (by rw [m1]; omega) (by rw [m2]; omega)
        rw [c1, c2]; rw [m1, m2] at this; exact this
    rcases r2 with ⟨c1, c2⟩ | ⟨hnm, c1, c2⟩
    · rw [c1, c2]; exact ⟨hb.1, hb.2.2.1⟩
    · rw [b1, m4] at hnm
      have hv := hm hnm
      rw [← m5, ← b2] at hv
      have := update_beta_bounds _ (loop_observe K t (loop_move t s)) hv
        (by omega) (by omega)
      rw [c1, c2]; omega

theorem loop_new_observation (K : Kilolib R) (t : Tick) (s s1 : BayesBot R)
    (h0 : s.new_observation = 0) (hs : loop K t s = some s1) : s1.new_observation = 0 := by
  simp only [loop] at hs
  split at hs
  · cases hs
  · next s6 h6 =>
    cases hs
    obtain ⟨_, _, f3⟩ := loop_finish_frame t s6
    obtain ⟨_, _, m3, _, _⟩ := loop_move_frame t s
    obtain ⟨_, _, b3, _⟩ := loop_observe_frame K t (loop_move t s)
    obtain ⟨r1, _⟩ := loop_receive_frame K t _ s6 h6
    rw [f3, r1]
    exact b3 (m3.trans h0)

theorem apply_event_new_observation (K : Kilolib R) (ev : Event) (s s1 : BayesBot R)
    (h0 : s.new_observation = 0) (hs : apply_event K ev s = some s1) :
    s1.new_observation = 0 := by
  cases ev with
  | loop t => exact loop_new_observation K t s s1 h0 hs
  | message_rx msg dist =>
    cases hs
    simp only [message_rx]
    split_ifs
    · exact h0
    · exact h0
  | message_tx =>
    cases hs
    simp only [message_tx]
    split_ifs
    · exact h0
    · exact h0

theorem reachable_new_observation (K : Kilolib R) (s : BayesBot R) (h : Reachable K s) :
    s.new_observation = 0 := by
  induction h with
  | start s c a u o p t hc =>
    have h0 : s.new_observation = 0 := hc.2.2.2.2.2.2.2.2.2.2.2.2.2.1
    simp only [setup, initialize_neighbor_info_array, configure]
    split_ifs
    · exact h0
    · exact h0
  | event s s1 ev _ hs ih => exact apply_event_new_observation K ev s s1 ih hs

theorem reachable_run (K : Kilolib R) (evs : List Event) :
    ∀ (s s1 : BayesBot R), Reachable K s → run K evs s = some s1 → Reachable K s1 := by
  induction evs with
  | nil => intro s s1 h hs; cases hs; exact h
  | cons ev evs ih =>
    intro s s1 h hs
    simp only [run] at hs
    split at hs
    · cases hs
    · next s2 h2 => exact ih s2 s1 (Reachable.event s s2 ev h h2) hs

theorem run_decision (K : Kilolib R) (evs : List Event) :
    ∀ (s s1 : BayesBot R), s.decision ≠ -1 → run K evs s = some s1 →
      s1.decision = s.decision := by
  induction evs with
  | nil => intro s s1 _ hs; cases hs; rfl
  | cons ev evs ih =>
    intro s s1 h hs
    simp only [run] at hs
    split at hs
    · cases hs
    · next s2 h2 =>
      have hd := apply_event_decision K ev s s2 h h2
      rw [ih s2 s1 (by rw [hd]; exact h) hs, hd]

end Counters

/-! ## Lemmas on sequences of `update_beta` -/

section Bits

variable {R : Type}

theorem count_bits (bs : List Nat) (h : ∀ b ∈ bs, b ≤ 1) :
    bs.count 1 + bs.count 0 = bs.length := by
  induction bs with
  | nil => rfl
  | cons b bs ih =>
    have hb : b ≤ 1 := h b (List.mem_cons_self _ _)
    have ih1 := ih fun c hc => h c (List.mem_cons_of_mem _ hc)
    rw [List.count_cons, List.count_cons, List.length_cons]
    rcases Nat.le_one_iff_eq_zero_or_eq_one.mp hb with rfl | rfl
    · simp; omega
    · simp; omega

theorem update_beta_all_counts (bs : List Nat) :
    ∀ s : BayesBot R, (∀ b ∈ bs, b ≤ 1) → s.light_count + bs.length < U32 →
      s.dark_count + bs.length < U32 →
      (update_beta_all bs s).light_count = s.light_count + bs.count 1 ∧
      (update_beta_all bs s).dark_count = s.dark_count + bs.count 0 := by
  induction bs with
  | nil => intro s _ _ _; exact ⟨rfl, rfl⟩
  | cons b bs ih =>
    intro s h hl hd
    have hb : b ≤ 1 := h b (List.mem_cons_self _ _)
    simp only [List.length_cons] at hl hd
    obtain ⟨e1, e2⟩ := update_beta_bit b s hb
    rw [Nat.mod_eq_of_lt (by omega)] at e1 e2
    obtain ⟨i1, i2⟩ := ih (update_beta b s) (fun c hc => h c (List.mem_cons_of_mem _ hc))
      (by rw [e1]; omega) (by rw [e2]; omega)
    have hstep : update_beta_all (b :: bs) s = update_beta_all bs (update_beta b s) := rfl
    rw [hstep, i1, i2, e1, e2, List.count_cons, List.count_cons]
    rcases Nat.le_one_iff_eq_zero_or_eq_one.mp hb with rfl | rfl
    · simp; omega
    · simp; omega

end Bits

/-! ## The claims -/

/-- Claim C1, as stated, fails.  Robot 7 is in the table with stored observation
index 1 and sends the value 1 with the new index 2: the call returns the state as it
was, so no evidence is added (`update_beta 1` would have made `light_count` 1) and the
stored index is still 1. -/
theorem update_path_counterexample :
    in_table (rx_id (msg 7 1 2)) (bot0 table_one).neighbor_info_array ∧
    (bot0 table_one).neighbor_info_array.map (fun e => e.obs_ind) = [1] ∧
    rx_obs_ind (msg 7 1 2) = 2 ∧ obs_val (msg 7 1 2) = 1 ∧
    update_neighbor_info_array (msg 7 1 2) dist0 5 (bot0 table_one) = some (bot0 table_one) ∧
    (update_beta 1 (bot0 table_one)).light_count ≠ (bot0 table_one).light_count := by
  decide!

/-- Claim C1, amended: when the received peer id already occupies a slot, the call
changes nothing, whatever the received bit and observation index: no evidence is added
and the stored observation index is not overwritten. -/
theorem known_peer_is_skipped {R : Type} (m : message_t) (d : distance_measurement_t)
    (kilo_ticks : Nat) (s : BayesBot R) (h : in_table (rx_id m) s.neighbor_info_array) :
    update_neighbor_info_array m d kilo_ticks s = some s :=
  update_of_in m d kilo_ticks s h

/-- Claim C1, amended, at robot 7 sending a new observation index. -/
theorem known_peer_is_skipped_witness :
    in_table (rx_id (msg 7 1 2)) (bot0 table_one).neighbor_info_array ∧
    update_neighbor_info_array (msg 7 1 2) dist0 5 (bot0 table_one) = some (bot0 table_one) :=
  ⟨by decide, known_peer_is_skipped (msg 7 1 2) dist0 5 (bot0 table_one) (by decide)⟩

/-- Claim C2 fails on the code.  The table is full with A = 1 heard at tick 0, B = 2 at
tick 1 and C = 3 at tick 2; robot D = 4, not in the table, is heard at tick 3.  The
slot that is overwritten is the one of C, the newest, and A stays. -/
theorem eviction_takes_newest :
    ¬ in_table (rx_id (msg 4 1 1)) table_abc ∧ ¬ in_table 0 table_abc ∧
    (update_neighbor_info_array (msg 4 1 1) dist0 3 (bot0 table_abc)).map
      (fun s => s.neighbor_info_array) = some [⟨1, 0, 0⟩, ⟨2, 0, 1⟩, ⟨4, 1, 3⟩] := by
  decide!

/-- Claim C3, as stated, fails.  Robot 7 is not in the table and sends the value 1 with
observation index 0; the empty slot that is chosen holds the index 0 from before.  The
slot is written but both counters stay as they were. -/
theorem insert_path_counterexample :
    ¬ in_table (rx_id (msg 7 1 0)) (bot0 table_empty1).neighbor_info_array ∧
    rx_id (msg 7 1 0) = 7 ∧ obs_val (msg 7 1 0) = 1 ∧
    update_neighbor_info_array (msg 7 1 0) dist0 5 (bot0 table_empty1) =
      some (bot0 [⟨7, 0, 5⟩]) ∧
    (bot0 [⟨7, 0, 5⟩]).light_count = (bot0 table_empty1).light_count ∧
    (bot0 [⟨7, 0, 5⟩]).dark_count = (bot0 table_empty1).dark_count := by
  decide!

/-- Claim C3, amended: when the received peer id is not in the table and a slot can be
chosen (there is an empty slot, or a slot with a non-zero `time_first_heard_from`), the
call returns a state in which the chosen slot holds the peer id, the tick and the
received observation index; `update_beta` has run once with the received value if the
slot's previous `obs_ind` differs from the received index, and the counters are
unchanged if it is equal. -/
theorem insert_path {R : Type} (m : message_t) (d : distance_measurement_t)
    (kilo_ticks : Nat) (s : BayesBot R)
    (hnew : ¬ in_table (rx_id m) s.neighbor_info_array)
    (hdef : in_table 0 s.neighbor_info_array ∨
      ∃ e ∈ s.neighbor_info_array, 0 < e.time_first_heard_from) :
    ∃ i e s1, index_to_insert s.neighbor_info_array = some i ∧
      s.neighbor_info_array[i]? = some e ∧
      update_neighbor_info_array m d kilo_ticks s = some s1 ∧
      s1.neighbor_info_array[i]? = some
        { id := rx_id m, obs_ind := rx_obs_ind m, time_first_heard_from := kilo_ticks } ∧
      (e.obs_ind ≠ rx_obs_ind m →
        s1.light_count = (update_beta (obs_val m) s).light_count ∧
        s1.dark_count = (update_beta (obs_val m) s).dark_count) ∧
      (e.obs_ind = rx_obs_ind m →
        s1.light_count = s.light_count ∧ s1.dark_count = s.dark_count) := by
  obtain ⟨i, hi⟩ := index_to_insert_defined s.neighbor_info_array hdef
  have hlt := index_to_insert_lt s.neighbor_info_array i hi
  have he := List.getElem?_eq_getElem hlt
  refine ⟨i, s.neighbor_info_array[i], inserted m kilo_ticks s i s.neighbor_info_array[i],
    hi, he, update_eq_inserted m d kilo_ticks s i _ hnew hi he, ?_, ?_, ?_⟩
  · simp [inserted, hlt]
  · intro hne
    simp [inserted, hne]
  · intro heq
    simp [inserted, heq]

/-- Claim C3, amended, at the full table A, B, C and a message from robot 4. -/
theorem insert_path_witness :
    ∃ i e s1, index_to_insert (bot0 table_abc).neighbor_info_array = some i ∧
      (bot0 table_abc).neighbor_info_array[i]? = some e ∧
      update_neighbor_info_array (msg 4 1 1) dist0 3 (bot0 table_abc) = some s1 ∧
      s1.neighbor_info_array[i]? = some
        { id := rx_id (msg 4 1 1), obs_ind := rx_obs_ind (msg 4 1 1),
          time_first_heard_from := 3 } ∧
      (e.obs_ind ≠ rx_obs_ind (msg 4 1 1) →
        s1.light_count = (update_beta (obs_val (msg 4 1 1)) (bot0 table_abc)).light_count ∧
        s1.dark_count = (update_beta (obs_val (msg 4 1 1)) (bot0 table_abc)).dark_count) ∧
      (e.obs_ind = rx_obs_ind (msg 4 1 1) →
        s1.light_count = (bot0 table_abc).light_count ∧
        s1.dark_count = (bot0 table_abc).dark_count) :=
  insert_path (msg 4 1 1) dist0 3 (bot0 table_abc) (by decide)
    (Or.inr ⟨⟨2, 0, 1⟩, by decide, by decide⟩)

/-- Claim C4, as stated, fails in two ways.  Robot 9 is in the table, and its message
with a new observation index, received twice in succession, leaves
`light_count + dark_count` as it was.  Robot 7 is not in the table and sends the index
0, which the empty slot chosen for it holds from before; again the two calls leave
`light_count + dark_count` as it was instead of adding 1. -/
theorem twice_counterexample :
    in_table (rx_id (msg 9 0 5)) (bot0 table_nine).neighbor_info_array ∧
    ((update_neighbor_info_array (msg 9 0 5) dist0 6 (bot0 table_nine)).bind
      (update_neighbor_info_array (msg 9 0 5) dist0 7)).map
        (fun s => s.light_count + s.dark_count) =
      some ((bot0 table_nine).light_count + (bot0 table_nine).dark_count) ∧
    ¬ in_table (rx_id (msg 7 1 0)) (bot0 table_empty1).neighbor_info_array ∧
    ((update_neighbor_info_array (msg 7 1 0) dist0 5 (bot0 table_empty1)).bind
      (update_neighbor_info_array (msg 7 1 0) dist0 6)).map
        (fun s => s.light_count + s.dark_count) =
      some ((bot0 table_empty1).light_count + (bot0 table_empty1).dark_count) := by
  decide!

/-- Claim C4, amended: when the first call selects a slot and the received value is a
bit, two calls in succession with the same message end in the state the first call
returns, the second adding nothing.  When the peer is not in the table and the previous
`obs_ind` of the chosen slot differs from the received index, the first call counts the
observation exactly once: one `update_beta` with the received bit, so that
`light_count + dark_count` goes up by exactly 1 in total (in `uint32_t` arithmetic, and
as a natural number when neither counter is at its maximum).  When the peer is already
in the table, or the previous `obs_ind` of the chosen slot equals the received index,
both counters stay as they were. -/
theorem second_call_adds_nothing {R : Type} (m : message_t) (d : distance_measurement_t)
    (t1 t2 : Nat) (s : BayesBot R) (hb : obs_val m ≤ 1)
    (hdef : in_table (rx_id m) s.neighbor_info_array ∨ in_table 0 s.neighbor_info_array ∨
      ∃ e ∈ s.neighbor_info_array, 0 < e.time_first_heard_from) :
    ∃ s1, update_neighbor_info_array m d t1 s = some s1 ∧
      update_neighbor_info_array m d t2 s1 = some s1 ∧
      (in_table (rx_id m) s.neighbor_info_array →
        s1.light_count = s.light_count ∧ s1.dark_count = s.dark_count) ∧
      (¬ in_table (rx_id m) s.neighbor_info_array →
        ∃ i e, index_to_insert s.neighbor_info_array = some i ∧
          s.neighbor_info_array[i]? = some e ∧
          (e.obs_ind ≠ rx_obs_ind m →
            s1.light_count = (s.light_count + obs_val m) % U32 ∧
            s1.dark_count = (s.dark_count + (1 - obs_val m)) % U32 ∧
            (s1.light_count + s1.dark_count) % U32 =
              (s.light_count + s.dark_count + 1) % U32 ∧
            (s.light_count + 1 < U32 → s.dark_count + 1 < U32 →
              s1.light_count + s1.dark_count = s.light_count + s.dark_count + 1)) ∧
          (e.obs_ind = rx_obs_ind m →
            s1.light_count = s.light_count ∧ s1.dark_count = s.dark_count)) := by
  by_cases hin : in_table (rx_id m) s.neighbor_info_array
  · exact ⟨s, update_of_in m d t1 s hin, update_of_in m d t2 s hin, fun _ => ⟨rfl, rfl⟩,
      fun h => absurd hin h⟩
  · have hdef2 : in_table 0 s.neighbor_info_array ∨
        ∃ e ∈ s.neighbor_info_array, 0 < e.time_first_heard_from := by
      rcases hdef with h | h
      · exact absurd h hin
      · exact h
    obtain ⟨i, hi⟩ := index_to_insert_defined s.neighbor_info_array hdef2
    have hlt := index_to_insert_lt s.neighbor_info_array i hi
    have he := List.getElem?_eq_getElem hlt
    refine ⟨inserted m t1 s i s.neighbor_info_array[i],
      update_eq_inserted m d t1 s i _ hin hi he,
      update_of_in m d t2 _ (in_table_inserted m t1 s i _ hlt),
      fun h => absurd h hin, fun _ => ⟨i, s.neighbor_info_array[i], hi, he, ?_, ?_⟩⟩
    · intro hne
      obtain ⟨u1, u2⟩ := update_beta_bit (obs_val m) s hb
      have c1 : (inserted m t1 s i s.neighbor_info_array[i]).light_count =
          (s.light_count + obs_val m) % U32 := by
        simp only [inserted, if_pos hne]; exact u1
      have c2 : (inserted m t1 s i s.neighbor_info_array[i]).dark_count =
          (s.dark_count + (1 - obs_val m)) % U32 := by
        simp only [inserted, if_pos hne]; exact u2
      have key : ∀ l k b : Nat, b ≤ 1 →
          ((l + b) % 4294967296 + (k + (1 - b)) % 4294967296) % 4294967296 =
            (l + k + 1) % 4294967296 ∧
          (l + 1 < 4294967296 → k + 1 < 4294967296 →
            (l + b) % 4294967296 + (k + (1 - b)) % 4294967296 = l + k + 1) := by
        intro l k b hb1
        omega
      refine ⟨c1, c2, ?_, ?_⟩
      · rw [c1, c2]
        exact (key s.light_count s.dark_count (obs_val m) hb).1
      · rw [c1, c2]
        exact (key s.light_count s.dark_count (obs_val m) hb).2
    · intro heq
      simp [inserted, heq]

/-- Claim C4, amended, at a new robot 4 heard at tick 8 and again at tick 9: the first
call counts one light observation, the second changes nothing. -/
theorem second_call_adds_nothing_witness :
    (update_neighbor_info_array (msg 4 1 1) dist0 8 (bot0 table_empty1)).map
      (fun s1 => s1.light_count + s1.dark_count) =
      some ((bot0 table_empty1).light_count + (bot0 table_empty1).dark_count + 1) ∧
    ∃ s1, update_neighbor_info_array (msg 4 1 1) dist0 8 (bot0 table_empty1) = some s1 ∧
      update_neighbor_info_array (msg 4 1 1) dist0 9 s1 = some s1 :=
  ⟨by decide!,
    match second_call_adds_nothing (msg 4 1 1) dist0 8 9 (bot0 table_empty1) (by decide)
        (Or.inr (Or.inl (by decide))) with
    | ⟨s1, h1, h2, _⟩ => ⟨s1, h1, h2⟩⟩

/-- Claim C5 fails on the code.  Without simultaneity, in state DISSEMINATE since tick
10 with a dissemination time of 5, a call of `loop` at tick 100 leaves the state
DISSEMINATE: the statement `state == OBSERVE;` assigns nothing. -/
theorem dissemination_does_not_end :
    bot_disseminating.allow_simultaneity = 0 ∧ bot_disseminating.state = DISSEMINATE ∧
    bot_disseminating.state_change_timer + bot_disseminating.disseminate_dur ≤
      (tick 100 0).kilo_ticks ∧
    (loop K0 (tick 100 0) bot_disseminating).map (fun s => s.state) = some DISSEMINATE := by
  decide!

/-- Claim C6: from a state with `decision ≠ -1`, whatever the simulator does next
(calls of `loop` with any sensor readings, deliveries of any messages, transmit
polls), the decision keeps its value. -/
theorem decision_sticky {R : Type} [LT R] [∀ a b : R, Decidable (a < b)] [One R] [Sub R]
    (K : Kilolib R) (evs : List Event) (s s1 : BayesBot R)
    (hd : s.decision ≠ -1) (hs : run K evs s = some s1) :
    s1.decision = s.decision :=
  run_decision K evs s s1 hd hs

/-- Claim C6 at a robot decided for light that hears a dark report and passes over a
dark and a light floor. -/
theorem decision_sticky_witness :
    ∃ s1, run K0 events_decided bot_decided = some s1 ∧ s1.decision = bot_decided.decision :=
  ⟨(run K0 events_decided bot_decided).get (by decide!),
    (Option.some_get _).symm,
    decision_sticky K0 events_decided bot_decided _ (by decide) (Option.some_get _).symm⟩

/-- Claim C7: `update_decision` returns the value `p` of `incbeta` at
`light_count + light_prior` and `dark_count + dark_prior`, sets `decision` to 0 if
`p > credible_thresh`, otherwise to 1 if `p < 1 - credible_thresh`, otherwise to -1,
and changes no other field. -/
theorem update_decision_rule {R : Type} [LT R] [∀ a b : R, Decidable (a < b)] [One R] [Sub R]
    (K : Kilolib R) (s : BayesBot R) :
    (update_decision K s).1 =
      K.incbeta ((s.light_count + s.light_prior) % U32) ((s.dark_count + s.dark_prior) % U32) ∧
    (update_decision K s).2.decision =
      (if (update_decision K s).1 > s.credible_thresh then 0
       else if (update_decision K s).1 < 1 - s.credible_thresh then 1 else -1) ∧
    { (update_decision K s).2 with decision := s.decision } = s := by
  simp only [update_decision]
  split_ifs <;> exact ⟨rfl, rfl, rfl⟩

/-- Claim C8, as stated, fails: a reachable state and a call of `loop` after which
`dark_count` is smaller.  The robot has counted one dark observation from robot 4 and
then receives a message whose value byte is 2, for which `update_beta` adds
`1 - 2` to `dark_count`. -/
theorem counters_counterexample :
    ¬ ∀ (K : Kilolib ℚ) (t : Tick) (s s1 : BayesBot ℚ), Reachable K s →
      loop K t s = some s1 →
      s.light_count ≤ s1.light_count ∧ s.dark_count ≤ s1.dark_count := by
  intro h
  have hc : constructed K0 (bot0 table0) := by
    unfold constructed
    decide
  have h0 : Reachable K0 bot_start := Reachable.start _ _ _ _ _ _ _ hc
  have hr : Reachable K0 ((run K0 events_bad_value bot_start).get (by decide!)) :=
    reachable_run K0 events_bad_value bot_start _ h0 (Option.some_get _).symm
  have := h K0 (tick 2 400) _
    ((loop K0 (tick 2 400) ((run K0 events_bad_value bot_start).get (by decide!))).get
      (by decide!)) hr (Option.some_get _).symm
  exact absurd this.2 (by decide!)

/-- Claim C8, amended: in a reachable state whose counters are more than two below
the `uint32_t` limit, a call of `loop` with any sensor reading and with a pending
message, if there is one, whose value byte is 0 or 1 does not decrease `light_count`
or `dark_count`. -/
theorem counters_monotone {R : Type} [LT R] [∀ a b : R, Decidable (a < b)] [One R] [Sub R]
    (K : Kilolib R) (t : Tick) (s s1 : BayesBot R) (hr : Reachable K s)
    (hm : s.new_message ≠ 0 → obs_val s.rx_message_buffer ≤ 1)
    (hl : s.light_count + 2 < U32) (hd : s.dark_count + 2 < U32)
    (hs : loop K t s = some s1) :
    s.light_count ≤ s1.light_count ∧ s.dark_count ≤ s1.dark_count :=
  loop_counts K t s s1 (reachable_new_observation K s hr) hm hl hd hs

/-- Claim C8, amended, at a robot that has just been set up, holds a light report
from robot 4 and passes over a dark floor at tick 40. -/
theorem counters_monotone_witness :
    ∃ s1, loop K0 (tick 40 100) (message_rx (msg 4 1 1) dist0 bot_start) = some s1 ∧
      (message_rx (msg 4 1 1) dist0 bot_start).light_count ≤ s1.light_count ∧
      (message_rx (msg 4 1 1) dist0 bot_start).dark_count ≤ s1.dark_count :=
  ⟨(loop K0 (tick 40 100) (message_rx (msg 4 1 1) dist0 bot_start)).get (by decide!),
    (Option.some_get _).symm,
    counters_monotone K0 (tick 40 100) (message_rx (msg 4 1 1) dist0 bot_start) _
      (Reachable.event bot_start _ (Event.message_rx (msg 4 1 1) dist0)
        (Reachable.start _ _ _ _ _ _ _ (by unfold constructed; decide)) rfl)
      (fun _ => by decide) (by decide!) (by decide!) (Option.some_get _).symm⟩

/-- Claim C9: after `update_beta` has been applied to the bits of a sequence shorter
than 2^32, from counters (0, 0), `light_count` is the number of ones, `dark_count` the
number of zeros, their sum the length of the sequence, and from each prefix of the
sequence to the next neither counter decreases. -/
theorem update_beta_counts {R : Type} (s : BayesBot R) (bs : List Nat)
    (hl : s.light_count = 0) (hd : s.dark_count = 0) (hb : ∀ b ∈ bs, b ≤ 1)
    (hn : bs.length < U32) :
    (update_beta_all bs s).light_count = bs.count 1 ∧
    (update_beta_all bs s).dark_count = bs.count 0 ∧
    (update_beta_all bs s).light_count + (update_beta_all bs s).dark_count = bs.length ∧
    ∀ k, (update_beta_all (bs.take k) s).light_count ≤
           (update_beta_all (bs.take (k + 1)) s).light_count ∧
         (update_beta_all (bs.take k) s).dark_count ≤
           (update_beta_all (bs.take (k + 1)) s).dark_count := by
  have key : ∀ cs : List Nat, List.Sublist cs bs →
      (update_beta_all cs s).light_count = cs.count 1 ∧
      (update_beta_all cs s).dark_count = cs.count 0 := by
    intro cs hcs
    have hlen := hcs.length_le
    obtain ⟨h1, h2⟩ := update_beta_all_counts cs s (fun b hbm => hb b (hcs.subset hbm))
      (by omega) (by omega)
    rw [h1, h2, hl, hd]
    omega
  obtain ⟨h1, h2⟩ := key bs (List.Sublist.refl bs)
  refine ⟨h1, h2, ?_, ?_⟩
  · rw [h1, h2]; exact count_bits bs hb
  · intro k
    obtain ⟨a1, a2⟩ := key (bs.take k) (List.take_sublist k bs)
    obtain ⟨b1, b2⟩ := key (bs.take (k + 1)) (List.take_sublist (k + 1) bs)
    have hsub : List.Sublist (bs.take k) (bs.take (k + 1)) :=
      List.take_sublist_take_left bs (Nat.le_succ k)
    rw [a1, a2, b1, b2]
    exact ⟨hsub.count_le 1, hsub.count_le 0⟩

/-- Claim C9 at the bits 1, 0, 1, 1: three light and one dark. -/
theorem update_beta_counts_witness :
    (update_beta_all [1, 0, 1, 1] (bot0 table_empty1)).light_count = 3 ∧
    (update_beta_all [1, 0, 1, 1] (bot0 table_empty1)).dark_count = 1 ∧
    (update_beta_all [1, 0, 1, 1] (bot0 table_empty1)).light_count +
      (update_beta_all [1, 0, 1, 1] (bot0 table_empty1)).dark_count = 4 :=
  ⟨(update_beta_counts (bot0 table_empty1) [1, 0, 1, 1] rfl rfl (by decide) (by decide)).1,
   (update_beta_counts (bot0 table_empty1) [1, 0, 1, 1] rfl rfl (by decide) (by decide)).2.1,
   (update_beta_counts (bot0 table_empty1) [1, 0, 1, 1] rfl rfl (by decide) (by decide)).2.2.1⟩

/-- Claim C10: starting from `initialize_neighbor_info_array` on the table of 100
slots, after any sequence of `update_neighbor_info_array` and
`prune_neighbor_info_array` calls, with any messages and ticks, no two slots hold the
same non-zero id and `count_neighbors` is at most 100 (in every state the sequence
reaches); and the sequence does reach a state when its `update` calls happen after
tick 0. -/
theorem table_ids_unique {R : Type} (s : BayesBot R) (ops : List TableOp)
    (hlen : s.neighbor_info_array.length = NEIGHBOR_INFO_ARRAY_SIZE) :
    (∀ s1, run_ops ops (initialize_neighbor_info_array s) = some s1 →
      unique_ids s1.neighbor_info_array ∧ count_neighbors s1 ≤ NEIGHBOR_INFO_ARRAY_SIZE) ∧
    ((∀ op ∈ ops, op.after_start) →
      ∃ s1, run_ops ops (initialize_neighbor_info_array s) = some s1) := by
  have hi : (initialize_neighbor_info_array s).neighbor_info_array.length =
      s.neighbor_info_array.length := by
    simp [initialize_neighbor_info_array]
  refine ⟨fun s1 hs => ?_, fun hops => ?_⟩
  · obtain ⟨hu, hl⟩ := run_ops_invariant ops _ s1 hs (initialized_ids_unique s)
    refine ⟨hu, ?_⟩
    have hc := count_loop_le s1.neighbor_info_array 0
    simp only [count_neighbors]
    omega
  · exact run_ops_defined ops _ hops (stamped_initialized s) (by rw [hi, hlen]; decide)

/-- Claim C10 at a run with two peers, a repeated message, a pruning and a
re-admission. -/
theorem table_ids_unique_witness :
    (bot0 table0).neighbor_info_array.length = NEIGHBOR_INFO_ARRAY_SIZE ∧
    ∃ s1, run_ops ops_example (initialize_neighbor_info_array (bot0 table0)) = some s1 ∧
      unique_ids s1.neighbor_info_array ∧ count_neighbors s1 ≤ NEIGHBOR_INFO_ARRAY_SIZE :=
  ⟨by decide,
    (run_ops ops_example (initialize_neighbor_info_array (bot0 table0))).get (by decide!),
    (Option.some_get _).symm,
    (table_ids_unique (bot0 table0) ops_example (by decide)).1 _ (Option.some_get _).symm⟩

end Kilosim

/-! ## Lemmas on pruning, the codec and slot selection -/

namespace Kilosim

section Pruning

variable {R : Type}

theorem run_ops_from_peer (p : Nat) (ops : List TableOp) (s : BayesBot R)
    (hin : in_table p s.neighbor_info_array) (hops : ∀ op ∈ ops, op.from_peer p) :
    run_ops ops s = some s := by
  induction ops with
  | nil => rfl
  | cons op ops ih =>
    have hop : op.from_peer p := hops op (List.mem_cons_self _ _)
    cases op with
    | update m d kilo_ticks =>
      have hm : rx_id m = p := hop
      have h2 : update_neighbor_info_array m d kilo_ticks s = some s :=
        update_of_in m d kilo_ticks s (by rw [hm]; exact hin)
      simp only [run_ops, apply_op, h2]
      exact ih fun o ho => hops o (List.mem_cons_of_mem _ ho)
    | prune kilo_ticks => exact absurd hop (by simp [TableOp.from_peer])

theorem prune_slot (kilo_ticks : Nat) (s : BayesBot R) (i : Nat) (e : neighbor_info_array_t)
    (hi : s.neighbor_info_array[i]? = some e) :
    (prune_neighbor_info_array kilo_ticks s).neighbor_info_array[i]? =
      some (if kilo_ticks > (e.time_first_heard_from + s.neighbor_info_array_timeout) % U32
        then { e with id := 0 } else e) := by
  simp only [prune_neighbor_info_array, List.getElem?_map, hi, Option.map_some']

theorem high_byte (x : Nat) : (x &&& 0xff00) >>> 8 = (x / 256) % 256 := by
  apply Nat.eq_of_testBit_eq
  intro i
  have h1 : (0xff00 : Nat) = (2 ^ 8 - 1) <<< 8 := by decide
  have h2 : x / 256 = x >>> 8 := by rw [Nat.shiftRight_eq_div_pow]
  have h3 : (256 : Nat) = 2 ^ 8 := by decide
  rw [Nat.testBit_shiftRight, Nat.testBit_and, h1, Nat.testBit_shiftLeft, h2, h3,
    Nat.testBit_mod_two_pow, Nat.testBit_shiftRight, Nat.testBit_two_pow_sub_one]
  simp [Bool.and_comm]

theorem low_byte (x : Nat) : x &&& 0x00ff = x % 256 := by
  have h1 : (0x00ff : Nat) = 2 ^ 8 - 1 := by decide
  rw [h1, Nat.and_pow_two_sub_one_eq_mod]

theorem join_bytes (x : Nat) (h : x < U16) :
    ((((x / 256) % 256) % 256) <<< 8 ||| ((x % 256) % 256)) % U16 = x := by
  have hx : x < 65536 := h
  have h1 : (x / 256) % 256 = x / 256 := Nat.mod_eq_of_lt (by omega)
  have h2 : (x % 256) < 2 ^ 8 := by omega
  rw [Nat.mod_mod, Nat.mod_mod, h1, Nat.shiftLeft_eq, Nat.mul_comm,
    ← Nat.mul_add_lt_is_or h2]
  show (256 * (x / 256) + x % 256) % 65536 = x
  omega

/-- The five bytes `update_tx_message_data` writes, read back with `byte`. -/
theorem tx_bytes (K : Kilolib R) (s : BayesBot R) (hlen : 5 ≤ s.tx_message_data.data.length) :
    (update_tx_message_data K s).tx_message_data.byte 0 = ((s.id &&& 0xff00) >>> 8) % 256 ∧
    (update_tx_message_data K s).tx_message_data.byte 1 = (s.id &&& 0x00ff) % 256 ∧
    (update_tx_message_data K s).tx_message_data.byte 2 =
      (if s.decision ≠ -1 ∧ s.use_positive_feedback ≠ 0
       then (s.decision % 256).toNat else s.observation % 256) % 256 ∧
    (update_tx_message_data K s).tx_message_data.byte 3 =
      ((s.observation_ind &&& 0xff00) >>> 8) % 256 ∧
    (update_tx_message_data K s).tx_message_data.byte 4 =
      (s.observation_ind &&& 0x00ff) % 256 := by
  have h0 : 0 < s.tx_message_data.data.length := by omega
  have h1 : 1 < s.tx_message_data.data.length := by omega
  have h2 : 2 < s.tx_message_data.data.length := by omega
  have h3 : 3 < s.tx_message_data.data.length := by omega
  have h4 : 4 < s.tx_message_data.data.length := by omega
  simp only [update_tx_message_data, message_t.byte]
  refine ⟨?_, ?_, ?_, ?_, ?_⟩
  · split_ifs <;> simp [List.getD_eq_getElem?_getD, List.getElem?_set, h0]
  · split_ifs <;> simp [List.getD_eq_getElem?_getD, List.getElem?_set, h1]
  · split_ifs <;> simp [List.getD_eq_getElem?_getD, List.getElem?_set, h2]
  · split_ifs <;> simp [List.getD_eq_getElem?_getD, List.getElem?_set, h3]
  · split_ifs <;> simp [List.getD_eq_getElem?_getD, List.getElem?_set, h4]

theorem empty_loop_first (tbl : List neighbor_info_array_t) :
    ∀ (i j : Nat), empty_loop tbl i = some j →
      ∃ e, tbl[j - i]? = some e ∧ e.id = 0 ∧
        ∀ (k : Nat) (f : neighbor_info_array_t), k < j - i → tbl[k]? = some f →
          f.id ≠ 0 := by
  induction tbl with
  | nil => intro i j h; simp [empty_loop] at h
  | cons e es ih =>
    intro i j h
    simp only [empty_loop] at h
    split_ifs at h with h0
    · cases h
      refine ⟨e, by simp, h0, ?_⟩
      intro k f hk
      omega
    · obtain ⟨hr, _⟩ := empty_loop_range es (i + 1) j h
      obtain ⟨g, hg, hg0, hfirst⟩ := ih (i + 1) j h
      have hji : j - i = (j - (i + 1)) + 1 := by omega
      refine ⟨g, by rw [hji, List.getElem?_cons_succ]; exact hg, hg0, ?_⟩
      intro k f hk hf
      cases k with
      | zero =>
        simp only [List.getElem?_cons_zero, Option.some.injEq] at hf
        rw [← hf]; exact h0
      | succ k =>
        rw [List.getElem?_cons_succ] at hf
        exact hfirst k f (by omega) hf

end Pruning

/-! ## Lemmas on the incomplete beta function at one half -/

section Beta

theorem upper_tail_succ (n a m : Nat) :
    upper_tail n a (m + 1) = upper_tail n a m + n.choose (a + m) := by
  simp [upper_tail, List.range_succ]

theorem upper_tail_shift (n a : Nat) :
    ∀ m : Nat, upper_tail n a (m + 1) = n.choose a + upper_tail n (a + 1) m := by
  intro m
  induction m with
  | zero => rw [upper_tail_succ]; simp [upper_tail]
  | succ m ih =>
    rw [upper_tail_succ, ih, upper_tail_succ n (a + 1) m]
    have : a + 1 + m = a + (m + 1) := by omega
    rw [this]
    omega

theorem upper_tail_pascal (n a : Nat) :
    ∀ m : Nat, upper_tail (n + 1) (a + 1) m = upper_tail n a m + upper_tail n (a + 1) m := by
  intro m
  induction m with
  | zero => simp [upper_tail]
  | succ m ih =>
    rw [upper_tail_succ, upper_tail_succ, upper_tail_succ, ih]
    have h1 : a + 1 + m = (a + m) + 1 := by omega
    rw [h1, Nat.choose_succ_succ, Nat.succ_eq_add_one]
    omega

theorem incbeta_half_eq (a b : Nat) :
    incbeta_half a b = (upper_tail (a + b - 1) a b : ℚ) / 2 ^ (a + b - 1) := by
  simp [incbeta_half, upper_tail, Nat.cast_list_sum, List.map_map, Function.comp_def]

theorem half_step (A B : Nat) (n : Nat) (h : 2 * A ≤ B) :
    (A : ℚ) / 2 ^ n ≤ (B : ℚ) / 2 ^ (n + 1) := by
  have hq : (2 * A : ℚ) ≤ B := by exact_mod_cast h
  have hp : (0 : ℚ) < 2 ^ n := by positivity
  rw [div_le_div_iff₀ hp (by positivity), pow_succ]
  nlinarith

theorem half_step_down (A B : Nat) (n : Nat) (h : B ≤ 2 * A) :
    (B : ℚ) / 2 ^ (n + 1) ≤ (A : ℚ) / 2 ^ n := by
  have hq : (B : ℚ) ≤ 2 * A := by exact_mod_cast h
  have hp : (0 : ℚ) < 2 ^ n := by positivity
  rw [div_le_div_iff₀ (by positivity) hp, pow_succ]
  nlinarith

/-- One more dark pseudo-observation does not lower the mass below one half. -/
theorem incbeta_half_succ_right (a b : Nat) (ha : 1 ≤ a) :
    incbeta_half a b ≤ incbeta_half a (b + 1) := by
  obtain ⟨c, rfl⟩ : ∃ c, a = c + 1 := ⟨a - 1, by omega⟩
  rw [incbeta_half_eq, incbeta_half_eq]
  have e1 : c + 1 + b - 1 = c + b := by omega
  have e2 : c + 1 + (b + 1) - 1 = (c + b) + 1 := by omega
  rw [e1, e2]
  apply half_step
  rw [upper_tail_pascal, upper_tail_succ (c + b) (c + 1) b, upper_tail_shift (c + b) c b,
    Nat.choose_eq_zero_of_lt (by omega : c + b < c + 1 + b)]
  omega

/-- One more light pseudo-observation does not raise the mass below one half. -/
theorem incbeta_half_succ_left (a b : Nat) (hb : 1 ≤ b) :
    incbeta_half (a + 1) b ≤ incbeta_half a b := by
  obtain ⟨c, rfl⟩ : ∃ c, b = c + 1 := ⟨b - 1, by omega⟩
  rw [incbeta_half_eq, incbeta_half_eq]
  have e1 : a + (c + 1) - 1 = a + c := by omega
  have e2 : a + 1 + (c + 1) - 1 = (a + c) + 1 := by omega
  rw [e1, e2]
  apply half_step_down
  rw [upper_tail_pascal, upper_tail_succ (a + c) (a + 1) c, upper_tail_shift (a + c) a c,
    Nat.choose_eq_zero_of_lt (by omega : a + c < a + 1 + c)]
  omega

theorem incbeta_half_mono_right (a b b2 : Nat) (ha : 1 ≤ a) (h : b ≤ b2) :
    incbeta_half a b ≤ incbeta_half a b2 := by
  induction b2, h using Nat.le_induction with
  | base => exact le_refl _
  | succ k _ ih => exact le_trans ih (incbeta_half_succ_right a k ha)

theorem incbeta_half_anti_left (a a2 b : Nat) (hb : 1 ≤ b) (h : a ≤ a2) :
    incbeta_half a2 b ≤ incbeta_half a b := by
  induction a2, h using Nat.le_induction with
  | base => exact le_refl _
  | succ k _ ih => exact le_trans (incbeta_half_succ_left k b hb) ih

theorem incbeta_half_one (a : Nat) : incbeta_half a 1 = 1 / 2 ^ a := by
  rw [incbeta_half_eq]
  simp [upper_tail, List.range_succ]

theorem incbeta_half_one_lt (a : Nat) (h : 1 < a) : incbeta_half a 1 < incbeta_half 1 1 := by
  rw [incbeta_half_one, incbeta_half_one]
  exact one_div_lt_one_div_of_lt (by positivity) (pow_lt_pow_right₀ (by norm_num) h)

theorem update_decision_fst {R : Type} [LT R] [∀ a b : R, Decidable (a < b)] [One R] [Sub R]
    (K : Kilolib R) (s : BayesBot R) :
    (update_decision K s).1 =
      K.incbeta ((s.light_count + s.light_prior) % U32) ((s.dark_count + s.dark_prior) % U32) := by
  simp only [update_decision]
  split_ifs <;> rfl

theorem update_decision_value {R : Type} [LT R] [∀ a b : R, Decidable (a < b)] [One R]
    [Sub R] (K : Kilolib R) (s : BayesBot R) :
    (update_decision K s).2.decision =
      (if (update_decision K s).1 > s.credible_thresh then 0
       else if (update_decision K s).1 < 1 - s.credible_thresh then 1 else -1) := by
  simp only [update_decision]
  split_ifs <;> rfl

theorem update_beta_all_frame {R : Type} (bs : List Nat) :
    ∀ s : BayesBot R, update_beta_all bs s =
      { s with dark_count := (update_beta_all bs s).dark_count,
               light_count := (update_beta_all bs s).light_count } := by
  induction bs with
  | nil => intro s; rfl
  | cons b bs ih =>
    intro s
    have hstep : update_beta_all (b :: bs) s = update_beta_all bs (update_beta b s) := rfl
    rw [hstep]
    have h := ih (update_beta b s)
    generalize update_beta_all bs (update_beta b s) = r at h ⊢
    rw [h]
    rfl

end Beta

/-! ## The claims, continued -/

/-- Claim C11: for a slot first heard from at `f` with `f + T` below 2^32, where `T` is
the timeout, `prune_neighbor_info_array` at `kilo_ticks` sets the slot's id to 0 if
`kilo_ticks - f > T` and leaves the slot as it is otherwise, and it changes nothing but
the table.  Messages from the slot's peer change nothing in between, so at
`kilo_ticks = f + T` the slot is kept and at `f + T + 1` it is emptied. -/
theorem prune_boundary {R : Type} (kilo_ticks : Nat) (s : BayesBot R) (i : Nat)
    (e : neighbor_info_array_t) (ops : List TableOp)
    (hi : s.neighbor_info_array[i]? = some e)
    (hb : e.time_first_heard_from + s.neighbor_info_array_timeout < U32)
    (hops : ∀ op ∈ ops, op.from_peer e.id) :
    (prune_neighbor_info_array kilo_ticks s).neighbor_info_array[i]? =
      some (if (kilo_ticks : Int) - e.time_first_heard_from > s.neighbor_info_array_timeout
        then { e with id := 0 } else e) ∧
    { prune_neighbor_info_array kilo_ticks s with
      neighbor_info_array := s.neighbor_info_array } = s ∧
    run_ops ops s = some s ∧
    (prune_neighbor_info_array
      (e.time_first_heard_from + s.neighbor_info_array_timeout) s).neighbor_info_array[i]? =
      some e ∧
    (prune_neighbor_info_array
      (e.time_first_heard_from + s.neighbor_info_array_timeout + 1) s).neighbor_info_array[i]? =
      some { e with id := 0 } := by
  have hmod : (e.time_first_heard_from + s.neighbor_info_array_timeout) % U32 =
      e.time_first_heard_from + s.neighbor_info_array_timeout := Nat.mod_eq_of_lt hb
  have hmem : e ∈ s.neighbor_info_array := by
    obtain ⟨hlt, rfl⟩ := List.getElem?_eq_some.mp hi
    exact List.getElem_mem hlt
  refine ⟨?_, rfl, run_ops_from_peer e.id ops s ⟨e, hmem, rfl⟩ hops, ?_, ?_⟩
  · rw [prune_slot kilo_ticks s i e hi, hmod]
    by_cases hc : kilo_ticks > e.time_first_heard_from + s.neighbor_info_array_timeout
    · rw [if_pos hc, if_pos (by omega)]
    · rw [if_neg hc, if_neg (by omega)]
  · rw [prune_slot _ s i e hi, hmod, if_neg (by omega)]
  · rw [prune_slot _ s i e hi, hmod, if_pos (by omega)]

/-- Claim C11 at robot 7, first heard from at tick 0, with the timeout of 28800 ticks
and one more message from robot 7. -/
theorem prune_boundary_witness :
    (prune_neighbor_info_array 28800 (bot0 table_one)).neighbor_info_array[0]? =
      some ⟨7, 1, 0⟩ ∧
    (prune_neighbor_info_array 28801 (bot0 table_one)).neighbor_info_array[0]? =
      some ⟨0, 1, 0⟩ ∧
    run_ops [TableOp.update (msg 7 1 2) dist0 5] (bot0 table_one) = some (bot0 table_one) :=
  ⟨(prune_boundary 28800 (bot0 table_one) 0 ⟨7, 1, 0⟩
      [TableOp.update (msg 7 1 2) dist0 5] rfl (by decide)
      (by intro op hop; rw [List.mem_singleton.mp hop]; show rx_id (msg 7 1 2) = 7
          decide)).2.2.2.1,
   (prune_boundary 28800 (bot0 table_one) 0 ⟨7, 1, 0⟩
      [TableOp.update (msg 7 1 2) dist0 5] rfl (by decide)
      (by intro op hop; rw [List.mem_singleton.mp hop]; show rx_id (msg 7 1 2) = 7
          decide)).2.2.2.2,
   (prune_boundary 28800 (bot0 table_one) 0 ⟨7, 1, 0⟩
      [TableOp.update (msg 7 1 2) dist0 5] rfl (by decide)
      (by intro op hop; rw [List.mem_singleton.mp hop]; show rx_id (msg 7 1 2) = 7
          decide)).2.2.1⟩

/-- Claim C12: for a 16-bit id and observation index and an evidence value of 0 or 1,
the bytes `update_tx_message_data` writes decode, by the field extraction of
`update_neighbor_info_array`, to the same id, the same observation index and the same
evidence value (the decision when decided with positive feedback, the observation
otherwise). -/
theorem codec_round_trip {R : Type} (K : Kilolib R) (s : BayesBot R)
    (hid : s.id < U16) (hind : s.observation_ind < U16)
    (hdec : s.decision = -1 ∨ s.decision = 0 ∨ s.decision = 1) (hobs : s.observation ≤ 1)
    (hlen : 5 ≤ s.tx_message_data.data.length) :
    rx_id (update_tx_message_data K s).tx_message_data = s.id ∧
    rx_obs_ind (update_tx_message_data K s).tx_message_data = s.observation_ind ∧
    (s.decision ≠ -1 ∧ s.use_positive_feedback ≠ 0 →
      (obs_val (update_tx_message_data K s).tx_message_data : Int) = s.decision) ∧
    (¬ (s.decision ≠ -1 ∧ s.use_positive_feedback ≠ 0) →
      obs_val (update_tx_message_data K s).tx_message_data = s.observation) := by
  obtain ⟨b0, b1, b2, b3, b4⟩ := tx_bytes K s hlen
  refine ⟨?_, ?_, ?_, ?_⟩
  · rw [rx_id, b0, b1, high_byte, low_byte]
    exact join_bytes s.id hid
  · rw [rx_obs_ind, b3, b4, high_byte, low_byte]
    exact join_bytes s.observation_ind hind
  · intro h
    rw [obs_val, b2, if_pos h]
    rcases hdec with h1 | h1 | h1
    · exact absurd h1 h.1
    · rw [h1]; rfl
    · rw [h1]; rfl
  · intro h
    rw [obs_val, b2, if_neg h]
    omega

/-- Claim C12 at robot 513 sending the observation 1 with index 770. -/
theorem codec_round_trip_witness :
    rx_id (update_tx_message_data K0 bot_sender).tx_message_data = 513 ∧
    rx_obs_ind (update_tx_message_data K0 bot_sender).tx_message_data = 770 ∧
    obs_val (update_tx_message_data K0 bot_sender).tx_message_data = 1 :=
  ⟨(codec_round_trip K0 bot_sender (by decide) (by decide) (by decide) (by decide)
      (by decide)).1,
   (codec_round_trip K0 bot_sender (by decide) (by decide) (by decide) (by decide)
      (by decide)).2.1,
   (codec_round_trip K0 bot_sender (by decide) (by decide) (by decide) (by decide)
      (by decide)).2.2.2 (by decide)⟩

/-- Claim C13: the evidence byte `data[2]` written by `update_tx_message_data` is the
decision when `decision ≠ -1` and `use_positive_feedback` is set, and the latest
observation when the robot is undecided or positive feedback is off. -/
theorem tx_evidence_byte {R : Type} (K : Kilolib R) (s : BayesBot R)
    (hdec : s.decision = -1 ∨ s.decision = 0 ∨ s.decision = 1) (hobs : s.observation < 256)
    (hlen : 5 ≤ s.tx_message_data.data.length) :
    (s.decision ≠ -1 ∧ s.use_positive_feedback ≠ 0 →
      ((update_tx_message_data K s).tx_message_data.byte 2 : Int) = s.decision) ∧
    (s.decision = -1 ∨ s.use_positive_feedback = 0 →
      (update_tx_message_data K s).tx_message_data.byte 2 = s.observation) := by
  obtain ⟨_, _, b2, _, _⟩ := tx_bytes K s hlen
  refine ⟨?_, ?_⟩
  · intro h
    rw [b2, if_pos h]
    rcases hdec with h1 | h1 | h1
    · exact absurd h1 h.1
    · rw [h1]; rfl
    · rw [h1]; rfl
  · intro h
    have hn : ¬ (s.decision ≠ -1 ∧ s.use_positive_feedback ≠ 0) := by
      rintro ⟨h1, h2⟩
      rcases h with h | h
      · exact h1 h
      · exact h2 h
    rw [b2, if_neg hn]
    omega

/-- Claim C13 at a robot decided for light whose latest observation is dark. -/
theorem tx_evidence_byte_witness :
    bot_decided.observation = 0 ∧
    ((update_tx_message_data K0 bot_decided).tx_message_data.byte 2 : Int) = 1 :=
  ⟨rfl, (tx_evidence_byte K0 bot_decided (by decide) (by decide) (by decide)).1
    (by decide)⟩

/-- Claim C14: `message_tx` returns a message exactly when the state is DISSEMINATE or
OBSERVE_DISSEMINATE, and then it is the freshly written `tx_message_data`; in state
OBSERVE it returns none and leaves the robot, `tx_message_data` included, as it
is. -/
theorem message_tx_gate {R : Type} (K : Kilolib R) (s : BayesBot R) :
    ((message_tx K s).1.isSome ↔ (s.state = DISSEMINATE ∨ s.state = OBSERVE_DISSEMINATE)) ∧
    (s.state = DISSEMINATE ∨ s.state = OBSERVE_DISSEMINATE →
      message_tx K s =
        (some (update_tx_message_data K s).tx_message_data, update_tx_message_data K s)) ∧
    (s.state = OBSERVE → message_tx K s = (none, s)) := by
  simp only [message_tx]
  refine ⟨?_, ?_, ?_⟩
  · split_ifs with h
    · simp [h]
    · simp [h]
  · intro h
    rw [if_pos h]
  · intro h
    rw [if_neg (by rw [h]; decide)]

/-- Claim C15: `observe_color` raises `new_observation` only when the interval has
elapsed and the light level is not GRAY, and then `observation` is 0 for DARK and 1
otherwise (LIGHT); when the interval has elapsed and the level is GRAY only
`last_observation_tick` is set to `kilo_ticks`; when the interval has not elapsed
nothing changes. -/
theorem observe_color_gate {R : Type} (K : Kilolib R) (kilo_ticks : Nat) (s : BayesBot R) :
    ((s.last_observation_tick + s.observe_step_time * K.SECOND) % U32 ≤ kilo_ticks →
      s.curr_light_level ≠ GRAY →
      observe_color K kilo_ticks s =
        { s with new_observation := TRUE,
                 observation := if s.curr_light_level = DARK then 0 else 1,
                 last_observation_tick := kilo_ticks }) ∧
    ((s.last_observation_tick + s.observe_step_time * K.SECOND) % U32 ≤ kilo_ticks →
      s.curr_light_level = GRAY →
      observe_color K kilo_ticks s = { s with last_observation_tick := kilo_ticks }) ∧
    (¬ (s.last_observation_tick + s.observe_step_time * K.SECOND) % U32 ≤ kilo_ticks →
      observe_color K kilo_ticks s = s) ∧
    ((observe_color K kilo_ticks s).new_observation ≠ s.new_observation →
      (s.last_observation_tick + s.observe_step_time * K.SECOND) % U32 ≤ kilo_ticks ∧
      s.curr_light_level ≠ GRAY) := by
  simp only [observe_color]
  refine ⟨?_, ?_, ?_, ?_⟩
  · intro h1 h2
    rw [if_pos h1, if_pos h2]
  · intro h1 h2
    rw [if_pos h1, if_neg (not_not.mpr h2)]
  · intro h1
    rw [if_neg h1]
  · intro h
    by_cases h1 : (s.last_observation_tick + s.observe_step_time * K.SECOND) % U32 ≤ kilo_ticks
    · by_cases h2 : s.curr_light_level ≠ GRAY
      · exact ⟨h1, h2⟩
      · rw [if_pos h1, if_neg h2] at h
        exact absurd rfl h
    · rw [if_neg h1] at h
      exact absurd rfl h

/-- Claim C16 fails on the code.  After the two ticks of `events_into_turn` the robot
is turning, `is_feature_detect_safe` is FALSE and no message is pending; a call of
`loop` at tick 40 over a dark floor leaves it turning and still accepts the
observation: `dark_count` and `observation_ind` go from 0 to 1. -/
theorem observation_while_turning :
    (run K0 events_into_turn bot_start).map
      (fun s => (s.rw_state, s.is_feature_detect_safe, s.new_message, s.dark_count,
        s.observation_ind)) = some (RW_TURN, FALSE, 0, 0, 0) ∧
    ((run K0 events_into_turn bot_start).bind (loop K0 (tick 40 100))).map
      (fun s => (s.rw_state, s.is_feature_detect_safe, s.dark_count, s.observation_ind)) =
      some (RW_TURN, FALSE, 1, 1) := by
  decide!

/-- Claim C18: with both priors 1 and the threshold 0.95, after twenty calls
`update_beta(1)` from counters (0, 0), `update_decision` returns the incomplete beta
value for (21, 1), which is 2^-21 and so below 0.05, and sets the decision to 1. -/
theorem twenty_light_decides (K : Kilolib ℚ) (s : BayesBot ℚ)
    (hK : K.incbeta = incbeta_half) (hl : s.light_count = 0) (hd : s.dark_count = 0)
    (hlp : s.light_prior = 1) (hdp : s.dark_prior = 1) (ht : s.credible_thresh = 19 / 20) :
    (update_beta_all (List.replicate 20 1) s).light_count = 20 ∧
    (update_beta_all (List.replicate 20 1) s).dark_count = 0 ∧
    (update_decision K (update_beta_all (List.replicate 20 1) s)).1 = incbeta_half 21 1 ∧
    incbeta_half 21 1 = 1 / 2 ^ 21 ∧
    (update_decision K (update_beta_all (List.replicate 20 1) s)).1 < 1 / 20 ∧
    (update_decision K (update_beta_all (List.replicate 20 1) s)).2.decision = 1 := by
  obtain ⟨c1, c2⟩ := update_beta_all_counts (List.replicate 20 1) s
    (fun b hb => by rw [List.eq_of_mem_replicate hb])
    (by rw [hl]; decide) (by rw [hd]; decide)
  have d1 : (update_beta_all (List.replicate 20 1) s).light_count = 20 := by
    rw [c1, hl]; decide
  have d2 : (update_beta_all (List.replicate 20 1) s).dark_count = 0 := by
    rw [c2, hd]; decide
  have hf := update_beta_all_frame (List.replicate 20 1) s
  have p1 : (update_beta_all (List.replicate 20 1) s).light_prior = 1 := by
    rw [hf]; exact hlp
  have p2 : (update_beta_all (List.replicate 20 1) s).dark_prior = 1 := by
    rw [hf]; exact hdp
  have p3 : (update_beta_all (List.replicate 20 1) s).credible_thresh = 19 / 20 := by
    rw [hf]; exact ht
  have hp : (update_decision K (update_beta_all (List.replicate 20 1) s)).1 =
      incbeta_half 21 1 := by
    rw [update_decision_fst, hK, d1, d2, p1, p2]
    rfl
  have hv : incbeta_half 21 1 = 1 / 2 ^ 21 := incbeta_half_one 21
  refine ⟨d1, d2, hp, hv, ?_, ?_⟩
  · rw [hp, hv]; norm_num
  · rw [update_decision_value, hp, hv, p3]
    norm_num

/-- Claim C18 at the robot as constructed. -/
theorem twenty_light_decides_witness :
    (update_decision K0 (update_beta_all (List.replicate 20 1) (bot0 table_empty1))).1 =
      1 / 2 ^ 21 ∧
    (update_decision K0 (update_beta_all (List.replicate 20 1) (bot0 table_empty1))).2.decision
      = 1 :=
  ⟨(twenty_light_decides K0 (bot0 table_empty1) rfl rfl rfl rfl rfl rfl).2.2.1.trans
      (twenty_light_decides K0 (bot0 table_empty1) rfl rfl rfl rfl rfl rfl).2.2.2.1,
    (twenty_light_decides K0 (bot0 table_empty1) rfl rfl rfl rfl rfl rfl).2.2.2.2.2⟩

/-- Claim C19, as stated, fails where the `uint32_t` sum wraps: with a light prior of
2, raising `light_count` from 4294967293 to 4294967295 takes the first argument of
`incbeta` from 4294967295 to 1 and the returned value up. -/
theorem belief_wraps_counterexample :
    bot_near_wrap.light_count ≤ 4294967295 ∧ 0 < bot_near_wrap.light_prior ∧
    0 < bot_near_wrap.dark_prior ∧
    (update_decision K0 bot_near_wrap).1 <
      (update_decision K0 { bot_near_wrap with light_count := 4294967295 }).1 := by
  refine ⟨by decide, by decide, by decide, ?_⟩
  have hK : K0.incbeta = incbeta_half := rfl
  have x1 : (bot_near_wrap.light_count + bot_near_wrap.light_prior) % U32 = 4294967295 := by
    decide
  have x2 : (4294967295 + bot_near_wrap.light_prior) % U32 = 1 := by decide
  have y1 : (bot_near_wrap.dark_count + bot_near_wrap.dark_prior) % U32 = 1 := by decide
  rw [update_decision_fst, update_decision_fst, hK]
  show incbeta_half ((bot_near_wrap.light_count + bot_near_wrap.light_prior) % U32)
      ((bot_near_wrap.dark_count + bot_near_wrap.dark_prior) % U32) <
    incbeta_half ((4294967295 + bot_near_wrap.light_prior) % U32)
      ((bot_near_wrap.dark_count + bot_near_wrap.dark_prior) % U32)
  rw [x1, x2, y1]
  exact incbeta_half_one_lt 4294967295 (by decide)

/-- Claim C19, amended: for positive priors and as long as `light_count + light_prior`
and `dark_count + dark_prior` stay below 2^32, the value returned by `update_decision`
does not increase when `light_count` is increased and does not decrease when
`dark_count` is increased. -/
theorem belief_monotone (K : Kilolib ℚ) (s : BayesBot ℚ) (l2 d2 : Nat)
    (hK : K.incbeta = incbeta_half)
    (hlp : 0 < s.light_prior) (hdp : 0 < s.dark_prior)
    (hl : s.light_count ≤ l2) (hd : s.dark_count ≤ d2)
    (hlw : l2 + s.light_prior < U32) (hdw : d2 + s.dark_prior < U32) :
    (update_decision K { s with light_count := l2 }).1 ≤ (update_decision K s).1 ∧
    (update_decision K s).1 ≤ (update_decision K { s with dark_count := d2 }).1 := by
  have m1 : (s.light_count + s.light_prior) % U32 = s.light_count + s.light_prior :=
    Nat.mod_eq_of_lt (by omega)
  have m2 : (s.dark_count + s.dark_prior) % U32 = s.dark_count + s.dark_prior :=
    Nat.mod_eq_of_lt (by omega)
  have m3 : (l2 + s.light_prior) % U32 = l2 + s.light_prior := Nat.mod_eq_of_lt hlw
  have m4 : (d2 + s.dark_prior) % U32 = d2 + s.dark_prior := Nat.mod_eq_of_lt hdw
  rw [update_decision_fst, update_decision_fst, update_decision_fst, hK]
  show incbeta_half ((l2 + s.light_prior) % U32) ((s.dark_count + s.dark_prior) % U32) ≤
      incbeta_half ((s.light_count + s.light_prior) % U32)
        ((s.dark_count + s.dark_prior) % U32) ∧
    incbeta_half ((s.light_count + s.light_prior) % U32)
        ((s.dark_count + s.dark_prior) % U32) ≤
      incbeta_half ((s.light_count + s.light_prior) % U32) ((d2 + s.dark_prior) % U32)
  rw [m1, m2, m3, m4]
  exact ⟨incbeta_half_anti_left _ _ _ (by omega) (by omega),
    incbeta_half_mono_right _ _ _ (by omega) (by omega)⟩

/-- Claim C19, amended, at five more light and seven more dark observations. -/
theorem belief_monotone_witness :
    (update_decision K0 { bot0 table_empty1 with light_count := 5 }).1 ≤
      (update_decision K0 (bot0 table_empty1)).1 ∧
    (update_decision K0 (bot0 table_empty1)).1 ≤
      (update_decision K0 { bot0 table_empty1 with dark_count := 7 }).1 :=
  belief_monotone K0 (bot0 table_empty1) 5 7 rfl (by decide) (by decide) (by decide) (by decide)
    (by decide) (by decide)

/-- Claim C20: when the received peer id is not in the table and some slot has id 0,
the peer is stored in the empty slot of lowest index, and every other slot, like the
length of the table, is unchanged. -/
theorem insert_takes_first_empty {R : Type} (m : message_t) (d : distance_measurement_t)
    (kilo_ticks : Nat) (s : BayesBot R)
    (hnew : ¬ in_table (rx_id m) s.neighbor_info_array)
    (hempty : in_table 0 s.neighbor_info_array) :
    ∃ i e s1, s.neighbor_info_array[i]? = some e ∧ e.id = 0 ∧
      (∀ (k : Nat) (f : neighbor_info_array_t), k < i →
        s.neighbor_info_array[k]? = some f → f.id ≠ 0) ∧
      update_neighbor_info_array m d kilo_ticks s = some s1 ∧
      s1.neighbor_info_array[i]? = some
        { id := rx_id m, obs_ind := rx_obs_ind m, time_first_heard_from := kilo_ticks } ∧
      (∀ k : Nat, k ≠ i → s1.neighbor_info_array[k]? = s.neighbor_info_array[k]?) ∧
      s1.neighbor_info_array.length = s.neighbor_info_array.length := by
  obtain ⟨i, hi⟩ := empty_loop_of_mem s.neighbor_info_array hempty 0
  obtain ⟨e, he, he0, hfirst⟩ := empty_loop_first s.neighbor_info_array 0 i hi
  have hidx : index_to_insert s.neighbor_info_array = some i := by
    simp only [index_to_insert, hi]
  have hlt := index_to_insert_lt s.neighbor_info_array i hidx
  refine ⟨i, e, inserted m kilo_ticks s i e, he, he0, hfirst,
    update_eq_inserted m d kilo_ticks s i e hnew hidx he, ?_, ?_, ?_⟩
  · simp [inserted, hlt]
  · intro k hk
    simp only [inserted]
    exact List.getElem?_set_ne (Ne.symm hk)
  · simp [inserted]

/-- Claim C20 at a table that tracks robot 9 and has one empty slot. -/
theorem insert_takes_first_empty_witness :
    update_neighbor_info_array (msg 4 1 1) dist0 6 (bot0 table_nine) =
      some { bot0 [⟨9, 4, 2⟩, ⟨4, 1, 6⟩] with light_count := 1 } ∧
    ∃ i e s1, (bot0 table_nine).neighbor_info_array[i]? = some e ∧ e.id = 0 ∧
      (∀ (k : Nat) (f : neighbor_info_array_t), k < i →
        (bot0 table_nine).neighbor_info_array[k]? = some f → f.id ≠ 0) ∧
      update_neighbor_info_array (msg 4 1 1) dist0 6 (bot0 table_nine) = some s1 ∧
      s1.neighbor_info_array[i]? = some
        { id := rx_id (msg 4 1 1), obs_ind := rx_obs_ind (msg 4 1 1),
          time_first_heard_from := 6 } ∧
      (∀ k : Nat, k ≠ i →
        s1.neighbor_info_array[k]? = (bot0 table_nine).neighbor_info_array[k]?) ∧
      s1.neighbor_info_array.length = (bot0 table_nine).neighbor_info_array.length :=
  ⟨by decide!,
   insert_takes_first_empty (msg 4 1 1) dist0 6 (bot0 table_nine) (by decide) (by decide)⟩

end Kilosim

/-! ## Lemmas on the stages of `loop` -/

namespace Kilosim

section Stages

variable {R : Type} [LT R] [∀ a b : R, Decidable (a < b)] [One R] [Sub R]

omit [LT R] [∀ a b : R, Decidable (a < b)] [One R] [Sub R] in
theorem loop_move_eq (t : Tick) (s : BayesBot R) :
    loop_move t s =
      { s with curr_light_level := detect_light_level t.ambientlight,
               rw_state := (loop_move t s).rw_state,
               is_feature_detect_safe := (loop_move t s).is_feature_detect_safe,
               rw_last_changed := (loop_move t s).rw_last_changed,
               rw_state_dur := (loop_move t s).rw_state_dur,
               motors := (loop_move t s).motors,
               bounce_turn_state := (loop_move t s).bounce_turn_state } := by
  simp only [loop_move, random_walk, bounce_init]
  split_ifs <;> rfl

omit [LT R] [∀ a b : R, Decidable (a < b)] [One R] [Sub R] in
theorem observe_color_eq (K : Kilolib R) (kilo_ticks : Nat) (s : BayesBot R) :
    observe_color K kilo_ticks s =
      { s with new_observation := (observe_color K kilo_ticks s).new_observation,
               observation := (observe_color K kilo_ticks s).observation,
               last_observation_tick :=
                 (observe_color K kilo_ticks s).last_observation_tick } := by
  simp only [observe_color]
  split_ifs <;> rfl

theorem decide_if_undecided_eq (K : Kilolib R) (s : BayesBot R) :
    decide_if_undecided K s =
      { s with decision := (decide_if_undecided K s).decision,
               beta_thresh_val := (decide_if_undecided K s).beta_thresh_val } := by
  simp only [decide_if_undecided, update_decision]
  split_ifs <;> rfl

theorem accept_observation_eq (K : Kilolib R) (t : Tick) (s : BayesBot R) :
    accept_observation K t s =
      { s with dark_count := (update_beta s.observation s).dark_count,
               light_count := (update_beta s.observation s).light_count,
               decision := (decide_if_undecided K (update_beta s.observation s)).decision,
               beta_thresh_val :=
                 (decide_if_undecided K (update_beta s.observation s)).beta_thresh_val,
               new_observation := FALSE,
               observation_ind := (s.observation_ind + 1) % U16,
               state := if s.allow_simultaneity = 0 then DISSEMINATE else s.state,
               state_change_timer :=
                 if s.allow_simultaneity = 0 then t.kilo_ticks else s.state_change_timer } := by
  have h := decide_if_undecided_eq K (update_beta s.observation s)
  simp only [accept_observation]
  generalize decide_if_undecided K (update_beta s.observation s) = d at h ⊢
  rw [h]
  simp only [update_beta]
  split_ifs <;> rfl

omit [LT R] [∀ a b : R, Decidable (a < b)] [One R] [Sub R] in
theorem loop_finish_eq (t : Tick) (s : BayesBot R) :
    loop_finish t s = { s with color := (loop_finish t s).color } := by
  simp only [loop_finish]
  split_ifs <;> rfl

theorem accept_message_eq (K : Kilolib R) (t : Tick) (s s1 : BayesBot R)
    (h : accept_message K t s = some s1) :
    s1 = { s with neighbor_info_array := s1.neighbor_info_array,
                  dark_count := s1.dark_count, light_count := s1.light_count,
                  new_message := FALSE, decision := s1.decision,
                  beta_thresh_val := s1.beta_thresh_val } := by
  simp only [accept_message] at h
  split at h
  · cases h
  · next u hu =>
    cases h
    have hd := decide_if_undecided_eq K { u with new_message := FALSE }
    generalize decide_if_undecided K { u with new_message := FALSE } = d at hd ⊢
    rw [hd]
    rcases update_cases _ _ _ s u hu with ⟨_, rfl⟩ | ⟨_, i, e, _, _, _, rfl⟩
    · rfl
    · simp only [inserted, update_beta]
      split_ifs <;> rfl

theorem loop_receive_eq (K : Kilolib R) (t : Tick) (s s1 : BayesBot R)
    (h : loop_receive K t s = some s1) :
    s1 = { s with neighbor_info_array_locked := FALSE,
                  neighbor_info_array := s1.neighbor_info_array,
                  dark_count := s1.dark_count, light_count := s1.light_count,
                  new_message := 0, decision := s1.decision,
                  beta_thresh_val := s1.beta_thresh_val } := by
  simp only [loop_receive] at h
  split at h
  · cases h
  · next s5 h5 =>
    cases h
    split_ifs at h5 with hm
    · have h6 := accept_message_eq K t _ s5 h5
      generalize s5.neighbor_info_array = tb at h6
      rw [h6]
      rfl
    · cases h5
      have h0 : s.new_message = 0 := not_not.mp hm
      simp only [prune_neighbor_info_array]
      rw [← h0]

theorem loop_receive_idle (K : Kilolib R) (t : Tick) (s : BayesBot R)
    (h0 : s.new_message = 0) :
    loop_receive K t s =
      some { s with neighbor_info_array_locked := FALSE,
                    neighbor_info_array :=
                      (prune_neighbor_info_array t.kilo_ticks s).neighbor_info_array } := by
  have hm : ¬ ({ s with neighbor_info_array_locked := TRUE } : BayesBot R).new_message ≠ 0 :=
    not_not.mpr h0
  simp only [loop_receive, if_neg hm]
  rfl

theorem loop_observe_mode (K : Kilolib R) (t : Tick) (s : BayesBot R) :
    (loop_observe K t s).allow_simultaneity = s.allow_simultaneity ∧
    (s.state = DISSEMINATE → loop_observe K t s = s) ∧
    (s.allow_simultaneity ≠ 0 → (loop_observe K t s).state = s.state) ∧
    (s.allow_simultaneity = 0 →
      ((loop_observe K t s).state = s.state ∧
        (loop_observe K t s).observation_ind = s.observation_ind) ∨
      ((loop_observe K t s).state = DISSEMINATE ∧
        (loop_observe K t s).observation_ind = (s.observation_ind + 1) % U16)) := by
  have ho := observe_color_eq K t.kilo_ticks s
  have ha := accept_observation_eq K t (observe_color K t.kilo_ticks s)
  have o1 : (observe_color K t.kilo_ticks s).allow_simultaneity = s.allow_simultaneity := by
    rw [ho]
  have o2 : (observe_color K t.kilo_ticks s).state = s.state := by rw [ho]
  have o3 : (observe_color K t.kilo_ticks s).observation_ind = s.observation_ind := by
    rw [ho]
  simp only [loop_observe]
  by_cases hst : s.state = OBSERVE ∨ s.state = OBSERVE_DISSEMINATE
  · have hnd : s.state ≠ DISSEMINATE := by
      rcases hst with h | h <;> rw [h] <;> decide
    rw [if_pos hst]
    by_cases hn : (observe_color K t.kilo_ticks s).new_observation ≠ 0
    · rw [if_pos hn]
      have a1 : (accept_observation K t (observe_color K t.kilo_ticks s)).allow_simultaneity =
          s.allow_simultaneity := by rw [ha]; exact o1
      have a2 : (accept_observation K t (observe_color K t.kilo_ticks s)).state =
          if s.allow_simultaneity = 0 then DISSEMINATE else s.state := by
        rw [ha, ← o1, ← o2]
      have a3 : (accept_observation K t (observe_color K t.kilo_ticks s)).observation_ind =
          (s.observation_ind + 1) % U16 := by rw [ha, ← o3]
      refine ⟨a1, fun h => absurd h hnd, fun h => ?_, fun h => Or.inr ⟨?_, a3⟩⟩
      · rw [a2, if_neg h]
      · rw [a2, if_pos h]
    · rw [if_neg hn]
      exact ⟨o1, fun h => absurd h hnd, fun _ => o2, fun _ => Or.inl ⟨o2, o3⟩⟩
  · rw [if_neg hst]
    exact ⟨rfl, fun _ => rfl, fun _ => rfl, fun _ => Or.inl ⟨rfl, rfl⟩⟩

theorem loop_mode (K : Kilolib R) (t : Tick) (s s1 : BayesBot R) (h : loop K t s = some s1) :
    s1.allow_simultaneity = s.allow_simultaneity ∧
    (s.state = DISSEMINATE → s1.state = DISSEMINATE ∧ s1.observation_ind = s.observation_ind) ∧
    (s.allow_simultaneity ≠ 0 → s1.state = s.state) ∧
    (s.allow_simultaneity = 0 →
      (s1.state = s.state ∧ s1.observation_ind = s.observation_ind) ∨
      (s1.state = DISSEMINATE ∧ s1.observation_ind = (s.observation_ind + 1) % U16)) := by
  simp only [loop] at h
  split at h
  · cases h
  · next s6 h6 =>
    cases h
    have hf := loop_finish_eq t s6
    have hr := loop_receive_eq K t _ s6 h6
    have hm := loop_move_eq t s
    obtain ⟨b1, b2, b3, b4⟩ := loop_observe_mode K t (loop_move t s)
    have m1 : (loop_move t s).allow_simultaneity = s.allow_simultaneity := by rw [hm]
    have m2 : (loop_move t s).state = s.state := by rw [hm]
    have m3 : (loop_move t s).observation_ind = s.observation_ind := by rw [hm]
    have f1 : (loop_finish t s6).allow_simultaneity =
        (loop_observe K t (loop_move t s)).allow_simultaneity := by rw [hf, hr]
    have f2 : (loop_finish t s6).state = (loop_observe K t (loop_move t s)).state := by
      rw [hf, hr]
    have f3 : (loop_finish t s6).observation_ind =
        (loop_observe K t (loop_move t s)).observation_ind := by rw [hf, hr]
    rw [f1, f2, f3]
    refine ⟨b1.trans m1, fun hd => ?_, fun ha => ?_, fun ha => ?_⟩
    · rw [b2 (m2.trans hd)]
      exact ⟨m2.trans hd, m3⟩
    · rw [b3 (by rw [m1]; exact ha)]
      exact m2
    · rcases b4 (m1.trans ha) with ⟨c1, c2⟩ | ⟨c1, c2⟩
      · exact Or.inl ⟨c1.trans m2, c2.trans m3⟩
      · exact Or.inr ⟨c1, by rw [c2, m3]⟩

theorem apply_event_mode (K : Kilolib R) (ev : Event) (s s1 : BayesBot R)
    (h : apply_event K ev s = some s1) :
    s1.allow_simultaneity = s.allow_simultaneity ∧
    (s.state = DISSEMINATE → s1.state = DISSEMINATE ∧ s1.observation_ind = s.observation_ind) ∧
    (s.allow_simultaneity ≠ 0 → s1.state = s.state) ∧
    (s.allow_simultaneity = 0 →
      (s1.state = s.state ∧ s1.observation_ind = s.observation_ind) ∨
      (s1.state = DISSEMINATE ∧ s1.observation_ind = (s.observation_ind + 1) % U16)) := by
  cases ev with
  | loop t => exact loop_mode K t s s1 h
  | message_rx msg dist =>
    cases h
    simp only [message_rx]
    split_ifs <;>
      exact ⟨rfl, fun hd => ⟨hd, rfl⟩, fun _ => rfl, fun _ => Or.inl ⟨rfl, rfl⟩⟩
  | message_tx =>
    cases h
    simp only [message_tx]
    split_ifs <;>
      exact ⟨rfl, fun hd => ⟨hd, rfl⟩, fun _ => rfl, fun _ => Or.inl ⟨rfl, rfl⟩⟩

theorem run_mode (K : Kilolib R) (evs : List Event) :
    ∀ (s s1 : BayesBot R), run K evs s = some s1 →
      s1.allow_simultaneity = s.allow_simultaneity ∧
      (s.state = DISSEMINATE →
        s1.state = DISSEMINATE ∧ s1.observation_ind = s.observation_ind) ∧
      (s.allow_simultaneity ≠ 0 → s1.state = s.state) := by
  induction evs with
  | nil => intro s s1 h; cases h; exact ⟨rfl, fun hd => ⟨hd, rfl⟩, fun _ => rfl⟩
  | cons ev evs ih =>
    intro s s1 h
    simp only [run] at h
    split at h
    · cases h
    · next s2 h2 =>
      obtain ⟨e1, e2, e3, _⟩ := apply_event_mode K ev s s2 h2
      obtain ⟨i1, i2, i3⟩ := ih s2 s1 h
      refine ⟨i1.trans e1, fun hd => ?_, fun ha => ?_⟩
      · obtain ⟨d1, d2⟩ := e2 hd
        obtain ⟨d3, d4⟩ := i2 d1
        exact ⟨d3, d4.trans d2⟩
      · rw [i3 (by rw [e1]; exact ha), e3 ha]

omit [LT R] [∀ a b : R, Decidable (a < b)] [One R] [Sub R] in
theorem setup_mode (K : Kilolib R) (t : Tick) (s : BayesBot R) :
    (setup K t s).allow_simultaneity = s.allow_simultaneity ∧
    (setup K t s).observation_ind = s.observation_ind ∧
    (setup K t s).neighbor_info_array_locked = s.neighbor_info_array_locked ∧
    (s.allow_simultaneity ≠ 0 → (setup K t s).state = OBSERVE_DISSEMINATE) ∧
    (s.allow_simultaneity = 0 → (setup K t s).state = OBSERVE) := by
  simp only [setup, initialize_neighbor_info_array]
  split_ifs with h
  · exact ⟨rfl, rfl, rfl, fun _ => rfl, fun h0 => absurd h0 h⟩
  · exact ⟨rfl, rfl, rfl, fun h0 => absurd h0 h, fun _ => rfl⟩

theorem reachable_mode (K : Kilolib R) (s : BayesBot R) (h : Reachable K s)
    (ha : s.allow_simultaneity = 0) :
    (s.state = OBSERVE ∧ s.observation_ind = 0) ∨
    (s.state = DISSEMINATE ∧ s.observation_ind = 1) := by
  induction h with
  | start s c a u o p t hc =>
    obtain ⟨m1, m2, _, _, m5⟩ := setup_mode K t (configure c a u o p s)
    have h0 : s.observation_ind = 0 := hc.2.2.2.1
    exact Or.inl ⟨m5 (m1.symm.trans ha), m2.trans h0⟩
  | event s s1 ev _ hs ih =>
    obtain ⟨e1, e2, _, e4⟩ := apply_event_mode K ev s s1 hs
    have ha0 : s.allow_simultaneity = 0 := e1.symm.trans ha
    rcases ih ha0 with ⟨i1, i2⟩ | ⟨i1, i2⟩
    · rcases e4 ha0 with ⟨c1, c2⟩ | ⟨c1, c2⟩
      · exact Or.inl ⟨c1.trans i1, c2.trans i2⟩
      · exact Or.inr ⟨c1, by rw [c2, i2]; rfl⟩
    · obtain ⟨d1, d2⟩ := e2 i1
      exact Or.inr ⟨d1, d2.trans i2⟩

theorem loop_idle_disseminate (K : Kilolib R) (t : Tick) (s s1 : BayesBot R)
    (hd : s.state = DISSEMINATE) (h0 : s.new_message = 0) (h : loop K t s = some s1) :
    s1.light_count = s.light_count ∧ s1.dark_count = s.dark_count := by
  have hm := loop_move_eq t s
  have m2 : (loop_move t s).state = s.state := by rw [hm]
  have m4 : (loop_move t s).new_message = s.new_message := by rw [hm]
  have m5 : (loop_move t s).light_count = s.light_count := by rw [hm]
  have m6 : (loop_move t s).dark_count = s.dark_count := by rw [hm]
  have hb := (loop_observe_mode K t (loop_move t s)).2.1 (m2.trans hd)
  simp only [loop, hb, loop_receive_idle K t (loop_move t s) (m4.trans h0)] at h
  cases h
  have hf := loop_finish_eq t
    { loop_move t s with
      neighbor_info_array_locked := FALSE,
      neighbor_info_array :=
        (prune_neighbor_info_array t.kilo_ticks (loop_move t s)).neighbor_info_array }
  rw [hf]
  exact ⟨m5, m6⟩

theorem loop_clears_flags (K : Kilolib R) (t : Tick) (s s1 : BayesBot R)
    (h : loop K t s = some s1) :
    s1.new_message = 0 ∧ s1.neighbor_info_array_locked = 0 := by
  simp only [loop] at h
  split at h
  · cases h
  · next s6 h6 =>
    cases h
    have hf := loop_finish_eq t s6
    have hr := loop_receive_eq K t _ s6 h6
    constructor
    · rw [hf, hr]
    · rw [hf, hr]

theorem reachable_unlocked (K : Kilolib R) (s : BayesBot R) (h : Reachable K s) :
    s.neighbor_info_array_locked = 0 := by
  induction h with
  | start s c a u o p t hc =>
    obtain ⟨_, _, m3, _, _⟩ := setup_mode K t (configure c a u o p s)
    have h0 : s.neighbor_info_array_locked = FALSE := hc.2.2.2.2.2.2.2.2.2.2.2.2.2.2.2.1
    exact m3.trans h0
  | event s s1 ev _ hs ih =>
    cases ev with
    | loop t => exact (loop_clears_flags K t s s1 hs).2
    | message_rx msg dist =>
      cases hs
      simp only [message_rx, if_pos ih]
      exact ih
    | message_tx =>
      cases hs
      simp only [message_tx]
      split_ifs
      · exact ih
      · exact ih

omit [LT R] [∀ a b : R, Decidable (a < b)] [One R] [Sub R] in
theorem deliver_last (ms : List (message_t × distance_measurement_t)) (m : message_t)
    (d : distance_measurement_t) :
    ∀ s : BayesBot R, s.neighbor_info_array_locked = 0 →
      deliver (ms ++ [(m, d)]) s =
        { s with rx_message_buffer := m, rx_distance_buffer := d, new_message := TRUE } := by
  induction ms with
  | nil =>
    intro s h
    simp only [deliver, List.nil_append, List.foldl_cons, List.foldl_nil, message_rx, if_pos h]
  | cons p ms ih =>
    intro s h
    have hstep : deliver (p :: ms ++ [(m, d)]) s =
        deliver (ms ++ [(m, d)]) (message_rx p.1 p.2 s) := rfl
    have hp : message_rx p.1 p.2 s =
        { s with rx_message_buffer := p.1, rx_distance_buffer := p.2, new_message := TRUE } := by
      simp only [message_rx, if_pos h]
    rw [hstep, hp]
    exact ih { s with rx_message_buffer := p.1, rx_distance_buffer := p.2,
                      new_message := TRUE } h

theorem loop_observe_buffers (K : Kilolib R) (t : Tick) (s : BayesBot R) :
    (loop_observe K t s).rx_message_buffer = s.rx_message_buffer ∧
    (loop_observe K t s).rx_distance_buffer = s.rx_distance_buffer ∧
    (loop_observe K t s).new_message = s.new_message := by
  have ho := observe_color_eq K t.kilo_ticks s
  have ha := accept_observation_eq K t (observe_color K t.kilo_ticks s)
  have o1 : (observe_color K t.kilo_ticks s).rx_message_buffer = s.rx_message_buffer := by
    rw [ho]
  have o2 : (observe_color K t.kilo_ticks s).rx_distance_buffer = s.rx_distance_buffer := by
    rw [ho]
  have o3 : (observe_color K t.kilo_ticks s).new_message = s.new_message := by rw [ho]
  simp only [loop_observe]
  split_ifs
  · refine ⟨?_, ?_, ?_⟩
    · rw [ha]; exact o1
    · rw [ha]; exact o2
    · rw [ha]; exact o3
  · exact ⟨o1, o2, o3⟩
  · exact ⟨rfl, rfl, rfl⟩

omit [LT R] [∀ a b : R, Decidable (a < b)] [One R] [Sub R] in
theorem random_walk_safe (t : Tick) (a b : Nat) (s : BayesBot R)
    (h : s.is_feature_detect_safe = TRUE ↔ s.rw_state = RW_STRAIGHT) :
    (random_walk t a b s).is_feature_detect_safe = TRUE ↔
      (random_walk t a b s).rw_state = RW_STRAIGHT := by
  simp only [random_walk, bounce_init]
  split_ifs <;> simp_all

omit [LT R] [∀ a b : R, Decidable (a < b)] [One R] [Sub R] in
theorem random_walks_safe (steps : List (Tick × Nat)) :
    ∀ s : BayesBot R, (s.is_feature_detect_safe = TRUE ↔ s.rw_state = RW_STRAIGHT) →
      ((random_walks steps s).is_feature_detect_safe = TRUE ↔
        (random_walks steps s).rw_state = RW_STRAIGHT) := by
  induction steps with
  | nil => intro s h; exact h
  | cons p steps ih =>
    intro s h
    exact ih _ (random_walk_safe p.1 _ _ { s with curr_light_level := p.2 } h)

omit [LT R] [∀ a b : R, Decidable (a < b)] [One R] [Sub R] in
theorem detect_light_level_cases (light : Nat) :
    detect_light_level light = DARK ∨ detect_light_level light = GRAY ∨
      detect_light_level light = LIGHT := by
  simp only [detect_light_level]
  split_ifs
  · exact Or.inl rfl
  · exact Or.inr (Or.inl rfl)
  · exact Or.inr (Or.inr rfl)

omit [LT R] [∀ a b : R, Decidable (a < b)] [One R] [Sub R] in
theorem update_beta_lt (obs : Nat) (s : BayesBot R) :
    (update_beta obs s).light_count < U32 ∧ (update_beta obs s).dark_count < U32 := by
  simp only [update_beta]
  constructor
  · exact Nat.mod_lt _ (by decide)
  · have h := Int.emod_lt_of_pos ((s.dark_count : Int) + (1 - (obs : Int)))
      (by decide : (0 : Int) < (U32 : Int))
    have h2 := Int.emod_nonneg ((s.dark_count : Int) + (1 - (obs : Int)))
      (by decide : (U32 : Int) ≠ 0)
    omega

theorem loop_counts_lt (K : Kilolib R) (t : Tick) (s s1 : BayesBot R)
    (h0 : s.new_observation = 0) (hl : s.light_count < U32) (hd : s.dark_count < U32)
    (hs : loop K t s = some s1) : s1.light_count < U32 ∧ s1.dark_count < U32 := by
  simp only [loop] at hs
  split at hs
  · cases hs
  · next s6 h6 =>
    cases hs
    obtain ⟨f1, f2, _⟩ := loop_finish_frame t s6
    obtain ⟨m1, m2, m3, _, _⟩ := loop_move_frame t s
    obtain ⟨_, _, _, b4⟩ := loop_observe_frame K t (loop_move t s)
    obtain ⟨_, r2⟩ := loop_receive_frame K t _ s6 h6
    rw [f1, f2]
    have hb : (loop_observe K t (loop_move t s)).light_count < U32 ∧
        (loop_observe K t (loop_move t s)).dark_count < U32 := by
      rcases b4 (m3.trans h0) with ⟨c1, c2⟩ | ⟨obs, _, c1, c2⟩
      · rw [c1, c2, m1, m2]; exact ⟨hl, hd⟩
      · rw [c1, c2]; exact update_beta_lt obs _
    rcases r2 with ⟨c1, c2⟩ | ⟨_, c1, c2⟩
    · rw [c1, c2]; exact hb
    · rw [c1, c2]; exact update_beta_lt _ _

theorem reachable_counts_lt (K : Kilolib R) (s : BayesBot R) (h : Reachable K s) :
    s.light_count < U32 ∧ s.dark_count < U32 := by
  induction h with
  | start s c a u o p t hc =>
    have h1 : s.dark_count = 0 := hc.1
    have h2 : s.light_count = 0 := hc.2.1
    have e1 : (setup K t (configure c a u o p s)).light_count = s.light_count := by
      simp only [setup, initialize_neighbor_info_array, configure]
      split_ifs <;> rfl
    have e2 : (setup K t (configure c a u o p s)).dark_count = s.dark_count := by
      simp only [setup, initialize_neighbor_info_array, configure]
      split_ifs <;> rfl
    rw [e1, e2, h1, h2]
    exact ⟨by decide, by decide⟩
  | event s s1 ev hr hs ih =>
    cases ev with
    | loop t =>
      exact loop_counts_lt K t s s1 (reachable_new_observation K s hr) ih.1 ih.2 hs
    | message_rx msg dist =>
      cases hs
      simp only [message_rx]
      split_ifs
      · exact ih
      · exact ih
    | message_tx =>
      cases hs
      simp only [message_tx]
      split_ifs
      · exact ih
      · exact ih

theorem loop_idle (K : Kilolib R) (t : Tick) (s : BayesBot R) (h0 : s.new_message = 0) :
    loop K t s = some (loop_finish t
      { loop_observe K t (loop_move t s) with
        neighbor_info_array_locked := FALSE,
        neighbor_info_array := (prune_neighbor_info_array t.kilo_ticks
          (loop_observe K t (loop_move t s))).neighbor_info_array }) := by
  have hm := loop_move_eq t s
  have m4 : (loop_move t s).new_message = s.new_message := by rw [hm]
  have b3 := (loop_observe_buffers K t (loop_move t s)).2.2
  simp only [loop, loop_receive_idle K t _ (b3.trans (m4.trans h0))]

theorem accept_observation_decision_eq (K : Kilolib R) (t : Tick) (s : BayesBot R) :
    (s.decision ≠ -1 →
      (accept_observation K t s).decision = s.decision ∧
      (accept_observation K t s).beta_thresh_val = s.beta_thresh_val) ∧
    (s.decision = -1 →
      (accept_observation K t s).decision =
        (update_decision K (update_beta s.observation s)).2.decision ∧
      (accept_observation K t s).beta_thresh_val =
        (update_decision K (update_beta s.observation s)).1) := by
  have ha := accept_observation_eq K t s
  constructor
  · intro h
    have hu : (update_beta s.observation s).decision ≠ -1 := h
    have hd : decide_if_undecided K (update_beta s.observation s) =
        update_beta s.observation s := by
      simp only [decide_if_undecided, if_neg hu]
    rw [ha, hd]
    exact ⟨rfl, rfl⟩
  · intro h
    have hu : (update_beta s.observation s).decision = -1 := h
    have hd : decide_if_undecided K (update_beta s.observation s) =
        { (update_decision K (update_beta s.observation s)).2 with
          beta_thresh_val := (update_decision K (update_beta s.observation s)).1 } := by
      simp only [decide_if_undecided, if_pos hu]
    rw [ha, hd]
    exact ⟨rfl, rfl⟩

theorem loop_idle_fields (K : Kilolib R) (t : Tick) (s : BayesBot R)
    (h0 : s.new_message = 0) :
    ∃ s1, loop K t s = some s1 ∧
      s1.light_count = (loop_observe K t (loop_move t s)).light_count ∧
      s1.dark_count = (loop_observe K t (loop_move t s)).dark_count ∧
      s1.observation_ind = (loop_observe K t (loop_move t s)).observation_ind ∧
      s1.state = (loop_observe K t (loop_move t s)).state ∧
      s1.state_change_timer = (loop_observe K t (loop_move t s)).state_change_timer ∧
      s1.decision = (loop_observe K t (loop_move t s)).decision ∧
      s1.beta_thresh_val = (loop_observe K t (loop_move t s)).beta_thresh_val := by
  refine ⟨_, loop_idle K t s h0, ?_, ?_, ?_, ?_, ?_, ?_, ?_⟩ <;> rw [loop_finish_eq]

theorem loop_observe_accept (K : Kilolib R) (t : Tick) (s : BayesBot R)
    (hst : s.state = OBSERVE ∨ s.state = OBSERVE_DISSEMINATE)
    (he : (s.last_observation_tick + s.observe_step_time * K.SECOND) % U32 ≤ t.kilo_ticks)
    (hg : s.curr_light_level ≠ GRAY) :
    loop_observe K t s = accept_observation K t
      { s with new_observation := TRUE,
               observation := if s.curr_light_level = DARK then 0 else 1,
               last_observation_tick := t.kilo_ticks } := by
  have ho : observe_color K t.kilo_ticks s =
      { s with new_observation := TRUE,
               observation := if s.curr_light_level = DARK then 0 else 1,
               last_observation_tick := t.kilo_ticks } := by
    simp only [observe_color, if_pos he, if_pos hg]
  simp only [loop_observe, if_pos hst, ho]
  rw [if_pos (by decide)]

theorem loop_observe_skip (K : Kilolib R) (t : Tick) (s : BayesBot R)
    (h0 : s.new_observation = 0)
    (hn : ¬ ((s.last_observation_tick + s.observe_step_time * K.SECOND) % U32 ≤ t.kilo_ticks ∧
      s.curr_light_level ≠ GRAY)) :
    loop_observe K t s =
      { s with last_observation_tick := (loop_observe K t s).last_observation_tick } := by
  simp only [loop_observe]
  by_cases hst : s.state = OBSERVE ∨ s.state = OBSERVE_DISSEMINATE
  · rw [if_pos hst]
    by_cases he : (s.last_observation_tick + s.observe_step_time * K.SECOND) % U32 ≤
        t.kilo_ticks
    · have hg : ¬ s.curr_light_level ≠ GRAY := fun hg => hn ⟨he, hg⟩
      have ho : observe_color K t.kilo_ticks s =
          { s with last_observation_tick := t.kilo_ticks } := by
        simp only [observe_color, if_pos he, if_neg hg]
      have hno : ¬ ({ s with last_observation_tick := t.kilo_ticks } : BayesBot R
          ).new_observation ≠ 0 := not_not.mpr h0
      simp only [ho, if_neg hno]
    · have ho : observe_color K t.kilo_ticks s = s := by
        simp only [observe_color, if_neg he]
      have hno : ¬ s.new_observation ≠ 0 := not_not.mpr h0
      simp only [ho, if_neg hno]
  · rw [if_neg hst]

theorem loop_observe_table (K : Kilolib R) (t : Tick) (s : BayesBot R) :
    (loop_observe K t s).neighbor_info_array = s.neighbor_info_array := by
  have ho := observe_color_eq K t.kilo_ticks s
  have ha := accept_observation_eq K t (observe_color K t.kilo_ticks s)
  have o1 : (observe_color K t.kilo_ticks s).neighbor_info_array = s.neighbor_info_array := by
    rw [ho]
  simp only [loop_observe]
  split_ifs
  · rw [ha]; exact o1
  · exact o1
  · rfl

theorem loop_defined (K : Kilolib R) (t : Tick) (s : BayesBot R) (ht : 0 < t.kilo_ticks)
    (hst : stamped s.neighbor_info_array) (hlen : 0 < s.neighbor_info_array.length) :
    ∃ s1, loop K t s = some s1 ∧ stamped s1.neighbor_info_array ∧
      0 < s1.neighbor_info_array.length := by
  have hm := loop_move_eq t s
  have m1 : (loop_move t s).neighbor_info_array = s.neighbor_info_array := by rw [hm]
  have b1 := (loop_observe_table K t (loop_move t s)).trans m1
  generalize hb : loop_observe K t (loop_move t s) = b at b1
  have key : ∃ s5, (if ({ b with neighbor_info_array_locked := TRUE } : BayesBot R).new_message ≠ 0
        then accept_message K t { b with neighbor_info_array_locked := TRUE }
        else some { b with neighbor_info_array_locked := TRUE }) = some s5 ∧
      stamped s5.neighbor_info_array ∧ 0 < s5.neighbor_info_array.length := by
    split_ifs with hnm
    · have hst4 : stamped ({ b with neighbor_info_array_locked := TRUE } :
          BayesBot R).neighbor_info_array := by rw [← b1] at hst; exact hst
      have hlen4 : 0 < ({ b with neighbor_info_array_locked := TRUE } :
          BayesBot R).neighbor_info_array.length := by rw [← b1] at hlen; exact hlen
      obtain ⟨u, hu⟩ := update_defined
        ({ b with neighbor_info_array_locked := TRUE } : BayesBot R).rx_message_buffer
        ({ b with neighbor_info_array_locked := TRUE } : BayesBot R).rx_distance_buffer
        t.kilo_ticks _ hst4 hlen4
      have hd := decide_if_undecided_eq K { u with new_message := FALSE }
      refine ⟨decide_if_undecided K { u with new_message := FALSE }, ?_, ?_, ?_⟩
      · simp only [accept_message, hu]
      · rw [hd]
        rcases update_cases _ _ _ _ u hu with ⟨_, rfl⟩ | ⟨_, i, e, _, _, _, rfl⟩
        · exact hst4
        · exact stamped_inserted _ _ _ i e ht hst4
      · rw [hd]
        rcases update_cases _ _ _ _ u hu with ⟨_, rfl⟩ | ⟨_, i, e, _, _, _, rfl⟩
        · exact hlen4
        · show 0 < (inserted _ _ _ i e).neighbor_info_array.length
          rw [length_inserted]
          exact hlen4
    · refine ⟨_, rfl, ?_, ?_⟩
      · rw [← b1] at hst; exact hst
      · rw [← b1] at hlen; exact hlen
  obtain ⟨s5, h5, hs5, hl5⟩ := key
  refine ⟨loop_finish t
    { prune_neighbor_info_array t.kilo_ticks s5 with neighbor_info_array_locked := FALSE },
    ?_, ?_, ?_⟩
  · simp only [loop, loop_receive, hb, h5]
  · rw [loop_finish_eq]
    exact stamped_prune t.kilo_ticks s5 hs5
  · rw [loop_finish_eq]
    show 0 < (prune_neighbor_info_array t.kilo_ticks s5).neighbor_info_array.length
    simp only [prune_neighbor_info_array, List.length_map]
    exact hl5

theorem run_defined (K : Kilolib R) (evs : List Event) :
    ∀ (s : BayesBot R), (∀ ev ∈ evs, ev.after_start) → stamped s.neighbor_info_array →
      0 < s.neighbor_info_array.length → ∃ s1, run K evs s = some s1 := by
  induction evs with
  | nil => intro s _ _ _; exact ⟨s, rfl⟩
  | cons ev evs ih =>
    intro s hevs hst hlen
    have hev : ev.after_start := hevs ev (List.mem_cons_self _ _)
    have hrest : ∀ e ∈ evs, e.after_start := fun e he => hevs e (List.mem_cons_of_mem _ he)
    cases ev with
    | loop t =>
      obtain ⟨s2, h2, hs2, hl2⟩ := loop_defined K t s hev hst hlen
      have h3 : run K (Event.loop t :: evs) s = run K evs s2 := by
        simp only [run, apply_event, h2]
      rw [h3]
      exact ih s2 hrest hs2 hl2
    | message_rx msg dist =>
      have h3 : run K (Event.message_rx msg dist :: evs) s = run K evs (message_rx msg dist s) := by
        simp only [run, apply_event]
      rw [h3]
      refine ih _ hrest ?_ ?_
      · simp only [message_rx]; split_ifs <;> exact hst
      · simp only [message_rx]; split_ifs <;> exact hlen
    | message_tx =>
      have h3 : run K (Event.message_tx :: evs) s = run K evs (message_tx K s).2 := by
        simp only [run, apply_event]
      rw [h3]
      have hx : (message_tx K s).2.neighbor_info_array = s.neighbor_info_array := by
        simp only [message_tx, update_tx_message_data]
        split_ifs <;> rfl
      refine ih _ hrest ?_ ?_
      · rw [hx]; exact hst
      · rw [hx]; exact hlen

omit [LT R] [∀ a b : R, Decidable (a < b)] [One R] [Sub R] in
theorem setup_table (K : Kilolib R) (t : Tick) (s : BayesBot R) :
    stamped (setup K t s).neighbor_info_array ∧
    (setup K t s).neighbor_info_array.length = s.neighbor_info_array.length := by
  have h : (setup K t s).neighbor_info_array =
      s.neighbor_info_array.map fun e => { e with id := 0 } := by
    simp only [setup, initialize_neighbor_info_array]
    split_ifs <;> rfl
  rw [h]
  refine ⟨?_, List.length_map _ _⟩
  intro e he h0
  simp only [List.mem_map] at he
  obtain ⟨f, _, rfl⟩ := he
  exact absurd rfl h0

theorem loop_observe_step (K : Kilolib R) (t : Tick) (a : BayesBot R)
    (hst : a.state = OBSERVE ∨ a.state = OBSERVE_DISSEMINATE)
    (h0 : a.new_observation = 0) (hl : a.light_count < U32) (hd : a.dark_count < U32) :
    ((a.last_observation_tick + a.observe_step_time * K.SECOND) % U32 ≤ t.kilo_ticks ∧
        a.curr_light_level ≠ GRAY →
      (a.curr_light_level = DARK →
        (loop_observe K t a).dark_count = (a.dark_count + 1) % U32 ∧
        (loop_observe K t a).light_count = a.light_count) ∧
      (a.curr_light_level ≠ DARK →
        (loop_observe K t a).light_count = (a.light_count + 1) % U32 ∧
        (loop_observe K t a).dark_count = a.dark_count) ∧
      (loop_observe K t a).observation_ind = (a.observation_ind + 1) % U16 ∧
      (a.decision ≠ -1 →
        (loop_observe K t a).decision = a.decision ∧
        (loop_observe K t a).beta_thresh_val = a.beta_thresh_val) ∧
      (a.decision = -1 →
        (loop_observe K t a).beta_thresh_val =
          K.incbeta (((loop_observe K t a).light_count + a.light_prior) % U32)
            (((loop_observe K t a).dark_count + a.dark_prior) % U32) ∧
        (loop_observe K t a).decision =
          (if (loop_observe K t a).beta_thresh_val > a.credible_thresh then 0
           else if (loop_observe K t a).beta_thresh_val < 1 - a.credible_thresh then 1
           else -1)) ∧
      (a.allow_simultaneity = 0 →
        (loop_observe K t a).state = DISSEMINATE ∧
        (loop_observe K t a).state_change_timer = t.kilo_ticks) ∧
      (a.allow_simultaneity ≠ 0 →
        (loop_observe K t a).state = a.state ∧
        (loop_observe K t a).state_change_timer = a.state_change_timer)) ∧
    (¬ ((a.last_observation_tick + a.observe_step_time * K.SECOND) % U32 ≤ t.kilo_ticks ∧
        a.curr_light_level ≠ GRAY) →
      (loop_observe K t a).light_count = a.light_count ∧
      (loop_observe K t a).dark_count = a.dark_count ∧
      (loop_observe K t a).observation_ind = a.observation_ind ∧
      (loop_observe K t a).state = a.state ∧
      (loop_observe K t a).state_change_timer = a.state_change_timer ∧
      (loop_observe K t a).decision = a.decision ∧
      (loop_observe K t a).beta_thresh_val = a.beta_thresh_val) := by
  constructor
  · rintro ⟨he, hg⟩
    have hb := loop_observe_accept K t a hst he hg
    generalize ho : ({ a with new_observation := TRUE,
                              observation := if a.curr_light_level = DARK then 0 else 1,
                              last_observation_tick := t.kilo_ticks } : BayesBot R) = o at hb
    have o1 : o.light_count = a.light_count := by rw [← ho]
    have o2 : o.dark_count = a.dark_count := by rw [← ho]
    have o3 : o.observation_ind = a.observation_ind := by rw [← ho]
    have o4 : o.decision = a.decision := by rw [← ho]
    have o5 : o.beta_thresh_val = a.beta_thresh_val := by rw [← ho]
    have o6 : o.allow_simultaneity = a.allow_simultaneity := by rw [← ho]
    have o7 : o.state = a.state := by rw [← ho]
    have o8 : o.state_change_timer = a.state_change_timer := by rw [← ho]
    have o9 : o.light_prior = a.light_prior := by rw [← ho]
    have o10 : o.dark_prior = a.dark_prior := by rw [← ho]
    have o11 : o.credible_thresh = a.credible_thresh := by rw [← ho]
    have o12 : o.observation = if a.curr_light_level = DARK then 0 else 1 := by rw [← ho]
    have hacc := accept_observation_eq K t o
    obtain ⟨d1, d2⟩ := accept_observation_decision_eq K t o
    have hle : o.observation ≤ 1 := by
      rw [o12]; split_ifs <;> decide
    obtain ⟨u1, u2⟩ := update_beta_bit o.observation o hle
    have c1 : (loop_observe K t a).light_count = (a.light_count + o.observation) % U32 := by
      rw [hb, hacc, ← o1]; exact u1
    have c2 : (loop_observe K t a).dark_count = (a.dark_count + (1 - o.observation)) % U32 := by
      rw [hb, hacc, ← o2]; exact u2
    have c3 : (loop_observe K t a).observation_ind = (a.observation_ind + 1) % U16 := by
      rw [hb, hacc, ← o3]
    have c4 : (loop_observe K t a).state =
        if a.allow_simultaneity = 0 then DISSEMINATE else a.state := by
      rw [hb, hacc, ← o6, ← o7]
    have c5 : (loop_observe K t a).state_change_timer =
        if a.allow_simultaneity = 0 then t.kilo_ticks else a.state_change_timer := by
      rw [hb, hacc, ← o6, ← o8]
    have p1 : (update_beta o.observation o).light_prior = a.light_prior := o9
    have p2 : (update_beta o.observation o).dark_prior = a.dark_prior := o10
    have p3 : (update_beta o.observation o).credible_thresh = a.credible_thresh := o11
    have q1 : (update_beta o.observation o).light_count = (loop_observe K t a).light_count := by
      rw [c1, ← o1]; exact u1
    have q2 : (update_beta o.observation o).dark_count = (loop_observe K t a).dark_count := by
      rw [c2, ← o2]; exact u2
    refine ⟨fun hdark => ?_, fun hlight => ?_, c3, fun hdec => ?_, fun hdec => ?_,
      fun hal => ?_, fun hal => ?_⟩
    · have hv : o.observation = 0 := by rw [o12, if_pos hdark]
      rw [c1, c2, hv]
      exact ⟨rfl, Nat.mod_eq_of_lt hl⟩
    · have hv : o.observation = 1 := by rw [o12, if_neg hlight]
      rw [c1, c2, hv]
      exact ⟨rfl, Nat.mod_eq_of_lt hd⟩
    · obtain ⟨e1, e2⟩ := d1 (by rw [o4]; exact hdec)
      rw [hb, e1, e2]
      exact ⟨o4, o5⟩
    · obtain ⟨e1, e2⟩ := d2 (o4.trans hdec)
      have hv : (loop_observe K t a).beta_thresh_val =
          K.incbeta (((loop_observe K t a).light_count + a.light_prior) % U32)
            (((loop_observe K t a).dark_count + a.dark_prior) % U32) := by
        rw [← q1, ← q2, ← p1, ← p2, ← update_decision_fst, hb]
        exact e2
      refine ⟨hv, ?_⟩
      have hw : (loop_observe K t a).beta_thresh_val =
          (update_decision K (update_beta o.observation o)).1 := by rw [hb]; exact e2
      rw [hw, ← p3, ← update_decision_value, hb]
      exact e1
    · rw [c4, c5, if_pos hal, if_pos hal]
      exact ⟨rfl, rfl⟩
    · rw [c4, c5, if_neg hal, if_neg hal]
      exact ⟨rfl, rfl⟩
  · intro hn
    have hb := loop_observe_skip K t a h0 hn
    refine ⟨?_, ?_, ?_, ?_, ?_, ?_, ?_⟩ <;> rw [hb]

theorem loop_self_observation (K : Kilolib R) (t : Tick) (s : BayesBot R)
    (hst : s.state = OBSERVE ∨ s.state = OBSERVE_DISSEMINATE) (hm : s.new_message = 0)
    (h0 : s.new_observation = 0) (hl : s.light_count < U32) (hd : s.dark_count < U32) :
    ∃ s1, loop K t s = some s1 ∧
      ((s.last_observation_tick + s.observe_step_time * K.SECOND) % U32 ≤ t.kilo_ticks ∧
          detect_light_level t.ambientlight ≠ GRAY →
        (detect_light_level t.ambientlight = DARK →
          s1.dark_count = (s.dark_count + 1) % U32 ∧ s1.light_count = s.light_count) ∧
        (detect_light_level t.ambientlight = LIGHT →
          s1.light_count = (s.light_count + 1) % U32 ∧ s1.dark_count = s.dark_count) ∧
        s1.observation_ind = (s.observation_ind + 1) % U16 ∧
        (s.decision ≠ -1 →
          s1.decision = s.decision ∧ s1.beta_thresh_val = s.beta_thresh_val) ∧
        (s.decision = -1 →
          s1.beta_thresh_val =
            K.incbeta ((s1.light_count + s.light_prior) % U32)
              ((s1.dark_count + s.dark_prior) % U32) ∧
          s1.decision =
            (if s1.beta_thresh_val > s.credible_thresh then 0
             else if s1.beta_thresh_val < 1 - s.credible_thresh then 1 else -1)) ∧
        (s.allow_simultaneity = 0 →
          s1.state = DISSEMINATE ∧ s1.state_change_timer = t.kilo_ticks) ∧
        (s.allow_simultaneity ≠ 0 →
          s1.state = s.state ∧ s1.state_change_timer = s.state_change_timer)) ∧
      (¬ ((s.last_observation_tick + s.observe_step_time * K.SECOND) % U32 ≤ t.kilo_ticks ∧
          detect_light_level t.ambientlight ≠ GRAY) →
        s1.light_count = s.light_count ∧ s1.dark_count = s.dark_count ∧
        s1.observation_ind = s.observation_ind ∧ s1.state = s.state ∧
        s1.state_change_timer = s.state_change_timer ∧
        s1.decision = s.decision ∧ s1.beta_thresh_val = s.beta_thresh_val) := by
  obtain ⟨s1, hs1, f1, f2, f3, f4, f5, f6, f7⟩ := loop_idle_fields K t s hm
  have ha := loop_move_eq t s
  have a1 : (loop_move t s).state = s.state := by rw [ha]
  have a2 : (loop_move t s).new_observation = s.new_observation := by rw [ha]
  have a3 : (loop_move t s).light_count = s.light_count := by rw [ha]
  have a4 : (loop_move t s).dark_count = s.dark_count := by rw [ha]
  have a5 : (loop_move t s).last_observation_tick = s.last_observation_tick := by rw [ha]
  have a6 : (loop_move t s).observe_step_time = s.observe_step_time := by rw [ha]
  have a7 : (loop_move t s).curr_light_level = detect_light_level t.ambientlight := by rw [ha]
  have a8 : (loop_move t s).observation_ind = s.observation_ind := by rw [ha]
  have a9 : (loop_move t s).decision = s.decision := by rw [ha]
  have a10 : (loop_move t s).beta_thresh_val = s.beta_thresh_val := by rw [ha]
  have a11 : (loop_move t s).allow_simultaneity = s.allow_simultaneity := by rw [ha]
  have a12 : (loop_move t s).state_change_timer = s.state_change_timer := by rw [ha]
  have a13 : (loop_move t s).light_prior = s.light_prior := by rw [ha]
  have a14 : (loop_move t s).dark_prior = s.dark_prior := by rw [ha]
  have a15 : (loop_move t s).credible_thresh = s.credible_thresh := by rw [ha]
  have key := loop_observe_step K t (loop_move t s) (by rw [a1]; exact hst) (a2.trans h0)
    (by rw [a3]; exact hl) (by rw [a4]; exact hd)
  rw [a1, a3, a4, a5, a6, a7, a8, a9, a10, a11, a12, a13, a14, a15, ← f1, ← f2, ← f3, ← f4,
    ← f5, ← f6, ← f7] at key
  obtain ⟨k1, k2⟩ := key
  refine ⟨s1, hs1, fun h => ?_, k2⟩
  obtain ⟨g1, g2, g3, g4, g5, g6, g7⟩ := k1 h
  refine ⟨g1, fun hlt => g2 ?_, g3, g4, g5, g6, g7⟩
  rw [hlt]
  decide

theorem loop_accepts (K : Kilolib R) (t : Tick) (s s1 : BayesBot R)
    (h : loop K t s = some s1) (ha : s.allow_simultaneity = 0)
    (hacc : accepts_observation K t s) : s1.state = DISSEMINATE := by
  simp only [loop] at h
  split at h
  · cases h
  · next s6 h6 =>
    cases h
    have hf := loop_finish_eq t s6
    have hr := loop_receive_eq K t _ s6 h6
    have hm := loop_move_eq t s
    have m1 : (loop_move t s).allow_simultaneity = s.allow_simultaneity := by rw [hm]
    have f2 : (loop_finish t s6).state = (loop_observe K t (loop_move t s)).state := by
      rw [hf, hr]
    have ho := observe_color_eq K t.kilo_ticks (loop_move t s)
    have o1 : (observe_color K t.kilo_ticks (loop_move t s)).allow_simultaneity =
        (loop_move t s).allow_simultaneity := by rw [ho]
    have hacc2 := accept_observation_eq K t (observe_color K t.kilo_ticks (loop_move t s))
    have hb : loop_observe K t (loop_move t s) =
        accept_observation K t (observe_color K t.kilo_ticks (loop_move t s)) := by
      simp only [loop_observe, if_pos hacc.1, if_pos hacc.2]
    rw [f2, hb, hacc2]
    show (if (observe_color K t.kilo_ticks (loop_move t s)).allow_simultaneity = 0
      then DISSEMINATE else _) = DISSEMINATE
    rw [if_pos (o1.trans (m1.trans ha))]

omit [LT R] [∀ a b : R, Decidable (a < b)] [One R] [Sub R] in
theorem not_accepts_disseminate (K : Kilolib R) (t : Tick) (s : BayesBot R)
    (hd : s.state = DISSEMINATE) : ¬ accepts_observation K t s := by
  have hm := loop_move_eq t s
  have m2 : (loop_move t s).state = s.state := by rw [hm]
  intro h
  rcases h.1 with h1 | h1
  · rw [m2, hd] at h1; exact absurd h1 (by decide)
  · rw [m2, hd] at h1; exact absurd h1 (by decide)

theorem self_observations_le (K : Kilolib R) (evs : List Event) :
    ∀ s : BayesBot R, s.allow_simultaneity = 0 →
      self_observations K evs s ≤ 1 ∧
      (s.state = DISSEMINATE → self_observations K evs s = 0) := by
  induction evs with
  | nil => intro s _; exact ⟨Nat.zero_le _, fun _ => rfl⟩
  | cons ev evs ih =>
    intro s ha
    cases ev with
    | loop t =>
      simp only [self_observations]
      cases hl : loop K t s with
      | none =>
        refine ⟨by split_ifs <;> simp, fun hd => ?_⟩
        rw [if_neg (not_accepts_disseminate K t s hd)]
        rfl
      | some s1 =>
        obtain ⟨e1, e2, _, _⟩ := loop_mode K t s s1 hl
        obtain ⟨i1, i2⟩ := ih s1 (e1.trans ha)
        refine ⟨?_, fun hd => ?_⟩
        · by_cases hacc : accepts_observation K t s
          · rw [if_pos hacc]
            show 1 + self_observations K evs s1 ≤ 1
            rw [i2 (loop_accepts K t s s1 hl ha hacc)]
          · rw [if_neg hacc]
            show 0 + self_observations K evs s1 ≤ 1
            rw [Nat.zero_add]
            exact i1
        · rw [if_neg (not_accepts_disseminate K t s hd)]
          show 0 + self_observations K evs s1 = 0
          rw [Nat.zero_add]
          exact i2 (e2 hd).1
    | message_rx msg dist =>
      obtain ⟨e1, e2, _, _⟩ := apply_event_mode K (Event.message_rx msg dist) s
        (message_rx msg dist s) rfl
      obtain ⟨i1, i2⟩ := ih (message_rx msg dist s) (e1.trans ha)
      exact ⟨i1, fun hd => i2 (e2 hd).1⟩
    | message_tx =>
      obtain ⟨e1, e2, _, _⟩ := apply_event_mode K Event.message_tx s (message_tx K s).2 rfl
      obtain ⟨i1, i2⟩ := ih (message_tx K s).2 (e1.trans ha)
      exact ⟨i1, fun hd => i2 (e2 hd).1⟩

omit [LT R] [∀ a b : R, Decidable (a < b)] [One R] [Sub R] in
theorem not_in_table_prune (p kilo_ticks : Nat) (s : BayesBot R) (hp : p ≠ 0) :
    ¬ in_table p (prune_neighbor_info_array kilo_ticks s).neighbor_info_array ↔
      ∀ e ∈ s.neighbor_info_array, e.id = p →
        kilo_ticks > (e.time_first_heard_from + s.neighbor_info_array_timeout) % U32 := by
  constructor
  · intro h e he hid
    by_contra hc
    apply h
    refine ⟨e, ?_, hid⟩
    simp only [prune_neighbor_info_array, List.mem_map]
    exact ⟨e, he, if_neg hc⟩
  · rintro h ⟨f, hf, hid⟩
    simp only [prune_neighbor_info_array, List.mem_map] at hf
    obtain ⟨e, he, rfl⟩ := hf
    by_cases hc : kilo_ticks > (e.time_first_heard_from + s.neighbor_info_array_timeout) % U32
    · rw [if_pos hc] at hid
      exact hp hid.symm
    · rw [if_neg hc] at hid
      exact hc (h e he hid)

omit [LT R] [∀ a b : R, Decidable (a < b)] [One R] [Sub R] in
theorem removed_by_update (p : Nat) (m : message_t) (d : distance_measurement_t)
    (kilo_ticks : Nat) (s s1 : BayesBot R) (hp : p ≠ 0)
    (h : update_neighbor_info_array m d kilo_ticks s = some s1)
    (hin : in_table p s.neighbor_info_array) (hout : ¬ in_table p s1.neighbor_info_array) :
    ¬ in_table (rx_id m) s.neighbor_info_array ∧ ¬ in_table 0 s.neighbor_info_array ∧
    rx_id m ≠ p := by
  rcases update_cases m d kilo_ticks s s1 h with ⟨_, rfl⟩ | ⟨hnew, i, e, hlt, hidx, hget, rfl⟩
  · exact absurd hin hout
  · refine ⟨hnew, ?_, fun hx => hnew (hx ▸ hin)⟩
    intro h0
    obtain ⟨j, hj⟩ := empty_loop_of_mem s.neighbor_info_array h0 0
    have hij : i = j := by
      simp only [index_to_insert, hj] at hidx
      exact (Option.some.inj hidx).symm
    obtain ⟨e0, he0, hid0, _⟩ := empty_loop_first s.neighbor_info_array 0 j hj
    rw [Nat.sub_zero, ← hij] at he0
    obtain ⟨f, hf, hfp⟩ := hin
    obtain ⟨k, hk⟩ := List.getElem?_of_mem hf
    have hki : i ≠ k := by
      intro hik
      rw [← hik, he0] at hk
      cases hk
      exact hp (hfp.symm.trans hid0)
    apply hout
    refine ⟨f, ?_, hfp⟩
    simp only [inserted]
    exact List.getElem?_mem ((List.getElem?_set_ne hki).trans hk)

omit [LT R] [∀ a b : R, Decidable (a < b)] [One R] [Sub R] in
theorem removed_by_op (p : Nat) (op : TableOp) (s s1 : BayesBot R) (hp : p ≠ 0)
    (h : apply_op op s = some s1)
    (hin : in_table p s.neighbor_info_array) (hout : ¬ in_table p s1.neighbor_info_array) :
    (∃ k, op = TableOp.prune k ∧ ∀ e ∈ s.neighbor_info_array, e.id = p →
      k > (e.time_first_heard_from + s.neighbor_info_array_timeout) % U32) ∨
    (∃ m d k, op = TableOp.update m d k ∧ ¬ in_table (rx_id m) s.neighbor_info_array ∧
      ¬ in_table 0 s.neighbor_info_array ∧ rx_id m ≠ p) := by
  cases op with
  | update m d k =>
    exact Or.inr ⟨m, d, k, rfl, removed_by_update p m d k s s1 hp h hin hout⟩
  | prune k =>
    cases h
    exact Or.inl ⟨k, rfl, (not_in_table_prune p k s hp).mp hout⟩

end Stages

/-! ## The claims, concluded -/

/-- Claim C21, as stated, fails in its last clause.  The table is full, robots 1 to 100
first heard from at ticks 1 to 100; a message from robot 100 at tick 101 is not used.
Robot 200 is heard at tick 101 and overwrites the slot of robot 100, the newest.  At
tick 102 the timeout of 28800 ticks has not passed for any slot and pruning changes
nothing, yet the message from robot 100 is used: its slot is written and `light_count`
goes from 1 to 2. -/
theorem used_after_eviction :
    in_table (rx_id (msg 100 1 5)) table_full ∧
    update_neighbor_info_array (msg 100 1 5) dist0 101 (bot0 table_full) =
      some (bot0 table_full) ∧
    ¬ (102 > (100 + (bot0 table_full).neighbor_info_array_timeout) % U32) ∧
    (run_ops [TableOp.update (msg 200 1 1) dist0 101, TableOp.prune 102]
      (bot0 table_full)).map (fun s => (s.neighbor_info_array[99]?, s.light_count)) =
      some (some ⟨200, 1, 101⟩, 1) ∧
    (run_ops [TableOp.update (msg 200 1 1) dist0 101, TableOp.prune 102,
        TableOp.update (msg 100 1 5) dist0 102]
      (bot0 table_full)).map (fun s => (s.neighbor_info_array[99]?, s.light_count)) =
      some (some ⟨100, 5, 102⟩, 2) := by
  decide!

/-- Claim C21, amended: a message from a peer that is already in the table is not used.
The call returns a state with the same `light_count`, `dark_count`, `count_neighbors()`
and table, whatever the received bit and observation index; a call that changes a
counter or the table is one whose peer id was in no slot of the table; and a peer leaves
the table only through pruning after the timeout of each slot that holds it has passed,
or through a message from a peer not in the table that arrives when no slot is empty. -/
theorem known_peer_not_used {R : Type} (m : message_t) (d : distance_measurement_t)
    (kilo_ticks : Nat) (s : BayesBot R) :
    (in_table (rx_id m) s.neighbor_info_array →
      ∃ s1, update_neighbor_info_array m d kilo_ticks s = some s1 ∧
        s1.light_count = s.light_count ∧ s1.dark_count = s.dark_count ∧
        count_neighbors s1 = count_neighbors s ∧
        s1.neighbor_info_array = s.neighbor_info_array) ∧
    (∀ s1, update_neighbor_info_array m d kilo_ticks s = some s1 →
      (s1.light_count ≠ s.light_count ∨ s1.dark_count ≠ s.dark_count ∨
        s1.neighbor_info_array ≠ s.neighbor_info_array) →
      ¬ in_table (rx_id m) s.neighbor_info_array) ∧
    (rx_id m ≠ 0 → in_table (rx_id m) s.neighbor_info_array →
      ∀ (op : TableOp) (s1 : BayesBot R), apply_op op s = some s1 →
        ¬ in_table (rx_id m) s1.neighbor_info_array →
        (∃ k, op = TableOp.prune k ∧ ∀ e ∈ s.neighbor_info_array, e.id = rx_id m →
          k > (e.time_first_heard_from + s.neighbor_info_array_timeout) % U32) ∨
        (∃ m2 d2 k, op = TableOp.update m2 d2 k ∧
          ¬ in_table (rx_id m2) s.neighbor_info_array ∧
          ¬ in_table 0 s.neighbor_info_array ∧ rx_id m2 ≠ rx_id m)) ∧
    (rx_id m ≠ 0 → ∀ k : Nat,
      (¬ in_table (rx_id m) (prune_neighbor_info_array k s).neighbor_info_array ↔
        ∀ e ∈ s.neighbor_info_array, e.id = rx_id m →
          k > (e.time_first_heard_from + s.neighbor_info_array_timeout) % U32)) := by
  refine ⟨fun h => ⟨s, update_of_in m d kilo_ticks s h, rfl, rfl, rfl, rfl⟩, ?_, ?_, ?_⟩
  · intro s1 h1 hch hin
    rw [update_of_in m d kilo_ticks s hin] at h1
    cases h1
    rcases hch with h | h | h <;> exact h rfl
  · intro hp hin op s1 h hout
    exact removed_by_op (rx_id m) op s s1 hp h hin hout
  · intro hp k
    exact not_in_table_prune (rx_id m) k s hp

/-- Claim C21, amended, at a table of capacity three that holds B = 2, C = 3 and D = 4: a further
message from B leaves three neighbours and both counters; once B has timed out (first
heard at tick 1, timeout 28800) and the table is pruned, the same message is used. -/
theorem known_peer_not_used_witness :
    in_table (rx_id (msg 2 1 5)) (bot0 table_bcd).neighbor_info_array ∧
    count_neighbors (bot0 table_bcd) = 3 ∧
    (∃ s1, update_neighbor_info_array (msg 2 1 5) dist0 9 (bot0 table_bcd) = some s1 ∧
      s1.light_count = (bot0 table_bcd).light_count ∧
      s1.dark_count = (bot0 table_bcd).dark_count ∧
      count_neighbors s1 = count_neighbors (bot0 table_bcd) ∧
      s1.neighbor_info_array = (bot0 table_bcd).neighbor_info_array) ∧
    ¬ in_table (rx_id (msg 2 1 5))
      (prune_neighbor_info_array 28802 (bot0 table_bcd)).neighbor_info_array ∧
    (update_neighbor_info_array (msg 2 1 5) dist0 28802
      (prune_neighbor_info_array 28802 (bot0 table_bcd))).map
        (fun s1 => (s1.neighbor_info_array, s1.light_count)) =
      some ([⟨2, 5, 28802⟩, ⟨3, 0, 2⟩, ⟨4, 1, 3⟩], 1) :=
  ⟨by decide, by decide,
    (known_peer_not_used (msg 2 1 5) dist0 9 (bot0 table_bcd)).1 (by decide),
    ((known_peer_not_used (msg 2 1 5) dist0 9 (bot0 table_bcd)).2.2.2 (by decide) 28802).mpr
      (by decide),
    by decide!⟩

/-- Claim C24: in `random_walk`, from every state other than BOUNCE a GRAY reading of
the light sensor takes the state to BOUNCE and clears `is_feature_detect_safe`,
whatever the timers say; from BOUNCE the state becomes RW_INIT when the light level is
not GRAY and stays BOUNCE when it is GRAY.  The last part is the same statement for the
call in `loop`, where the light level is the reading of the same tick. -/
theorem boundary_override {R : Type} (t : Tick) (a b : Nat) (s : BayesBot R) :
    (s.rw_state ≠ BOUNCE → detect_light_level t.ambientlight = GRAY →
      (random_walk t a b s).rw_state = BOUNCE ∧
      (random_walk t a b s).is_feature_detect_safe = FALSE) ∧
    (s.rw_state = BOUNCE → s.curr_light_level ≠ GRAY →
      (random_walk t a b s).rw_state = RW_INIT) ∧
    (s.rw_state = BOUNCE → s.curr_light_level = GRAY →
      (random_walk t a b s).rw_state = BOUNCE) ∧
    (s.rw_state ≠ BOUNCE → detect_light_level t.ambientlight = GRAY →
      (loop_move t s).rw_state = BOUNCE ∧ (loop_move t s).is_feature_detect_safe = FALSE) ∧
    (s.rw_state = BOUNCE → detect_light_level t.ambientlight ≠ GRAY →
      (loop_move t s).rw_state = RW_INIT) ∧
    (s.rw_state = BOUNCE → detect_light_level t.ambientlight = GRAY →
      (loop_move t s).rw_state = BOUNCE) := by
  have hB : (BOUNCE : Nat) ≠ RW_INIT ∧ (BOUNCE : Nat) ≠ RW_STRAIGHT ∧
      (BOUNCE : Nat) ≠ RW_TURN := by decide
  refine ⟨?_, ?_, ?_, ?_, ?_, ?_⟩
  · intro h1 h2
    have hw : find_wall_collision t.ambientlight ≠ 0 ∧ s.rw_state ≠ BOUNCE := by
      refine ⟨?_, h1⟩
      simp only [find_wall_collision, if_pos h2]
      decide
    simp only [random_walk, if_pos hw, bounce_init]
    split_ifs <;> exact ⟨rfl, rfl⟩
  · intro h1 h2
    have hw : ¬ (find_wall_collision t.ambientlight ≠ 0 ∧ s.rw_state ≠ BOUNCE) :=
      fun h => h.2 h1
    simp only [random_walk, if_neg hw, if_pos (And.intro h1 h2)]
  · intro h1 h2
    have hw : ¬ (find_wall_collision t.ambientlight ≠ 0 ∧ s.rw_state ≠ BOUNCE) :=
      fun h => h.2 h1
    have h3 : ¬ (s.rw_state = BOUNCE ∧ s.curr_light_level ≠ GRAY) := fun h => h.2 h2
    have h4 : ¬ s.rw_state = RW_INIT := by rw [h1]; exact hB.1
    have h5 : ¬ (s.rw_state = RW_STRAIGHT ∧
        t.kilo_ticks > (s.rw_last_changed + s.rw_state_dur) % U32) := by
      intro h; rw [h1] at h; exact hB.2.1 h.1
    have h6 : ¬ (s.rw_state = RW_TURN ∧
        t.kilo_ticks > (s.rw_last_changed + s.rw_state_dur) % U32) := by
      intro h; rw [h1] at h; exact hB.2.2 h.1
    simp only [random_walk, if_neg hw, if_neg h3, if_neg h4, if_neg h5, if_neg h6]
    exact h1
  · intro h1 h2
    have hw : find_wall_collision t.ambientlight ≠ 0 ∧ s.rw_state ≠ BOUNCE := by
      refine ⟨?_, h1⟩
      simp only [find_wall_collision, if_pos h2]
      decide
    simp only [loop_move, random_walk, if_pos hw, bounce_init]
    split_ifs <;> exact ⟨rfl, rfl⟩
  · intro h1 h2
    have hw : ¬ (find_wall_collision t.ambientlight ≠ 0 ∧ s.rw_state ≠ BOUNCE) :=
      fun h => h.2 h1
    simp only [loop_move, random_walk, if_neg hw, if_pos (And.intro h1 h2)]
  · intro h1 h2
    have hw : ¬ (find_wall_collision t.ambientlight ≠ 0 ∧ s.rw_state ≠ BOUNCE) :=
      fun h => h.2 h1
    have h3 : ¬ (s.rw_state = BOUNCE ∧ detect_light_level t.ambientlight ≠ GRAY) :=
      fun h => h.2 h2
    have h4 : ¬ s.rw_state = RW_INIT := by rw [h1]; exact hB.1
    have h5 : ¬ (s.rw_state = RW_STRAIGHT ∧
        t.kilo_ticks > (s.rw_last_changed + s.rw_state_dur) % U32) := by
      intro h; rw [h1] at h; exact hB.2.1 h.1
    have h6 : ¬ (s.rw_state = RW_TURN ∧
        t.kilo_ticks > (s.rw_last_changed + s.rw_state_dur) % U32) := by
      intro h; rw [h1] at h; exact hB.2.2 h.1
    simp only [loop_move, random_walk, if_neg hw, if_neg h3, if_neg h4, if_neg h5, if_neg h6]
    exact h1

/-- Claim C24 at a robot moving straight whose phase has not ended, which reads gray at
tick 5, and at a bouncing robot that reads gray at tick 6 and light at tick 7. -/
theorem boundary_override_witness :
    (loop_move (tick 5 400) bot_straight).rw_state = BOUNCE ∧
    (loop_move (tick 5 400) bot_straight).is_feature_detect_safe = FALSE ∧
    (loop_move (tick 6 400) bot_bouncing).rw_state = BOUNCE ∧
    (loop_move (tick 7 900) bot_bouncing).rw_state = RW_INIT :=
  ⟨((boundary_override (tick 5 400) 0 0 bot_straight).2.2.2.1 (by decide) (by decide)).1,
   ((boundary_override (tick 5 400) 0 0 bot_straight).2.2.2.1 (by decide) (by decide)).2,
   (boundary_override (tick 6 400) 0 0 bot_bouncing).2.2.2.2.2 (by decide) (by decide),
   (boundary_override (tick 7 900) 0 0 bot_bouncing).2.2.2.2.1 (by decide) (by decide)⟩

/-- Claim C22: a `loop` step of a running robot that starts in state OBSERVE or
OBSERVE_DISSEMINATE with no pending message returns.  If the observation interval has
elapsed and the light level is not GRAY, one is added to `dark_count` for DARK, to
`light_count` for LIGHT, and the other counter stays; `observation_ind` goes up by one
modulo 2^16; `decision` and `beta_thresh_val` stay when the decision was not -1 and are
the result of `update_decision` on the new counters when it was -1; without
simultaneity the state becomes DISSEMINATE and `state_change_timer` the tick, with
simultaneity both stay.  Otherwise the counters, `observation_ind`, the state, the
timer and the decision are as before. -/
theorem self_observation_step {R : Type} [LT R] [∀ a b : R, Decidable (a < b)] [One R]
    [Sub R] (K : Kilolib R) (t : Tick) (s : BayesBot R) (hr : Reachable K s)
    (hst : s.state = OBSERVE ∨ s.state = OBSERVE_DISSEMINATE) (hm : s.new_message = 0) :
    ∃ s1, loop K t s = some s1 ∧
      ((s.last_observation_tick + s.observe_step_time * K.SECOND) % U32 ≤ t.kilo_ticks ∧
          detect_light_level t.ambientlight ≠ GRAY →
        (detect_light_level t.ambientlight = DARK →
          s1.dark_count = (s.dark_count + 1) % U32 ∧ s1.light_count = s.light_count) ∧
        (detect_light_level t.ambientlight = LIGHT →
          s1.light_count = (s.light_count + 1) % U32 ∧ s1.dark_count = s.dark_count) ∧
        s1.observation_ind = (s.observation_ind + 1) % U16 ∧
        (s.decision ≠ -1 →
          s1.decision = s.decision ∧ s1.beta_thresh_val = s.beta_thresh_val) ∧
        (s.decision = -1 →
          s1.beta_thresh_val =
            K.incbeta ((s1.light_count + s.light_prior) % U32)
              ((s1.dark_count + s.dark_prior) % U32) ∧
          s1.decision =
            (if s1.beta_thresh_val > s.credible_thresh then 0
             else if s1.beta_thresh_val < 1 - s.credible_thresh then 1 else -1)) ∧
        (s.allow_simultaneity = 0 →
          s1.state = DISSEMINATE ∧ s1.state_change_timer = t.kilo_ticks) ∧
        (s.allow_simultaneity ≠ 0 →
          s1.state = s.state ∧ s1.state_change_timer = s.state_change_timer)) ∧
      (¬ ((s.last_observation_tick + s.observe_step_time * K.SECOND) % U32 ≤ t.kilo_ticks ∧
          detect_light_level t.ambientlight ≠ GRAY) →
        s1.light_count = s.light_count ∧ s1.dark_count = s.dark_count ∧
        s1.observation_ind = s.observation_ind ∧ s1.state = s.state ∧
        s1.state_change_timer = s.state_change_timer ∧
        s1.decision = s.decision ∧ s1.beta_thresh_val = s.beta_thresh_val) :=
  loop_self_observation K t s hst hm (reachable_new_observation K s hr)
    (reachable_counts_lt K s hr).1 (reachable_counts_lt K s hr).2

/-- Claim C22 at the robot without simultaneity, just set up, which passes over a dark
floor at tick 40: the observation is counted as dark and the robot disseminates. -/
theorem self_observation_step_witness :
    ∃ s1, loop K0 (tick 40 100) bot_single = some s1 ∧
      s1.dark_count = 1 ∧ s1.light_count = 0 ∧ s1.observation_ind = 1 ∧
      s1.state = DISSEMINATE ∧ s1.state_change_timer = 40 :=
  match self_observation_step K0 (tick 40 100) bot_single
      (Reachable.start _ _ _ _ _ _ _ (by unfold constructed; decide))
      (Or.inl (by decide!)) (by decide!) with
  | ⟨s1, h1, hacc, _⟩ =>
    ⟨s1, h1,
      ((hacc ⟨by decide!, by decide⟩).1 (by decide)).1.trans (by decide!),
      ((hacc ⟨by decide!, by decide⟩).1 (by decide)).2.trans (by decide!),
      (hacc ⟨by decide!, by decide⟩).2.2.1.trans (by decide!),
      ((hacc ⟨by decide!, by decide⟩).2.2.2.2.2.1 (by decide!)).1,
      ((hacc ⟨by decide!, by decide⟩).2.2.2.2.2.1 (by decide!)).2⟩

/-- Claim C23: while `neighbor_info_array_locked` is set, `message_rx` changes nothing.
For a running robot, which is unlocked between two `loop` steps, `message_rx` overwrites
the one-slot buffer, so after several deliveries the robot is as after the last one
alone, and the next `loop` step, in whatever state, passes that message to
`update_neighbor_info_array`.  After every `loop` step `new_message` and
`neighbor_info_array_locked` are FALSE. -/
theorem one_message_per_tick {R : Type} [LT R] [∀ a b : R, Decidable (a < b)] [One R]
    [Sub R] (K : Kilolib R) (t : Tick) (s : BayesBot R)
    (ms : List (message_t × distance_measurement_t)) (m : message_t)
    (d : distance_measurement_t) (hr : Reachable K s) :
    (∀ s2 : BayesBot R, s2.neighbor_info_array_locked ≠ 0 → message_rx m d s2 = s2) ∧
    (∀ s2 : BayesBot R, s2.neighbor_info_array_locked = 0 → message_rx m d s2 =
      { s2 with rx_message_buffer := m, rx_distance_buffer := d, new_message := TRUE }) ∧
    s.neighbor_info_array_locked = 0 ∧
    deliver (ms ++ [(m, d)]) s = message_rx m d s ∧
    loop K t (deliver (ms ++ [(m, d)]) s) =
      (update_neighbor_info_array m d t.kilo_ticks
        { loop_observe K t (loop_move t (message_rx m d s)) with
          neighbor_info_array_locked := TRUE }).map
        (fun u => loop_finish t
          { prune_neighbor_info_array t.kilo_ticks
              (decide_if_undecided K { u with new_message := FALSE }) with
            neighbor_info_array_locked := FALSE }) ∧
    (∀ s0 s1 : BayesBot R, loop K t s0 = some s1 →
      s1.new_message = FALSE ∧ s1.neighbor_info_array_locked = FALSE) := by
  have hu := reachable_unlocked K s hr
  have hrx : message_rx m d s =
      { s with rx_message_buffer := m, rx_distance_buffer := d, new_message := TRUE } := by
    simp only [message_rx, if_pos hu]
  have hdel : deliver (ms ++ [(m, d)]) s = message_rx m d s := by
    rw [hrx]; exact deliver_last ms m d s hu
  refine ⟨?_, ?_, hu, hdel, ?_, fun s0 s1 h => loop_clears_flags K t s0 s1 h⟩
  · intro s2 h2
    simp only [message_rx, if_neg h2]
  · intro s2 h2
    simp only [message_rx, if_pos h2]
  · rw [hdel]
    have hmv := loop_move_eq t (message_rx m d s)
    obtain ⟨b1, b2, b3⟩ := loop_observe_buffers K t (loop_move t (message_rx m d s))
    have m1 : (loop_move t (message_rx m d s)).rx_message_buffer = m := by rw [hmv, hrx]
    have m2 : (loop_move t (message_rx m d s)).rx_distance_buffer = d := by rw [hmv, hrx]
    have m3 : (loop_move t (message_rx m d s)).new_message = TRUE := by rw [hmv, hrx]
    have x1 := b1.trans m1
    have x2 := b2.trans m2
    have x3 := b3.trans m3
    simp only [loop, loop_receive, accept_message]
    generalize loop_observe K t (loop_move t (message_rx m d s)) = x at x1 x2 x3
    have hnm : ({ x with neighbor_info_array_locked := TRUE } : BayesBot R).new_message ≠ 0 := by
      show x.new_message ≠ 0
      rw [x3]; decide
    rw [if_pos hnm]
    clear hrx hdel hmv b1 b2 b3 m1 m2 m3
    subst x1 x2
    cases update_neighbor_info_array x.rx_message_buffer x.rx_distance_buffer t.kilo_ticks
      { x with neighbor_info_array_locked := TRUE } <;> rfl

/-- Claim C23 at the robot just set up: reports from robots 4 and 5 arrive before the
tick, and the step at tick 40 records robot 5 only. -/
theorem one_message_per_tick_witness :
    (deliver ([(msg 4 1 1, dist0)] ++ [(msg 5 0 1, dist0)]) bot_start).rx_message_buffer =
      msg 5 0 1 ∧
    (loop K0 (tick 40 400)
      (deliver ([(msg 4 1 1, dist0)] ++ [(msg 5 0 1, dist0)]) bot_start)).map
        (fun s1 => (count_neighbors s1, s1.neighbor_info_array.head?, s1.dark_count,
          s1.light_count, s1.new_message, s1.neighbor_info_array_locked)) =
      some (1, some ⟨5, 1, 40⟩, 1, 0, 0, 0) :=
  ⟨congrArg (fun x => x.rx_message_buffer)
      ((one_message_per_tick K0 (tick 40 400) bot_start [(msg 4 1 1, dist0)] (msg 5 0 1) dist0
        (Reachable.start _ _ _ _ _ _ _ (by unfold constructed; decide))).2.2.2.1.trans
      ((one_message_per_tick K0 (tick 40 400) bot_start [(msg 4 1 1, dist0)] (msg 5 0 1) dist0
        (Reachable.start _ _ _ _ _ _ _ (by unfold constructed; decide))).2.1 bot_start
          (by decide!))),
    by decide!⟩

/-- Claim C25: with `allow_simultaneity` set, the state is OBSERVE_DISSEMINATE after
`setup` and after every sequence of `loop` steps, received messages and transmit polls
that follows, so `message_tx` returns a message in each of these states; such a
sequence does run through when its `loop` steps come after tick 0.  Without
`allow_simultaneity` the state after `setup` is OBSERVE. -/
theorem simultaneous_mode {R : Type} [LT R] [∀ a b : R, Decidable (a < b)] [One R] [Sub R]
    (K : Kilolib R) (t : Tick) (s0 : BayesBot R) :
    (s0.allow_simultaneity ≠ 0 →
      (setup K t s0).state = OBSERVE_DISSEMINATE ∧
      (∀ (evs : List Event) (s1 : BayesBot R), run K evs (setup K t s0) = some s1 →
        s1.state = OBSERVE_DISSEMINATE ∧
        (message_tx K s1).1 = some (update_tx_message_data K s1).tx_message_data) ∧
      (∀ evs : List Event, (∀ ev ∈ evs, ev.after_start) →
        0 < s0.neighbor_info_array.length → ∃ s1, run K evs (setup K t s0) = some s1)) ∧
    (s0.allow_simultaneity = 0 → (setup K t s0).state = OBSERVE) := by
  obtain ⟨m1, _, _, m4, m5⟩ := setup_mode K t s0
  obtain ⟨t1, t2⟩ := setup_table K t s0
  refine ⟨fun ha => ⟨m4 ha, fun evs s1 h => ?_, fun evs hevs hlen => ?_⟩, m5⟩
  · obtain ⟨_, _, r3⟩ := run_mode K evs (setup K t s0) s1 h
    have hs : s1.state = OBSERVE_DISSEMINATE := (r3 (by rw [m1]; exact ha)).trans (m4 ha)
    refine ⟨hs, ?_⟩
    simp only [message_tx, if_pos (Or.inr hs)]
  · exact run_defined K evs (setup K t s0) hevs t1 (by rw [t2]; exact hlen)

/-- Claim C25 at the robot just set up with simultaneity, after a message, a tick over a
dark floor, a transmit poll and a tick over a light floor. -/
theorem simultaneous_mode_witness :
    bot_start.state = OBSERVE_DISSEMINATE ∧
    ∃ s1, run K0 events_decided bot_start = some s1 ∧ s1.state = OBSERVE_DISSEMINATE ∧
      (message_tx K0 s1).1 = some (update_tx_message_data K0 s1).tx_message_data :=
  ⟨((simultaneous_mode K0 (tick 0 400) (configure (19 / 20) 1 1 1 1 (bot0 table0))).1
      (by decide)).1,
    (run K0 events_decided bot_start).get (by decide!),
    (Option.some_get _).symm,
    ((simultaneous_mode K0 (tick 0 400) (configure (19 / 20) 1 1 1 1 (bot0 table0))).1
      (by decide)).2.1 events_decided _ (Option.some_get _).symm⟩

/-- Claim C26: from `rw_state` = RW_INIT with `is_feature_detect_safe` = FALSE, after any
sequence of `random_walk` calls, with any ticks, sensor readings, light levels and
random draws, `is_feature_detect_safe` is TRUE exactly when `rw_state` is
RW_STRAIGHT. -/
theorem safe_flag_tracks_state {R : Type} (steps : List (Tick × Nat)) (s : BayesBot R)
    (h1 : s.rw_state = RW_INIT) (h2 : s.is_feature_detect_safe = FALSE) :
    (random_walks steps s).is_feature_detect_safe = TRUE ↔
      (random_walks steps s).rw_state = RW_STRAIGHT :=
  random_walks_safe steps s (by rw [h1, h2])

/-- Claim C26 at the robot as constructed: after a dark floor it moves straight and the
flag is set, in the gray border it bounces and the flag is cleared, and two calls later
it moves straight again with the flag set. -/
theorem safe_flag_tracks_state_witness :
    (random_walks (walk_steps.take 2) (bot0 table0)).rw_state = BOUNCE ∧
    ¬ (random_walks (walk_steps.take 2) (bot0 table0)).is_feature_detect_safe = TRUE ∧
    (random_walks walk_steps (bot0 table0)).rw_state = RW_STRAIGHT ∧
    (random_walks walk_steps (bot0 table0)).is_feature_detect_safe = TRUE :=
  ⟨by decide,
    fun h => absurd ((safe_flag_tracks_state (walk_steps.take 2) (bot0 table0) rfl rfl).mp h)
      (by decide),
    by decide,
    (safe_flag_tracks_state walk_steps (bot0 table0) rfl rfl).mpr (by decide)⟩

/-- Claim C27: without simultaneity, a running robot has `observation_ind` at most 1
(0 while observing, 1 while disseminating); once its state is DISSEMINATE the state is
DISSEMINATE and `observation_ind` the same after every sequence of `loop` steps,
received messages and transmit polls; and in every such sequence at most one `loop`
step accepts a self-observation, none once the state is DISSEMINATE. -/
theorem single_self_observation {R : Type} [LT R] [∀ a b : R, Decidable (a < b)] [One R]
    [Sub R] (K : Kilolib R) (s : BayesBot R) (hr : Reachable K s)
    (ha : s.allow_simultaneity = 0) :
    s.observation_ind ≤ 1 ∧
    ((s.state = OBSERVE ∧ s.observation_ind = 0) ∨
      (s.state = DISSEMINATE ∧ s.observation_ind = 1)) ∧
    (s.state = DISSEMINATE → ∀ (evs : List Event) (s1 : BayesBot R),
      run K evs s = some s1 →
        s1.state = DISSEMINATE ∧ s1.observation_ind = s.observation_ind) ∧
    (∀ evs : List Event, self_observations K evs s ≤ 1) ∧
    (s.state = DISSEMINATE → ∀ evs : List Event, self_observations K evs s = 0) := by
  have hmode := reachable_mode K s hr ha
  refine ⟨?_, hmode, fun hd evs s1 h => (run_mode K evs s s1 h).2.1 hd,
    fun evs => (self_observations_le K evs s ha).1,
    fun hd evs => (self_observations_le K evs s ha).2 hd⟩
  rcases hmode with ⟨_, h⟩ | ⟨_, h⟩ <;> exact le_of_eq_of_le h (by decide)

/-- Claim C27 at the robot without simultaneity, just set up: the tick over a dark
floor is its one self-observation, and after a message and two more ticks it is
still disseminating with `observation_ind` 1. -/
theorem single_self_observation_witness :
    self_observations K0 events_single bot_single = 1 ∧
    ∃ s1, run K0 events_single bot_single = some s1 ∧ s1.state = DISSEMINATE ∧
      s1.observation_ind ≤ 1 ∧ self_observations K0 events_single s1 = 0 :=
  ⟨by decide!,
    (run K0 events_single bot_single).get (by decide!),
    (Option.some_get _).symm,
    by decide!,
    (single_self_observation K0 _
      (reachable_run K0 events_single bot_single _
        (Reachable.start _ _ _ _ _ _ _ (by unfold constructed; decide))
        (Option.some_get _).symm)
      (by decide!)).1,
    (single_self_observation K0 _
      (reachable_run K0 events_single bot_single _
        (Reachable.start _ _ _ _ _ _ _ (by unfold constructed; decide))
        (Option.some_get _).symm)
      (by decide!)).2.2.2.2 (by decide!) events_single⟩

end Kilosim
